import Mathlib

/-!
Warren Terraform provider: reconciliation protocol and transport client.

A shallow embedding of the Go sources of the Warren Platform Terraform
provider (`pkg/warren/apis`, `pkg/warren`, `pkg/provider/resources` and the
vendored `go-client/warren` package), followed by theorems about it.

Conventions of the embedding:

* a Go `string` is the list of its bytes (`GoString`), so that `strings.Index`
  and slicing `s[i:j]` count bytes exactly as Go does;
* a Go `error` is a value of `GoError`, which records the text returned by
  `Error()` and the errors reachable through `Unwrap`; `nil` is `none`;
* a call of the REST client is answered by a response function that sees the
  sequence of calls issued so far (`Trace`), which makes the remote platform
  an arbitrary deterministic server; every call is appended to the trace.
-/

namespace Warren

/-! ## Go strings -/

/-- A Go string, as the sequence of its bytes. -/
abbrev GoString := List Nat

/-- The bytes of an ASCII string literal of the source. -/
def lit (s : String) : GoString := s.toList.map Char.toNat

/-- Go `strings.HasPrefix(s, pre)`. -/
def HasPrefix (s pre : GoString) : Bool := pre.isPrefixOf s

/-- Search loop of `strings.Index`: the offset of the first occurrence of
`substr` in `s`, counted from `i`, or `-1`. -/
def IndexFrom (substr : GoString) : GoString → Nat → Int
  | [], i => if substr.isPrefixOf [] then (i : Int) else -1
  | c :: cs, i => if substr.isPrefixOf (c :: cs) then (i : Int) else IndexFrom substr cs (i + 1)

/-- Go `strings.Index(s, substr)`. -/
def Index (s substr : GoString) : Int := IndexFrom substr s 0

/-- Go slice expression `s[lo:hi]` (for `lo ≤ hi ≤ len(s)`, which every call
site below guarantees through its guard). -/
def slice (s : GoString) (lo hi : Nat) : GoString := (s.drop lo).take (hi - lo)

/-- Decimal digits of a natural number, most significant first, as ASCII bytes. -/
def formatNatAux : Nat → Nat → List Nat → List Nat
  | 0, _, acc => acc
  | fuel + 1, n, acc =>
    if n < 10 then (48 + n) :: acc
    else formatNatAux fuel (n / 10) ((48 + n % 10) :: acc)

/-- Decimal rendering of a natural number. -/
def formatNat (n : Nat) : GoString := formatNatAux (n + 1) n []

/-- Go `strconv.Itoa(i)` and the `%d` verb of `fmt` for an `int`. -/
def Itoa (i : Int) : GoString :=
  if i < 0 then 45 :: formatNat i.natAbs else formatNat i.toNat

/-! ## Go errors -/

/-- The package-level error values of `pkg/warren/apis/types.go`. Each is
created once by `errors.New`, so two of them are equal only if they are the
same variable. -/
inductive Sentinel
  | ErrFloatingIPNotFound
  | ErrImageNotFound
  | ErrLoadBalancerNotFound
  | ErrLocationNotFound
  | ErrRateLimitExceeded
  | ErrNetworkNotFound
  | ErrServerIsLocked
  | ErrServerNotFound
  | ErrUnknownInternal
  | ErrVolumeNotFound
  deriving DecidableEq, Repr

/-- The message given to `errors.New` for each package-level error. -/
def Sentinel.text : Sentinel → GoString
  | .ErrFloatingIPNotFound => lit "Floating IP not found"
  | .ErrImageNotFound => lit "Image not found"
  | .ErrLoadBalancerNotFound => lit "Load balancer not found"
  | .ErrLocationNotFound => lit "Location not found"
  | .ErrRateLimitExceeded => lit "API rate limit exceeded error"
  | .ErrNetworkNotFound => lit "Network not found"
  | .ErrServerIsLocked => lit "Server is locked"
  | .ErrServerNotFound => lit "Server not found"
  | .ErrUnknownInternal => lit "Internal API error"
  | .ErrVolumeNotFound => lit "Volume not found"

/-- A non-nil Go error value: one of the package-level errors, an error that
wraps nothing (`errors.New`, `fmt.Errorf` without `%w`, or an error of
another package), or the result of `fmt.Errorf` with one or two `%w` verbs. -/
inductive GoError
  | sentinel (s : Sentinel)
  | plain (text : GoString)
  | wrap (text : GoString) (inner : GoError)
  | wrap2 (text : GoString) (first second : GoError)
  deriving DecidableEq, Repr

/-- Go `err.Error()`. -/
def GoError.Error : GoError → GoString
  | .sentinel s => s.text
  | .plain t => t
  | .wrap t _ => t
  | .wrap2 t _ _ => t

/-- Go `errors.Is(err, target)`: `err` is `target` or wraps it, searching the
wrapped errors depth first. Identity of error values is rendered as equality
of the embedded values. -/
def errorsIs : GoError → GoError → Bool
  | .sentinel s, target => decide (GoError.sentinel s = target)
  | .plain t, target => decide (GoError.plain t = target)
  | .wrap t inner, target => decide (GoError.wrap t inner = target) || errorsIs inner target
  | .wrap2 t a b, target =>
    decide (GoError.wrap2 t a b = target) || errorsIs a target || errorsIs b target

deriving instance DecidableEq for Except

/-- A panic of the Go runtime. -/
inductive Panic
  | nilDereference
  | sliceOutOfRange
  | indexOutOfRange
  deriving DecidableEq, Repr

/-! ## Terraform framework values -/

/-- A value of the Terraform plugin framework (`types.String`, `types.Int64`,
`types.Bool`, `types.List`): null, unknown, or known. The zero value is null. -/
inductive Tf (α : Type)
  | null
  | unknown
  | value (v : α)
  deriving DecidableEq, Repr

/-- Framework method `IsNull()`. -/
def Tf.IsNull {α : Type} : Tf α → Bool
  | .null => true
  | _ => false

/-- Framework method `IsUnknown()`. -/
def Tf.IsUnknown {α : Type} : Tf α → Bool
  | .unknown => true
  | _ => false

/-- Framework method `Equal`: same state and, when known, same value. -/
def Tf.Equal {α : Type} [DecidableEq α] (a b : Tf α) : Bool := decide (a = b)

/-- Framework method `ValueString()`: the empty string when null or unknown. -/
def Tf.ValueString : Tf GoString → GoString
  | .value v => v
  | _ => []

/-- Framework method `ValueInt64()`: zero when null or unknown. -/
def Tf.ValueInt64 : Tf Int → Int
  | .value v => v
  | _ => 0

/-- Framework method `ValueBool()`: false when null or unknown. -/
def Tf.ValueBool : Tf Bool → Bool
  | .value v => v
  | _ => false

/-- Framework method `String()` of a `types.Bool`. -/
def Tf.BoolString : Tf Bool → GoString
  | .null => lit "<null>"
  | .unknown => lit "<unknown>"
  | .value true => lit "true"
  | .value false => lit "false"

/-- An error diagnostic added by `resp.Diagnostics.AddError(summary, detail)`. -/
structure Diagnostic where
  Summary : GoString
  Detail : GoString
  deriving DecidableEq, Repr

/-- What an operation did to `resp.State`: left it as the framework passed it
in, removed the resource (`RemoveResource`), or stored a model (`Set`). -/
inductive StateChange (M : Type)
  | unchanged
  | removed
  | set (data : M)
  deriving DecidableEq, Repr

/-- The response of a resource operation. -/
structure Response (M : Type) where
  Diagnostics : List Diagnostic
  State : StateChange M
  deriving DecidableEq, Repr

/-! ## Go standard library used by the provider -/

/-- Go `net.IP`: a byte slice; the nil address is the empty slice. -/
abbrev IP := List Nat

/-- Go `net.IPNet`. -/
structure IPNet where
  IP : IP
  Mask : List Nat
  deriving DecidableEq, Repr

/-- The functions of Go package `net` the provider calls. They belong to the
standard library, so the embedding takes them as parameters; `contains_nil`
records that `IPNet.Contains` of a network returned by `ParseCIDR` answers
false for the nil address (its length differs from that of the network
number, which has 4 or 16 bytes). -/
structure NetPkg where
  ParseIP : GoString → IP
  ParseCIDR : GoString → Except GoError (IP × IPNet)
  Contains : IPNet → IP → Bool
  contains_nil : ∀ s a n, ParseCIDR s = .ok (a, n) → Contains n [] = false

/-- Value of a non-empty run of ASCII decimal digits. -/
def parseDigits : GoString → Nat → Option Nat
  | [], _ => none
  | [d], acc => if 48 ≤ d ∧ d ≤ 57 then some (acc * 10 + (d - 48)) else none
  | d :: rest, acc => if 48 ≤ d ∧ d ≤ 57 then parseDigits rest (acc * 10 + (d - 48)) else none

/-- Go `strconv.Atoi` for a 64-bit `int`: an optional sign and decimal digits.
The error wraps `strconv.ErrSyntax` or `strconv.ErrRange`; the quoting of the
input in its text is exact for printable ASCII without quote or backslash. -/
def Atoi (s : GoString) : Except GoError Int :=
  let body := match s with
    | 43 :: r => r
    | 45 :: r => r
    | _ => s
  let neg := match s with
    | 45 :: _ => true
    | _ => false
  match parseDigits body 0 with
  | none =>
    .error (.wrap (lit "strconv.Atoi: parsing \"" ++ s ++ lit "\": invalid syntax")
      (.plain (lit "invalid syntax")))
  | some n =>
    let v : Int := if neg then -(n : Int) else (n : Int)
    if v < -(2 : Int) ^ 63 ∨ v > (2 : Int) ^ 63 - 1 then
      .error (.wrap (lit "strconv.Atoi: parsing \"" ++ s ++ lit "\": value out of range")
        (.plain (lit "value out of range")))
    else .ok v

/-- Go conversion `int64(x)` of a `uint64` value: the same 64 bits read as a
signed integer. -/
def int64OfUint64 (x : Nat) : Int :=
  if x % 2 ^ 64 < 2 ^ 63 then ((x % 2 ^ 64 : Nat) : Int) else ((x % 2 ^ 64 : Nat) : Int) - 2 ^ 64

/-- Replacement loop of `strings.ReplaceAll` for a non-empty `old`: `skip`
counts the bytes of a matched occurrence still to be passed over. -/
def ReplaceAll.go (old new : GoString) : GoString → Nat → GoString
  | [], _ => []
  | _ :: cs, skip + 1 => ReplaceAll.go old new cs skip
  | c :: cs, 0 =>
    if old.isPrefixOf (c :: cs) then new ++ ReplaceAll.go old new cs (old.length - 1)
    else c :: ReplaceAll.go old new cs 0

/-- Go `strings.ReplaceAll(s, old, new)` for a non-empty `old`: every
non-overlapping occurrence, from the left, is replaced. -/
def ReplaceAll (s old new : GoString) : GoString := ReplaceAll.go old new s 0

/-- Splitting loop of `strings.Split` for a non-empty separator; the head of
the result is the piece being read. -/
def Split.go (sep : GoString) : GoString → Nat → List GoString
  | [], _ => [[]]
  | _ :: cs, skip + 1 => Split.go sep cs skip
  | c :: cs, 0 =>
    if sep.isPrefixOf (c :: cs) then [] :: Split.go sep cs (sep.length - 1)
    else
      match Split.go sep cs 0 with
      | [] => [[c]]
      | piece :: pieces => (c :: piece) :: pieces

/-- Go `strings.Split(s, sep)` for a non-empty separator. -/
def Split (s sep : GoString) : List GoString := Split.go sep s 0

/-- Counting loop of `strings.Count` for a non-empty `substr`: `skip` counts
the bytes of a matched occurrence still to be passed over. -/
def Count.go (substr : GoString) : GoString → Nat → Nat
  | [], _ => 0
  | _ :: cs, skip + 1 => Count.go substr cs skip
  | c :: cs, 0 =>
    if substr.isPrefixOf (c :: cs) then 1 + Count.go substr cs (substr.length - 1)
    else Count.go substr cs 0

/-- Go `strings.Count(s, substr)` for a non-empty `substr`: the number of
non-overlapping occurrences. -/
def Count (s substr : GoString) : Nat := Count.go substr s 0

/-- Go `strings.Join(elems, sep)`. -/
def Join (elems : List GoString) (sep : GoString) : GoString :=
  match elems with
  | [] => []
  | first :: rest => rest.foldl (fun acc e => acc ++ sep ++ e) first

namespace apis

/-! ## pkg/warren/apis: error values and classifiers -/

def ErrFloatingIPNotFound : GoError := .sentinel .ErrFloatingIPNotFound
def ErrImageNotFound : GoError := .sentinel .ErrImageNotFound
def ErrLoadBalancerNotFound : GoError := .sentinel .ErrLoadBalancerNotFound
def ErrLocationNotFound : GoError := .sentinel .ErrLocationNotFound
def ErrRateLimitExceeded : GoError := .sentinel .ErrRateLimitExceeded
def ErrNetworkNotFound : GoError := .sentinel .ErrNetworkNotFound
def ErrServerIsLocked : GoError := .sentinel .ErrServerIsLocked
def ErrServerNotFound : GoError := .sentinel .ErrServerNotFound
def ErrUnknownInternal : GoError := .sentinel .ErrUnknownInternal
def ErrVolumeNotFound : GoError := .sentinel .ErrVolumeNotFound

/-- Body of `GetErrorFromHttpCallError` (client.go) after its nil check. The
`case "400":` of the Go switch has an empty body and Go cases do not fall
through, so it leaves the switch and reaches the final `return err`. -/
def GetErrorFromHttpCallError.nonNil (e : GoError) : GoError :=
  let errString := e.Error
  if HasPrefix errString (lit "[") && Index errString (lit "]") == 4 then
    let code := slice errString 1 4
    if code = lit "400" then e
    else if code = lit "500" then
      .wrap2 (ErrUnknownInternal.Error ++ lit ": " ++ e.Error) ErrUnknownInternal e
    else if code = lit "429" then ErrRateLimitExceeded
    else e
  else e

/-- Go `GetErrorFromHttpCallError` of client.go: nil is returned as nil. -/
def GetErrorFromHttpCallError : Option GoError → Option GoError
  | none => none
  | some e => some (GetErrorFromHttpCallError.nonNil e)

/-- Body of `GetServerErrorFromHttpCallError` (server.go) after its nil check. -/
def GetServerErrorFromHttpCallError.nonNil (e : GoError) : GoError :=
  let errString := e.Error
  if HasPrefix errString (lit "[") && Index errString (lit "]") == 4 then
    let code := slice errString 1 4
    if code = lit "400" then
      if Index errString (lit "No such virtual machine exists") > -1 then ErrServerNotFound
      else GetErrorFromHttpCallError.nonNil e
    else if code = lit "404" then ErrServerNotFound
    else if code = lit "409" then ErrServerIsLocked
    else GetErrorFromHttpCallError.nonNil e
  else e

/-- Go `GetServerErrorFromHttpCallError` of server.go. -/
def GetServerErrorFromHttpCallError : Option GoError → Option GoError
  | none => none
  | some e => some (GetServerErrorFromHttpCallError.nonNil e)

/-- Body of `GetVolumeErrorFromHttpCallError` (volume.go) after its nil check. -/
def GetVolumeErrorFromHttpCallError.nonNil (e : GoError) : GoError :=
  let errString := e.Error
  if HasPrefix errString (lit "[") && Index errString (lit "]") == 4 then
    let code := slice errString 1 4
    if code = lit "404" then ErrVolumeNotFound
    else GetErrorFromHttpCallError.nonNil e
  else e

/-- Go `GetVolumeErrorFromHttpCallError` of volume.go. -/
def GetVolumeErrorFromHttpCallError : Option GoError → Option GoError
  | none => none
  | some e => some (GetVolumeErrorFromHttpCallError.nonNil e)

/-- Body of `GetNetworkErrorFromHttpCallError` (network.go) after its nil check. -/
def GetNetworkErrorFromHttpCallError.nonNil (e : GoError) : GoError :=
  let errString := e.Error
  if HasPrefix errString (lit "[") && Index errString (lit "]") == 4 then
    let code := slice errString 1 4
    if code = lit "404" then ErrNetworkNotFound
    else GetErrorFromHttpCallError.nonNil e
  else e

/-- Go `GetNetworkErrorFromHttpCallError` of network.go. -/
def GetNetworkErrorFromHttpCallError : Option GoError → Option GoError
  | none => none
  | some e => some (GetNetworkErrorFromHttpCallError.nonNil e)

/-- Body of `GetFloatingIPErrorFromHttpCallError` (floating_ip.go) after its
nil check. -/
def GetFloatingIPErrorFromHttpCallError.nonNil (e : GoError) : GoError :=
  let errString := e.Error
  if HasPrefix errString (lit "[") && Index errString (lit "]") == 4 then
    let code := slice errString 1 4
    if code = lit "404" then ErrFloatingIPNotFound
    else GetErrorFromHttpCallError.nonNil e
  else e

/-- Go `GetFloatingIPErrorFromHttpCallError` of floating_ip.go. -/
def GetFloatingIPErrorFromHttpCallError : Option GoError → Option GoError
  | none => none
  | some e => some (GetFloatingIPErrorFromHttpCallError.nonNil e)

/-- Go `GetLocationErrorFromHttpCallError` of location.go. Unlike its siblings it
has no nil check: `err.Error()` on a nil error panics. -/
def GetLocationErrorFromHttpCallError : Option GoError → Except Panic (Option GoError)
  | none => .error .nilDereference
  | some e =>
    let errString := e.Error
    if HasPrefix errString (lit "[") && Index errString (lit "]") == 4 then
      let code := slice errString 1 4
      if code = lit "404" then .ok (some ErrLocationNotFound)
      else .ok (some (GetErrorFromHttpCallError.nonNil e))
    else .ok (some e)

end apis

namespace warren

/-! ## vendor go-client/warren: the transport client -/

/-- Go `ResponseError` of warren.go: the decoded body of a failed call. The Go
map `Errors` is given by its entries (with distinct keys). -/
structure ResponseError where
  Message : GoString
  Errors : List (GoString × GoString)
  deriving DecidableEq, Repr

/-- Byte-wise lexicographic order of Go strings (`a < b`). -/
def strLt : GoString → GoString → Bool
  | [], [] => false
  | [], _ :: _ => true
  | _ :: _, [] => false
  | a :: as, b :: bs => if a < b then true else if b < a then false else strLt as bs

/-- Insertion of a map entry into a list of entries sorted by key. -/
def insertEntry (kv : GoString × GoString) : List (GoString × GoString) → List (GoString × GoString)
  | [] => [kv]
  | x :: xs => if strLt x.1 kv.1 then x :: insertEntry kv xs else kv :: x :: xs

/-- The entries of a map in the key order in which `fmt` prints them. -/
def sortEntries : List (GoString × GoString) → List (GoString × GoString)
  | [] => []
  | x :: xs => insertEntry x (sortEntries xs)

/-- The entries `k:v` of a printed map, separated by single spaces. -/
def fmtEntries : List (GoString × GoString) → GoString
  | [] => []
  | [kv] => kv.1 ++ lit ":" ++ kv.2
  | kv :: rest => kv.1 ++ lit ":" ++ kv.2 ++ lit " " ++ fmtEntries rest

/-- The `%v` verb of `fmt` for a `map[string]string`. -/
def fmtMap (m : List (GoString × GoString)) : GoString :=
  lit "map[" ++ fmtEntries (sortEntries m) ++ lit "]"

/-- Go `ApiCall` of warren.go, the parameters of one call. A Go map is given by
its entries; `jsonBody` is `none` for a nil interface value. The field
`responseData`, the target the response is decoded into, appears in
`Client.Call` below as the decoder it stands for. -/
structure ApiCall (J : Type) where
  method : GoString
  slug : GoString
  path : GoString
  headers : List (GoString × GoString)
  queryParams : List (GoString × GoString)
  formParams : List (GoString × GoString)
  jsonBody : Option J

/-- Go `BuildBody` of warren.go: the body text and the content type, or the
returned error. `urlEncode` stands for `url.Values.Encode` of the values set
from `formParams`, `jsonMarshal` for `json.Marshal`. The two `if` statements
of the source are independent: the second overwrites what the first assigned. -/
def BuildBody {J : Type} (urlEncode : List (GoString × GoString) → GoString)
    (jsonMarshal : J → Except GoError GoString) (params : ApiCall J) :
    Except GoError (GoString × GoString) :=
  let afterForm : GoString × Option GoString :=
    if params.formParams.length > 0 then
      (lit "application/x-www-form-urlencoded", some (urlEncode params.formParams))
    else ([], none)
  match params.jsonBody with
  | some jsonBody =>
    match jsonMarshal jsonBody with
    | .error err => .error (.wrap (lit "failed to convert jsonBody to JSON: " ++ err.Error) err)
    | .ok bodyBytes => .ok (bodyBytes, lit "application/json; charset=utf-8")
  | none =>
    match afterForm.2 with
    | some body => .ok (body, afterForm.1)
    | none => .ok ([], afterForm.1)

/-- The path of the relative URL that `Client.Call` resolves against the base
URL (the first lines of `Call`): `fmt.Sprintf("/v1%s%s", slug, params.path)`
with `slug` set from the client's location and then from the call's slug. -/
def Client.Call.relPath (LocationSlug paramsSlug path : GoString) : GoString :=
  let slug0 : GoString := []
  let slug1 : GoString := if LocationSlug.length > 0 then lit "/" ++ LocationSlug else slug0
  let slug2 : GoString := if paramsSlug.length > 0 then lit "/" ++ paramsSlug else slug1
  lit "/v1" ++ slug2 ++ path

/-- What `c.client.Do(req)` hands back on success, as far as `Call` looks at
it: the status code, the outcome of reading the body to its end, and the
value of the `X-Warren-Correlation-Id` header. -/
structure HttpResponse where
  StatusCode : Int
  Body : Except GoError GoString
  CorrelationId : GoString

/-- Go `Client.Call` of warren.go from `http.NewRequest` on. The parameters stand
for what the Go standard library returns: `newRequestErr` is the error of
`http.NewRequest`, `doResult` the result of `c.client.Do(req)`, `decodeError`
is `json.Decoder.Decode` into a `ResponseError`, and `responseData` is `none`
when `params.responseData` is nil and otherwise the error (if any) of decoding
the body into it. The result is the returned `error`. -/
def Client.Call (newRequestErr : Option GoError) (doResult : Except GoError HttpResponse)
    (decodeError : GoString → Except GoError ResponseError)
    (responseData : Option (Except GoError GoString → Option GoError)) : Option GoError :=
  match newRequestErr with
  | some err => some (.wrap (lit "failed to create HTTP request: " ++ err.Error) err)
  | none =>
    match doResult with
    | .error err => some (.wrap (lit "failed to call HTTP request: " ++ err.Error) err)
    | .ok resp =>
      let reqId := resp.CorrelationId
      if resp.StatusCode ≥ 300 then
        match resp.Body with
        | .error err =>
          some (.wrap (lit "[" ++ Itoa resp.StatusCode ++ lit "] failed to read error response: "
            ++ err.Error ++ lit " " ++ reqId) err)
        | .ok buf =>
          if buf.length = 0 then
            some (.plain (lit "[" ++ Itoa resp.StatusCode ++ lit "] empty error response " ++ reqId))
          else
            match decodeError buf with
            | .error err =>
              some (.wrap (lit "[" ++ Itoa resp.StatusCode
                ++ lit "] failed to parse error response, body: " ++ buf ++ lit ", err: "
                ++ err.Error ++ lit " " ++ reqId) err)
            | .ok errMess =>
              if errMess.Message.length = 0 ∧ errMess.Errors.length = 0 then
                some (.plain (lit "[" ++ Itoa resp.StatusCode
                  ++ lit "] failed to parse meaningful data from error response, body: "
                  ++ buf ++ lit " " ++ reqId))
              else
                some (.plain (lit "[" ++ Itoa resp.StatusCode ++ lit "] " ++ errMess.Message
                  ++ lit ", " ++ fmtMap errMess.Errors ++ lit ", " ++ reqId))
      else
        match responseData with
        | none => none
        | some decode =>
          match decode resp.Body with
          | some err => some (.wrap (lit "failed to parse response: " ++ err.Error ++ lit " " ++ reqId) err)
          | none => none

/-! ## vendor go-client/warren: platform objects and service methods -/

/-- Go `Snapshot` of block_storage.go. -/
structure Snapshot where
  Uuid : GoString
  SizeGb : Int
  CreatedAt : GoString
  DiskUuid : GoString
  deriving DecidableEq, Repr

/-- Go `Disk` of block_storage.go. -/
structure Disk where
  Uuid : GoString
  Status : GoString
  UserId : Int
  BillingAccountId : Int
  SizeGb : Int
  SourceImageType : GoString
  SourceImage : GoString
  CreatedAt : GoString
  UpdatedAt : GoString
  Snapshots : List Snapshot
  StatusComment : GoString
  deriving DecidableEq, Repr

/-- Go `CreateDiskRequest` of block_storage.go; a nil pointer field is `none`. -/
structure CreateDiskRequest where
  SizeGb : Option Int
  BillingAccountId : Option Int
  SourceImageType : Option GoString
  SourceImage : Option GoString
  deriving DecidableEq, Repr

/-- Go `StorageReplica` of virtual_machine.go. -/
structure StorageReplica where
  CreatedAt : GoString
  MasterUuid : GoString
  Size : Int
  Type_ : GoString
  Uuid : GoString
  deriving DecidableEq, Repr

/-- Go `VMStorage` of virtual_machine.go. -/
structure VMStorage where
  CreatedAt : GoString
  Name : GoString
  Primary : Bool
  Replica : List StorageReplica
  Size : Int
  UserId : Int
  Uuid : GoString
  deriving DecidableEq, Repr

/-- Go `VirtualMachine` of virtual_machine.go; `BillingAccount` and `UserId` are
`uint64`. -/
structure VirtualMachine where
  Backup : Bool
  BillingAccount : Nat
  CreatedAt : GoString
  Description : GoString
  Hostname : GoString
  Mac : GoString
  Memory : Int
  Name : GoString
  OsName : GoString
  OsVersion : GoString
  PrivateIPv4 : GoString
  PublicIPv6 : GoString
  Status : GoString
  Storage : List VMStorage
  UpdatedAt : GoString
  UserId : Nat
  Username : GoString
  Uuid : GoString
  VCpu : Int
  deriving DecidableEq, Repr

/-- Go `CreateVirtualMachineRequest` of virtual_machine.go. -/
structure CreateVirtualMachineRequest where
  Name : Option GoString
  OsName : Option GoString
  OsVersion : Option GoString
  Disks : Option Int
  VCpu : Option Int
  Ram : Option Int
  Username : Option GoString
  Password : Option GoString
  BillingAccountId : Option Int
  Backup : Option Bool
  PublicKey : Option GoString
  NetworkUuid : Option GoString
  SourceReplica : Option GoString
  SourceUuid : Option GoString
  ReservePublicIp : Option Bool
  CloudInit : Option GoString
  deriving DecidableEq, Repr

/-- Go `Location` of location.go. -/
structure Location where
  DisplayName : GoString
  IsDefault : Bool
  IsPreferred : Bool
  Description : GoString
  OrderNr : Int
  Slug : GoString
  CountryCode : GoString
  deriving DecidableEq, Repr

/-- Go `Network` of network.go. -/
structure Network where
  VlanId : Int
  Subnet : GoString
  SubnetIPv6 : GoString
  Name : GoString
  CreatedAt : GoString
  UpdatedAt : GoString
  Uuid : GoString
  Type_ : GoString
  IsDefault : Bool
  VmUuids : List GoString
  ResourcesCount : Int
  deriving DecidableEq, Repr

/-- Go `FloatingIp` of network.go. -/
structure FloatingIp where
  Id : Int
  IsIPv6 : Bool
  Address : GoString
  UserId : Int
  BillingAccountId : Int
  Type_ : GoString
  Name : GoString
  Enabled : Bool
  CreatedAt : GoString
  UpdatedAt : GoString
  Uuid : GoString
  AssignedTo : GoString
  AssignedToResourceType : GoString
  AssignedToPrivateIp : GoString
  deriving DecidableEq, Repr

/-- Go `CreateFloatingIpRequest` of network.go. -/
structure CreateFloatingIpRequest where
  Name : Option GoString
  BillingAccountId : Option Int
  deriving DecidableEq, Repr

/-- A call of a service method of the client, with its arguments. -/
inductive ServiceCall
  | CreateDisk (req : CreateDiskRequest)
  | GetDiskById (diskUuid : GoString)
  | DeleteDiskById (diskUuid : GoString)
  | GetByUuid (uuid : GoString)
  | ListVms
  | CreateVirtualMachine (createVm : CreateVirtualMachineRequest)
  | DeleteVm (uuid : GoString)
  | AttachDisk (vmUuid diskUuid : GoString)
  | DetachDisk (vmUuid diskUuid : GoString)
  | GetNetworkByUUID (networkUUID : GoString)
  | ListNetworks
  | CreateNetwork (networkName : GoString)
  | DeleteNetworkByUUID (networkUUID : GoString)
  | ChangeNetworkName (uuid : GoString) (newName : Option GoString)
  | ListFloatingIps
  | CreateFloatingIp (createIp : CreateFloatingIpRequest)
  | AssignFloatingIp (ipAddress : IP) (vmUuid : GoString)
  | UnAssignFloatingIp (ipAddress : IP)
  | DeleteFloatingIp (ipAddress : IP)
  | ListLocations
  deriving DecidableEq, Repr

/-- The calls issued so far, oldest first. -/
abbrev Trace := List ServiceCall

/-- The configured client together with the platform behind it: for every
service method, what `Client.Call` makes it return, given the calls issued
before it. A method with a result returns either the error or the decoded
object, as every service method does (`return nil, err` or `return &resp, err`
with `err` nil). -/
structure Client where
  CreateDisk : Trace → CreateDiskRequest → Except GoError Disk
  GetDiskById : Trace → GoString → Except GoError Disk
  DeleteDiskById : Trace → GoString → Option GoError
  GetByUuid : Trace → GoString → Except GoError VirtualMachine
  ListVms : Trace → Except GoError (List VirtualMachine)
  CreateVirtualMachine : Trace → CreateVirtualMachineRequest → Except GoError VirtualMachine
  DeleteVm : Trace → GoString → Option GoError
  AttachDisk : Trace → GoString → GoString → Except GoError VMStorage
  DetachDisk : Trace → GoString → GoString → Option GoError
  GetNetworkByUUID : Trace → GoString → Except GoError Network
  ListNetworks : Trace → Except GoError (List Network)
  CreateNetwork : Trace → GoString → Except GoError Network
  DeleteNetworkByUUID : Trace → GoString → Option GoError
  ChangeNetworkName : Trace → GoString → Option GoString → Except GoError Network
  ListFloatingIps : Trace → Except GoError (List FloatingIp)
  CreateFloatingIp : Trace → CreateFloatingIpRequest → Except GoError FloatingIp
  AssignFloatingIp : Trace → IP → GoString → Except GoError FloatingIp
  UnAssignFloatingIp : Trace → IP → Except GoError FloatingIp
  DeleteFloatingIp : Trace → IP → Option GoError
  ListLocations : Trace → Except GoError (List Location)

/-- Go `BlockStorageService.CreateDisk`. -/
def BlockStorageService.CreateDisk (c : Client) (req : CreateDiskRequest) (tr : Trace) :
    Except GoError Disk × Trace :=
  (c.CreateDisk tr req, tr ++ [.CreateDisk req])

/-- Go `BlockStorageService.GetDiskById`. -/
def BlockStorageService.GetDiskById (c : Client) (diskUuid : GoString) (tr : Trace) :
    Except GoError Disk × Trace :=
  (c.GetDiskById tr diskUuid, tr ++ [.GetDiskById diskUuid])

/-- Go `BlockStorageService.DeleteDiskById`. -/
def BlockStorageService.DeleteDiskById (c : Client) (diskUuid : GoString) (tr : Trace) :
    Option GoError × Trace :=
  (c.DeleteDiskById tr diskUuid, tr ++ [.DeleteDiskById diskUuid])

/-- Go `VirtualMachineService.GetByUuid`. -/
def VirtualMachineService.GetByUuid (c : Client) (uuid : GoString) (tr : Trace) :
    Except GoError VirtualMachine × Trace :=
  (c.GetByUuid tr uuid, tr ++ [.GetByUuid uuid])

/-- Go `VirtualMachineService.ListVms`. -/
def VirtualMachineService.ListVms (c : Client) (tr : Trace) :
    Except GoError (List VirtualMachine) × Trace :=
  (c.ListVms tr, tr ++ [.ListVms])

/-- Go `VirtualMachineService.CreateVirtualMachine`. -/
def VirtualMachineService.CreateVirtualMachine (c : Client)
    (createVm : CreateVirtualMachineRequest) (tr : Trace) :
    Except GoError VirtualMachine × Trace :=
  (c.CreateVirtualMachine tr createVm, tr ++ [.CreateVirtualMachine createVm])

/-- Go `VirtualMachineService.DeleteVm`. -/
def VirtualMachineService.DeleteVm (c : Client) (uuid : GoString) (tr : Trace) :
    Option GoError × Trace :=
  (c.DeleteVm tr uuid, tr ++ [.DeleteVm uuid])

/-- Go `VirtualMachineService.AttachDisk`. -/
def VirtualMachineService.AttachDisk (c : Client) (vmUuid diskUuid : GoString) (tr : Trace) :
    Except GoError VMStorage × Trace :=
  (c.AttachDisk tr vmUuid diskUuid, tr ++ [.AttachDisk vmUuid diskUuid])

/-- Go `VirtualMachineService.DetachDisk`. -/
def VirtualMachineService.DetachDisk (c : Client) (vmUuid diskUuid : GoString) (tr : Trace) :
    Option GoError × Trace :=
  (c.DetachDisk tr vmUuid diskUuid, tr ++ [.DetachDisk vmUuid diskUuid])

/-- Go `NetworkService.GetNetworkByUUID`. -/
def NetworkService.GetNetworkByUUID (c : Client) (networkUUID : GoString) (tr : Trace) :
    Except GoError Network × Trace :=
  (c.GetNetworkByUUID tr networkUUID, tr ++ [.GetNetworkByUUID networkUUID])

/-- Go `NetworkService.ListNetworks`. -/
def NetworkService.ListNetworks (c : Client) (tr : Trace) :
    Except GoError (List Network) × Trace :=
  (c.ListNetworks tr, tr ++ [.ListNetworks])

/-- Go `LocationService.ListLocations`. -/
def LocationService.ListLocations (c : Client) (tr : Trace) :
    Except GoError (List Location) × Trace :=
  (c.ListLocations tr, tr ++ [.ListLocations])

/-- Go `NetworkService.DeleteNetworkByUUID`. -/
def NetworkService.DeleteNetworkByUUID (c : Client) (networkUUID : GoString) (tr : Trace) :
    Option GoError × Trace :=
  (c.DeleteNetworkByUUID tr networkUUID, tr ++ [.DeleteNetworkByUUID networkUUID])

/-- Go `NetworkService.ListFloatingIps`. -/
def NetworkService.ListFloatingIps (c : Client) (tr : Trace) :
    Except GoError (List FloatingIp) × Trace :=
  (c.ListFloatingIps tr, tr ++ [.ListFloatingIps])

/-- Go `NetworkService.CreateFloatingIp`. -/
def NetworkService.CreateFloatingIp (c : Client) (createIp : CreateFloatingIpRequest)
    (tr : Trace) : Except GoError FloatingIp × Trace :=
  (c.CreateFloatingIp tr createIp, tr ++ [.CreateFloatingIp createIp])

/-- Go `NetworkService.AssignFloatingIp`. -/
def NetworkService.AssignFloatingIp (c : Client) (ipAddress : IP) (vmUuid : GoString)
    (tr : Trace) : Except GoError FloatingIp × Trace :=
  (c.AssignFloatingIp tr ipAddress vmUuid, tr ++ [.AssignFloatingIp ipAddress vmUuid])

/-- Go `NetworkService.DeleteFloatingIp`. -/
def NetworkService.DeleteFloatingIp (c : Client) (ipAddress : IP) (tr : Trace) :
    Option GoError × Trace :=
  (c.DeleteFloatingIp tr ipAddress, tr ++ [.DeleteFloatingIp ipAddress])

end warren

namespace apis

open warren

/-! ## pkg/warren/apis: lookups over list responses -/

/-- Go `GetServerFromVolumeUUID` of server.go: the first listed server, in list
order, one of whose storage entries has the given UUID. -/
def GetServerFromVolumeUUID (c : Client) (uuid : GoString) (tr : Trace) :
    Except GoError VirtualMachine × Trace :=
  match VirtualMachineService.ListVms c tr with
  | (.error err, tr) => (.error (GetServerErrorFromHttpCallError.nonNil err), tr)
  | (.ok servers, tr) =>
    match servers.find? (fun server => server.Storage.any (fun storage => storage.Uuid = uuid)) with
    | some server => (.ok server, tr)
    | none =>
      (.error (.wrap (ErrServerNotFound.Error ++ lit ": No match found for UUID " ++ uuid)
        ErrServerNotFound), tr)

/-- Go `GetFloatingIPByID` of floating_ip.go. The `%s` verb applied to the `int`
id prints `%!s(int=...)`. -/
def GetFloatingIPByID (c : Client) (id : Int) (tr : Trace) : Except GoError FloatingIp × Trace :=
  match NetworkService.ListFloatingIps c tr with
  | (.error err, tr) => (.error (GetFloatingIPErrorFromHttpCallError.nonNil err), tr)
  | (.ok floatingIPs, tr) =>
    match floatingIPs.find? (fun ip => ip.Enabled && decide (ip.Id = id)) with
    | some ip => (.ok ip, tr)
    | none =>
      (.error (.wrap (ErrFloatingIPNotFound.Error ++ lit ": " ++ lit "%!s(int=" ++ Itoa id ++ lit ")")
        ErrFloatingIPNotFound), tr)

/-- Go `GetFloatingIPFromAssignedUUID` of floating_ip.go. -/
def GetFloatingIPFromAssignedUUID (c : Client) (uuid : GoString) (tr : Trace) :
    Except GoError FloatingIp × Trace :=
  match NetworkService.ListFloatingIps c tr with
  | (.error err, tr) => (.error (GetFloatingIPErrorFromHttpCallError.nonNil err), tr)
  | (.ok floatingIPs, tr) =>
    match floatingIPs.find? (fun ip => ip.Enabled && decide (ip.AssignedTo = uuid)) with
    | some ip => (.ok ip, tr)
    | none =>
      (.error (.wrap (ErrFloatingIPNotFound.Error ++ lit ": No match for UUID " ++ uuid)
        ErrFloatingIPNotFound), tr)

/-- How the inner loop of `GetNetworkFromServerUUID` over one network ends. -/
inductive ScanResult
  | found
  | failed (err : GoError)
  | next
  deriving DecidableEq, Repr

/-- Inner loop of `GetNetworkFromServerUUID` over `network.VmUuids`: on an
entry equal to `uuid` the subnet is parsed; a parse error is returned, a
subnet containing the address returns the network. -/
def GetNetworkFromServerUUID.scanVmUuids (net : NetPkg) (uuid : GoString)
    (serverPrivateIPv4 : IP) (network : Network) : List GoString → ScanResult
  | [] => .next
  | networkServerUUID :: rest =>
    if networkServerUUID = uuid then
      match net.ParseCIDR network.Subnet with
      | .error err => .failed err
      | .ok (_, subnet) =>
        if net.Contains subnet serverPrivateIPv4 then .found
        else GetNetworkFromServerUUID.scanVmUuids net uuid serverPrivateIPv4 network rest
    else GetNetworkFromServerUUID.scanVmUuids net uuid serverPrivateIPv4 network rest

/-- Outer loop of `GetNetworkFromServerUUID` over the listed networks, with
the final `ErrNetworkNotFound` error when the loop runs out. -/
def GetNetworkFromServerUUID.scanNetworks (net : NetPkg) (uuid : GoString)
    (serverPrivateIPv4 : IP) : List Network → Except GoError Network
  | [] => .error (.wrap (ErrNetworkNotFound.Error ++ lit ": Server UUID " ++ uuid) ErrNetworkNotFound)
  | network :: rest =>
    match GetNetworkFromServerUUID.scanVmUuids net uuid serverPrivateIPv4 network network.VmUuids with
    | .found => .ok network
    | .failed err => .error err
    | .next => GetNetworkFromServerUUID.scanNetworks net uuid serverPrivateIPv4 rest

/-- Go `GetNetworkFromServerUUID` of network.go. -/
def GetNetworkFromServerUUID (net : NetPkg) (c : Client) (uuid : GoString) (tr : Trace) :
    Except GoError Network × Trace :=
  match VirtualMachineService.GetByUuid c uuid tr with
  | (.error err, tr) => (.error (GetServerErrorFromHttpCallError.nonNil err), tr)
  | (.ok server, tr) =>
    let serverPrivateIPv4 : IP :=
      if server.PrivateIPv4 ≠ [] then net.ParseIP server.PrivateIPv4 else []
    match NetworkService.ListNetworks c tr with
    | (.error err, tr) => (.error (GetNetworkErrorFromHttpCallError.nonNil err), tr)
    | (.ok networks, tr) =>
      (GetNetworkFromServerUUID.scanNetworks net uuid serverPrivateIPv4 networks, tr)

end apis

namespace pkgwarren

open warren

/-! ## pkg/warren: the network model shared by resource and data source -/

/-- Go `NetworkModel` of pkg/warren/types.go. -/
structure NetworkModel where
  CreatedAt : Tf GoString
  IsDefault : Tf Bool
  Name : Tf GoString
  ServerUUIDs : Tf (List (Tf GoString))
  SubnetIPv4 : Tf GoString
  SubnetIPv6 : Tf GoString
  Type_ : Tf GoString
  UpdatedAt : Tf GoString
  UUID : Tf GoString
  VLANID : Tf Int
  deriving DecidableEq, Repr

/-- Go `NetworkSetStateData` of pkg/warren/network.go; it overwrites every field. -/
def NetworkSetStateData (network : Network) (_data : NetworkModel) : NetworkModel :=
  { CreatedAt := .value network.CreatedAt
    IsDefault := .value network.IsDefault
    Name := .value network.Name
    SubnetIPv4 := .value network.Subnet
    SubnetIPv6 := .value network.SubnetIPv6
    Type_ := .value network.Type_
    UpdatedAt := .value network.UpdatedAt
    UUID := .value network.Uuid
    VLANID := .value network.VlanId
    ServerUUIDs := .value (network.VmUuids.map (fun serverUUID => Tf.value serverUUID)) }

/-- The `for` loop of `NetworkReadData`, carrying `isFound` and `data`. The
loop ends at the first network after whose tests `isFound` is true. -/
def NetworkReadData.loop (isParameterOnly : Bool) :
    List Network → Bool → NetworkModel → Bool × NetworkModel
  | [], isFound, data => (isFound, data)
  | network :: rest, isFound, data =>
    let isFound1 :=
      if !data.Name.IsNull && data.Name.Equal (.value network.Name) then true else isFound
    let isFound2 :=
      if !data.UUID.IsNull && data.UUID.Equal (.value network.Uuid) then true else isFound1
    let isFound3 :=
      if !data.IsDefault.IsNull then
        if !data.IsDefault.Equal (.value network.IsDefault) then false
        else if isParameterOnly then true
        else isFound2
      else isFound2
    if !isFound3 then NetworkReadData.loop isParameterOnly rest isFound3 data
    else (isFound3, NetworkSetStateData network data)

/-- Go `NetworkReadData` of pkg/warren/network.go: the returned error and the
model as the function leaves it. -/
def NetworkReadData (c : Client) (data : NetworkModel) (tr : Trace) :
    (Option GoError × NetworkModel) × Trace :=
  match NetworkService.ListNetworks c tr with
  | (.error err, tr) => ((some (apis.GetNetworkErrorFromHttpCallError.nonNil err), data), tr)
  | (.ok networks, tr) =>
    let isParameterOnly := data.Name.IsNull && data.UUID.IsNull
    match NetworkReadData.loop isParameterOnly networks false data with
    | (true, data1) => ((none, data1), tr)
    | (false, data1) =>
      let parameter0 : GoString :=
        if !data1.IsDefault.IsNull then lit "Default " ++ data1.IsDefault.BoolString else []
      if isParameterOnly then
        ((some (.plain (lit "No match found for parameter: " ++ parameter0)), data1), tr)
      else
        let parameter : GoString :=
          if parameter0 ≠ [] then lit " (" ++ parameter0 ++ lit ")" else parameter0
        if !data1.Name.IsNull then
          ((some (.plain (lit "No match found for name: " ++ data1.Name.ValueString ++ parameter)),
            data1), tr)
        else if !data1.UUID.IsNull then
          ((some (.plain (lit "No match found for UUID: " ++ data1.UUID.ValueString ++ parameter)),
            data1), tr)
        else ((none, data1), tr)

end pkgwarren

namespace resources

open warren

/-! ## pkg/provider/resources: models -/

/-- An element of the `snapshots` list of the disk state (`DiskSnapshotType`). -/
structure DiskSnapshotObject where
  created_at : Tf GoString
  disk_uuid : Tf GoString
  size_in_gb : Tf Int
  uuid : Tf GoString
  deriving DecidableEq, Repr

/-- Go `DiskModel` of types.go. -/
structure DiskModel where
  BillingAccount : Tf Int
  CreatedAt : Tf GoString
  ServerUUID : Tf GoString
  SizeInGB : Tf Int
  Snapshots : Tf (List DiskSnapshotObject)
  SourceImageType : Tf GoString
  SourceImageUUID : Tf GoString
  Status : Tf GoString
  StatusComment : Tf GoString
  UpdatedAt : Tf GoString
  UserID : Tf Int
  UUID : Tf GoString
  deriving DecidableEq, Repr

/-- Go `diskCreateMethodData` of types.go, the scratch record kept in the context
of one `Create` call. -/
structure diskCreateMethodData where
  DiskUUID : GoString
  deriving DecidableEq, Repr

/-- Go `floatingIPCreateMethodData` of types.go. -/
structure floatingIPCreateMethodData where
  FloatingIPID : Int
  deriving DecidableEq, Repr

/-- Go `FloatingIPModel` of types.go. -/
structure FloatingIPModel where
  AssignedTo : Tf GoString
  AssignedToPrivateIP : Tf GoString
  AssignedToResourceType : Tf GoString
  Address : Tf GoString
  BillingAccount : Tf Int
  CreatedAt : Tf GoString
  Enabled : Tf Bool
  ID : Tf GoString
  IsIPv6 : Tf Bool
  Name : Tf GoString
  NetworkUUID : Tf GoString
  Type_ : Tf GoString
  UpdatedAt : Tf GoString
  UserID : Tf Int
  UUID : Tf GoString
  deriving DecidableEq, Repr

/-- An element of a `replica` list of the virtual machine state
(`VirtualMachineStorageReplicaType`). -/
structure StorageReplicaObject where
  created_at : Tf GoString
  master_uuid : Tf GoString
  size_in_gb : Tf Int
  type_ : Tf GoString
  uuid : Tf GoString
  deriving DecidableEq, Repr

/-- An element of the `storage` list of the virtual machine state
(`VirtualMachineStorageType`). -/
structure StorageObject where
  created_at : Tf GoString
  name : Tf GoString
  primary : Tf Bool
  replica : Tf (List StorageReplicaObject)
  size_in_gb : Tf Int
  user_id : Tf Int
  uuid : Tf GoString
  deriving DecidableEq, Repr

/-- Go `VirtualMachineModel` of types.go. -/
structure VirtualMachineModel where
  Backup : Tf Bool
  BillingAccount : Tf Int
  CreatedAt : Tf GoString
  CloudInit : Tf GoString
  Description : Tf GoString
  DiskSizeInGB : Tf Int
  Hostname : Tf GoString
  MAC : Tf GoString
  Memory : Tf Int
  Name : Tf GoString
  OSName : Tf GoString
  OSVersion : Tf GoString
  Password : Tf GoString
  SourceReplica : Tf GoString
  SourceUUID : Tf GoString
  Status : Tf GoString
  Storage : Tf (List StorageObject)
  PrivateIPv4 : Tf GoString
  PublicIPv6 : Tf GoString
  PublicKey : Tf GoString
  NetworkUUID : Tf GoString
  ReservePublicIP : Tf Bool
  UpdatedAt : Tf GoString
  UserID : Tf Int
  Username : Tf GoString
  UUID : Tf GoString
  VCPU : Tf Int
  deriving DecidableEq, Repr

/-- Constant `NetworkAssignedToResourceVM` of types.go. -/
def NetworkAssignedToResourceVM : GoString := lit "virtual_machine"

/-! ## pkg/provider/resources/disk.go

Every operation takes the model that `req.Plan.Get` or `req.State.Get` decoded
(the operations return at once when that decoding reports an error) and the
trace of calls so far; it returns the response and the extended trace. -/

/-- Go `Disk.setStateData`. The result of the server lookup is used only when a
server was found; the lookup error is dropped. -/
def Disk.setStateData (c : Client) (disk : warren.Disk) (data : DiskModel) (tr : Trace) :
    DiskModel × Trace :=
  let data1 : DiskModel :=
    { data with
      BillingAccount := .value disk.BillingAccountId
      CreatedAt := .value disk.CreatedAt
      SizeInGB := .value disk.SizeGb
      SourceImageUUID := .value disk.SourceImage
      SourceImageType := .value disk.SourceImageType
      Status := .value disk.Status
      StatusComment := .value disk.StatusComment
      UpdatedAt := .value disk.UpdatedAt
      UserID := .value disk.UserId
      UUID := .value disk.Uuid
      Snapshots := .value (disk.Snapshots.map (fun diskSnapshot =>
        { created_at := .value diskSnapshot.CreatedAt
          disk_uuid := .value diskSnapshot.DiskUuid
          size_in_gb := .value diskSnapshot.SizeGb
          uuid := .value diskSnapshot.Uuid })) }
  match apis.GetServerFromVolumeUUID c disk.Uuid tr with
  | (.ok server, tr) => ({ data1 with ServerUUID := .value server.Uuid }, tr)
  | (.error _, tr) => (data1, tr)

/-- The request built at the start of `Disk.create`: the size always, the
source image when set, and the source image type when both are set. -/
def Disk.create.createReq (data : DiskModel) : CreateDiskRequest :=
  { SizeGb := some data.SizeInGB.ValueInt64
    BillingAccountId := none
    SourceImage := if !data.SourceImageUUID.IsNull then some data.SourceImageUUID.ValueString else none
    SourceImageType :=
      if !data.SourceImageUUID.IsNull && !data.SourceImageType.IsNull then
        some data.SourceImageType.ValueString
      else none }

/-- Go `Disk.create`: the returned error, the model and the scratch record. -/
def Disk.create (c : Client) (data : DiskModel) (resultData : diskCreateMethodData)
    (tr : Trace) : (Option GoError × DiskModel × diskCreateMethodData) × Trace :=
  match BlockStorageService.CreateDisk c (Disk.create.createReq data) tr with
  | (.error err, tr) => ((some (apis.GetVolumeErrorFromHttpCallError.nonNil err), data, resultData), tr)
  | (.ok disk, tr) =>
    let resultData1 : diskCreateMethodData := { DiskUUID := disk.Uuid }
    if !data.ServerUUID.IsNull then
      match VirtualMachineService.AttachDisk c data.ServerUUID.ValueString disk.Uuid tr with
      | (.error err, tr) =>
        ((some (apis.GetServerErrorFromHttpCallError.nonNil err), data, resultData1), tr)
      | (.ok _, tr) =>
        match Disk.setStateData c disk data tr with
        | (data1, tr) => ((none, data1, resultData1), tr)
    else
      match Disk.setStateData c disk data tr with
      | (data1, tr) => ((none, data1, resultData1), tr)

/-- Go `Disk.createOnErrorCleanup`: the result of the delete call is discarded. -/
def Disk.createOnErrorCleanup (c : Client) (resultData : diskCreateMethodData) (tr : Trace) :
    Trace :=
  if resultData.DiskUUID ≠ [] then (BlockStorageService.DeleteDiskById c resultData.DiskUUID tr).2
  else tr

/-- Go `Disk.Create`. -/
def Disk.Create (c : Client) (data : DiskModel) (tr : Trace) : Response DiskModel × Trace :=
  match Disk.create c data { DiskUUID := [] } tr with
  | ((some err, _, resultData), tr) =>
    (⟨[⟨lit "Disk create error", err.Error⟩], .unchanged⟩, Disk.createOnErrorCleanup c resultData tr)
  | ((none, data1, _), tr) => (⟨[], .set data1⟩, tr)

/-- Go `Disk.Delete`. -/
def Disk.Delete (c : Client) (data : DiskModel) (tr : Trace) : Response DiskModel × Trace :=
  let diskUUID := data.UUID.ValueString
  match BlockStorageService.GetDiskById c diskUUID tr with
  | (.error err0, tr) =>
    let err := apis.GetVolumeErrorFromHttpCallError.nonNil err0
    if errorsIs err apis.ErrVolumeNotFound then (⟨[], .unchanged⟩, tr)
    else (⟨[⟨lit "Disk delete error", err.Error⟩], .unchanged⟩, tr)
  | (.ok _, tr) =>
    match BlockStorageService.DeleteDiskById c diskUUID tr with
    | (some err, tr) =>
      (⟨[⟨lit "Disk delete error", (apis.GetVolumeErrorFromHttpCallError.nonNil err).Error⟩],
        .unchanged⟩, tr)
    | (none, tr) => (⟨[], .unchanged⟩, tr)

/-- Go `Disk.Read`. -/
def Disk.Read (c : Client) (data : DiskModel) (tr : Trace) : Response DiskModel × Trace :=
  match BlockStorageService.GetDiskById c data.UUID.ValueString tr with
  | (.error err0, tr) =>
    let err := apis.GetVolumeErrorFromHttpCallError.nonNil err0
    if errorsIs err apis.ErrVolumeNotFound then (⟨[], .removed⟩, tr)
    else (⟨[⟨lit "Disk read error", err.Error⟩], .unchanged⟩, tr)
  | (.ok disk, tr) =>
    match Disk.setStateData c disk data tr with
    | (data1, tr) => (⟨[], .set data1⟩, tr)

/-! ## pkg/provider/resources/network.go -/

/-- Go `Network.Delete`. -/
def Network.Delete (c : Client) (data : pkgwarren.NetworkModel) (tr : Trace) :
    Response pkgwarren.NetworkModel × Trace :=
  let networkUUID := data.UUID.ValueString
  match NetworkService.GetNetworkByUUID c networkUUID tr with
  | (.error err0, tr) =>
    let err := apis.GetNetworkErrorFromHttpCallError.nonNil err0
    if errorsIs err apis.ErrNetworkNotFound then (⟨[], .unchanged⟩, tr)
    else (⟨[⟨lit "Network delete error", err.Error⟩], .unchanged⟩, tr)
  | (.ok _, tr) =>
    match NetworkService.DeleteNetworkByUUID c networkUUID tr with
    | (some err, tr) =>
      (⟨[⟨lit "Network delete error", (apis.GetNetworkErrorFromHttpCallError.nonNil err).Error⟩],
        .unchanged⟩, tr)
    | (none, tr) => (⟨[], .unchanged⟩, tr)

/-- Go `Network.Read`: every error of `NetworkReadData` becomes an error
diagnostic; there is no `RemoveResource` call in this operation. -/
def Network.Read (c : Client) (data : pkgwarren.NetworkModel) (tr : Trace) :
    Response pkgwarren.NetworkModel × Trace :=
  match pkgwarren.NetworkReadData c data tr with
  | ((some err, _), tr) => (⟨[⟨lit "Network read error", err.Error⟩], .unchanged⟩, tr)
  | ((none, data1), tr) => (⟨[], .set data1⟩, tr)

/-! ## pkg/provider/resources/floating_ip.go -/

/-- Go `FloatingIP.setStateData`: the returned error and the model. The model is
a known string after the first assignment, so the network lookup always runs;
when it fails the function returns before `NetworkUUID` is assigned. -/
def FloatingIP.setStateData (net : NetPkg) (c : Client) (floatingIP : FloatingIp)
    (data : FloatingIPModel) (tr : Trace) : (Option GoError × FloatingIPModel) × Trace :=
  let data1 : FloatingIPModel :=
    { data with
      AssignedTo := .value floatingIP.AssignedTo
      AssignedToPrivateIP := .value floatingIP.AssignedToPrivateIp
      AssignedToResourceType := .value floatingIP.AssignedToResourceType
      Address := .value floatingIP.Address
      BillingAccount := .value floatingIP.BillingAccountId
      CreatedAt := .value floatingIP.CreatedAt
      Enabled := .value floatingIP.Enabled
      ID := .value (Itoa floatingIP.Id)
      IsIPv6 := .value floatingIP.IsIPv6
      Name := .value floatingIP.Name
      Type_ := .value floatingIP.Type_
      UpdatedAt := .value floatingIP.UpdatedAt
      UserID := .value floatingIP.UserId
      UUID := .value floatingIP.Uuid }
  if !data1.AssignedTo.IsNull then
    match apis.GetNetworkFromServerUUID net c data1.AssignedTo.ValueString tr with
    | (.error err, tr) => ((some (apis.GetNetworkErrorFromHttpCallError.nonNil err), data1), tr)
    | (.ok network, tr) => ((none, { data1 with NetworkUUID := .value network.Uuid }), tr)
  else ((none, data1), tr)

/-- First block of `FloatingIP.create` (the `if "" != assignedToUUID`): the
search for an enabled floating IP already assigned to the target. The result
is the error the function returns at once, or the value `floatingIP` holds
after the block (`none` for nil). -/
def FloatingIP.create.resolve (c : Client) (data : FloatingIPModel) (tr : Trace) :
    Except GoError (Option FloatingIp) × Trace :=
  let assignedToUUID := data.AssignedTo.ValueString
  if assignedToUUID ≠ [] then
    match apis.GetFloatingIPFromAssignedUUID c assignedToUUID tr with
    | (.error err, tr) =>
      if !errorsIs err apis.ErrFloatingIPNotFound then
        (.error (apis.GetFloatingIPErrorFromHttpCallError.nonNil err), tr)
      else (.ok none, tr)
    | (.ok ip, tr) => (.ok (some ip), tr)
  else (.ok none, tr)

/-- Second block of `FloatingIP.create` (the `if nil == floatingIP`): when the
search found nothing a floating IP is created and its id is recorded in the
scratch record. The result is the error the function returns at once, or the
floating IP found or created. -/
def FloatingIP.create.obtain (c : Client) (data : FloatingIPModel) (found : Option FloatingIp)
    (resultData : floatingIPCreateMethodData) (tr : Trace) :
    Except GoError FloatingIp × floatingIPCreateMethodData × Trace :=
  match found with
  | some ip => (.ok ip, resultData, tr)
  | none =>
    match NetworkService.CreateFloatingIp c
        { Name := some data.Name.ValueString, BillingAccountId := none } tr with
    | (.error err, tr) =>
      (.error (apis.GetFloatingIPErrorFromHttpCallError.nonNil err), resultData, tr)
    | (.ok ip, tr) => (.ok ip, { FloatingIPID := ip.Id }, tr)

/-- Remainder of `FloatingIP.create` once `floatingIP` is non-nil: the checks
of name and assignment against the configuration, the assignment call, and
`setStateData`, whose returned error the source discards. -/
def FloatingIP.create.finish (net : NetPkg) (c : Client) (data : FloatingIPModel)
    (floatingIP : FloatingIp) (resultData : floatingIPCreateMethodData) (tr : Trace) :
    (Option GoError × FloatingIPModel × floatingIPCreateMethodData) × Trace :=
  let assignedToUUID := data.AssignedTo.ValueString
  let floatingIPName := data.Name.ValueString
  if floatingIP.Name ≠ [] ∧ floatingIPName ≠ floatingIP.Name then
    ((some (.plain (lit "Floating IP configuration mismatch between existing instance name and given one: "
      ++ floatingIP.Name ++ lit " - " ++ floatingIPName)), data, resultData), tr)
  else if floatingIP.AssignedTo ≠ [] ∧ assignedToUUID ≠ floatingIP.AssignedTo then
    if floatingIP.AssignedToResourceType ≠ NetworkAssignedToResourceVM then
      ((some (.plain (lit "Floating IP configuration mismatch between existing instance attached resource type: "
        ++ floatingIP.AssignedTo ++ lit " = " ++ floatingIP.AssignedToResourceType)),
        data, resultData), tr)
    else
      ((some (.plain (lit "Floating IP configuration mismatch between existing instance attached server UUID and given one: "
        ++ floatingIP.AssignedTo ++ lit " - " ++ assignedToUUID)), data, resultData), tr)
  else if assignedToUUID ≠ [] ∧ floatingIP.AssignedTo = [] then
    match NetworkService.AssignFloatingIp c (net.ParseIP floatingIP.Address) assignedToUUID tr with
    | (.error err, tr) =>
      ((some (apis.GetFloatingIPErrorFromHttpCallError.nonNil err), data, resultData), tr)
    | (.ok floatingIP1, tr) =>
      match FloatingIP.setStateData net c floatingIP1 data tr with
      | ((_, data1), tr) => ((none, data1, resultData), tr)
  else
    match FloatingIP.setStateData net c floatingIP data tr with
    | ((_, data1), tr) => ((none, data1, resultData), tr)

/-- Go `FloatingIP.create`: the returned error, the model and the scratch record,
as the sequence of its three blocks. -/
def FloatingIP.create (net : NetPkg) (c : Client) (data : FloatingIPModel)
    (resultData : floatingIPCreateMethodData) (tr : Trace) :
    (Option GoError × FloatingIPModel × floatingIPCreateMethodData) × Trace :=
  match FloatingIP.create.resolve c data tr with
  | (.error err, tr) => ((some err, data, resultData), tr)
  | (.ok found, tr) =>
    match FloatingIP.create.obtain c data found resultData tr with
    | (.error err, resultData, tr) => ((some err, data, resultData), tr)
    | (.ok floatingIP, resultData, tr) =>
      FloatingIP.create.finish net c data floatingIP resultData tr

/-- Go `FloatingIP.createOnErrorCleanup`: the lookup error and the result of the
delete call are discarded. -/
def FloatingIP.createOnErrorCleanup (net : NetPkg) (c : Client)
    (resultData : floatingIPCreateMethodData) (tr : Trace) : Trace :=
  if resultData.FloatingIPID ≠ 0 then
    match apis.GetFloatingIPByID c resultData.FloatingIPID tr with
    | (.ok floatingIP, tr) => (NetworkService.DeleteFloatingIp c (net.ParseIP floatingIP.Address) tr).2
    | (.error _, tr) => tr
  else tr

/-- Go `FloatingIP.Create`. -/
def FloatingIP.Create (net : NetPkg) (c : Client) (data : FloatingIPModel) (tr : Trace) :
    Response FloatingIPModel × Trace :=
  match FloatingIP.create net c data { FloatingIPID := 0 } tr with
  | ((some err, _, resultData), tr) =>
    (⟨[⟨lit "Floating IP create error", err.Error⟩], .unchanged⟩,
      FloatingIP.createOnErrorCleanup net c resultData tr)
  | ((none, data1, _), tr) => (⟨[], .set data1⟩, tr)

/-- Go `FloatingIP.Delete`. -/
def FloatingIP.Delete (net : NetPkg) (c : Client) (data : FloatingIPModel) (tr : Trace) :
    Response FloatingIPModel × Trace :=
  match Atoi data.ID.ValueString with
  | .error err => (⟨[⟨lit "Floating IP delete error", err.Error⟩], .unchanged⟩, tr)
  | .ok floatingIPID =>
    match apis.GetFloatingIPByID c floatingIPID tr with
    | (.error err, tr) =>
      if errorsIs err apis.ErrFloatingIPNotFound then (⟨[], .unchanged⟩, tr)
      else (⟨[⟨lit "Floating IP delete error", err.Error⟩], .unchanged⟩, tr)
    | (.ok floatingIP, tr) =>
      match NetworkService.DeleteFloatingIp c (net.ParseIP floatingIP.Address) tr with
      | (some err, tr) =>
        (⟨[⟨lit "Floating IP delete error",
          (apis.GetFloatingIPErrorFromHttpCallError.nonNil err).Error⟩], .unchanged⟩, tr)
      | (none, tr) => (⟨[], .unchanged⟩, tr)

/-- Go `FloatingIP.Read`. -/
def FloatingIP.Read (net : NetPkg) (c : Client) (data : FloatingIPModel) (tr : Trace) :
    Response FloatingIPModel × Trace :=
  match Atoi data.ID.ValueString with
  | .error err => (⟨[⟨lit "Floating IP read error", err.Error⟩], .unchanged⟩, tr)
  | .ok floatingIPID =>
    match apis.GetFloatingIPByID c floatingIPID tr with
    | (.error err, tr) =>
      if errorsIs err apis.ErrFloatingIPNotFound then (⟨[], .removed⟩, tr)
      else (⟨[⟨lit "Floating IP read error", err.Error⟩], .unchanged⟩, tr)
    | (.ok floatingIP, tr) =>
      match FloatingIP.setStateData net c floatingIP data tr with
      | ((_, data1), tr) => (⟨[], .set data1⟩, tr)

/-! ## pkg/provider/resources/virtual_machine.go -/

/-- The storage loop of `VirtualMachine.setStateData`: the first primary
storage entry sets `DiskSizeInGB` when it is null; every entry is appended to
the `storage` list with its replicas. -/
def VirtualMachine.setStateData.storageLoop :
    List VMStorage → Tf Int → List StorageObject → Tf Int × List StorageObject
  | [], diskSizeInGB, storage => (diskSizeInGB, storage)
  | serverStorage :: rest, diskSizeInGB, storage =>
    let diskSizeInGB1 : Tf Int :=
      if serverStorage.Primary && diskSizeInGB.IsNull then .value serverStorage.Size
      else diskSizeInGB
    let storageReplica : List StorageReplicaObject :=
      serverStorage.Replica.map (fun serverStorageReplica =>
        { created_at := .value serverStorageReplica.CreatedAt
          master_uuid := .value serverStorageReplica.MasterUuid
          size_in_gb := .value serverStorageReplica.Size
          type_ := .value serverStorageReplica.Type_
          uuid := .value serverStorageReplica.Uuid })
    VirtualMachine.setStateData.storageLoop rest diskSizeInGB1
      (storage ++ [{ created_at := .value serverStorage.CreatedAt
                     name := .value serverStorage.Name
                     primary := .value serverStorage.Primary
                     replica := .value storageReplica
                     size_in_gb := .value serverStorage.Size
                     user_id := .value serverStorage.UserId
                     uuid := .value serverStorage.Uuid }])

/-- Go `VirtualMachine.setStateData`. -/
def VirtualMachine.setStateData (net : NetPkg) (c : Client) (server : warren.VirtualMachine)
    (data : VirtualMachineModel) (tr : Trace) : VirtualMachineModel × Trace :=
  let looped := VirtualMachine.setStateData.storageLoop server.Storage data.DiskSizeInGB []
  let data1 : VirtualMachineModel :=
    { data with
      Backup := .value server.Backup
      BillingAccount := .value (int64OfUint64 server.BillingAccount)
      CreatedAt := .value server.CreatedAt
      Description := .value server.Description
      Hostname := .value server.Hostname
      Name := .value server.Name
      MAC := .value server.Mac
      Memory := .value server.Memory
      OSName := .value server.OsName
      OSVersion := .value server.OsVersion
      PrivateIPv4 := .value server.PrivateIPv4
      PublicIPv6 := .value server.PublicIPv6
      Status := .value server.Status
      UpdatedAt := .value server.UpdatedAt
      UserID := .value (int64OfUint64 server.UserId)
      Username := .value server.Username
      UUID := .value server.Uuid
      VCPU := .value server.VCpu
      DiskSizeInGB := looped.1
      Storage := .value looped.2 }
  match apis.GetNetworkFromServerUUID net c server.Uuid tr with
  | (.ok network, tr) => ({ data1 with NetworkUUID := .value network.Uuid }, tr)
  | (.error _, tr) => (data1, tr)

/-- Go `VirtualMachine.Delete`. -/
def VirtualMachine.Delete (c : Client) (data : VirtualMachineModel) (tr : Trace) :
    Response VirtualMachineModel × Trace :=
  let serverUUID := data.UUID.ValueString
  match VirtualMachineService.GetByUuid c serverUUID tr with
  | (.error err0, tr) =>
    let err := apis.GetServerErrorFromHttpCallError.nonNil err0
    if errorsIs err apis.ErrServerNotFound then (⟨[], .unchanged⟩, tr)
    else (⟨[⟨lit "Virtual machine delete error", err.Error⟩], .unchanged⟩, tr)
  | (.ok _, tr) =>
    match VirtualMachineService.DeleteVm c serverUUID tr with
    | (some err, tr) =>
      (⟨[⟨lit "Virtual machine delete error",
        (apis.GetServerErrorFromHttpCallError.nonNil err).Error⟩], .unchanged⟩, tr)
    | (none, tr) => (⟨[], .unchanged⟩, tr)

/-- Go `VirtualMachine.Read`. -/
def VirtualMachine.Read (net : NetPkg) (c : Client) (data : VirtualMachineModel) (tr : Trace) :
    Response VirtualMachineModel × Trace :=
  match VirtualMachineService.GetByUuid c data.UUID.ValueString tr with
  | (.error err0, tr) =>
    let err := apis.GetServerErrorFromHttpCallError.nonNil err0
    if errorsIs err apis.ErrServerNotFound then (⟨[], .removed⟩, tr)
    else (⟨[⟨lit "Virtual machine read error", err.Error⟩], .unchanged⟩, tr)
  | (.ok server, tr) =>
    match VirtualMachine.setStateData net c server data tr with
    | (data1, tr) => (⟨[], .set data1⟩, tr)

/-- Constant `warrenPasswordGeneratedLength` of types.go. -/
def warrenPasswordGeneratedLength : Nat := 32

/-- Constant `warrenDefaultVMUsername` of types.go. -/
def warrenDefaultVMUsername : GoString := lit "user"

/-- The password generated by `VirtualMachine.Create` when none is configured.
`seededRand i` is the raw value behind the i-th call of `seededRand.Intn`, so
that the call `Intn(n)` returns `seededRand i % n`. Every rune written is below
128 and takes one byte. -/
def VirtualMachine.Create.generatePassword (seededRand : Nat → Nat) : GoString :=
  (List.range (warrenPasswordGeneratedLength - 3)).map (fun i => 32 + seededRand i % 94)
    ++ [97 + seededRand (warrenPasswordGeneratedLength - 3) % 26,
        65 + seededRand (warrenPasswordGeneratedLength - 2) % 26,
        48 + seededRand (warrenPasswordGeneratedLength - 1) % 10]

/-- The cloud-init text sent by `VirtualMachine.Create`: line ends are
normalised, and a text that is not a `#cloud-config` document is sent as the
JSON object `runcmd` of its blocks; `jsonMarshal` stands for `json.Marshal` of
that object. -/
def VirtualMachine.Create.cloudInit (jsonMarshal : List GoString → Except GoError GoString)
    (text : GoString) : Except GoError GoString :=
  let cloudInit1 := ReplaceAll text (lit "\r\n") (lit "\n")
  let cloudInit2 := ReplaceAll cloudInit1 (lit "\r") (lit "\n")
  if !HasPrefix cloudInit2 (lit "#cloud-config\n") then
    match jsonMarshal (Split cloudInit2 (lit "\n\n")) with
    | .error err => .error err
    | .ok jsonCloudInit => .ok jsonCloudInit
  else .ok cloudInit2

/-- The request built by `VirtualMachine.Create`, or the error of marshalling
the cloud-init text, on which `Create` returns before any call. -/
def VirtualMachine.Create.createReq (seededRand : Nat → Nat)
    (jsonMarshal : List GoString → Except GoError GoString) (data : VirtualMachineModel) :
    Except GoError CreateVirtualMachineRequest :=
  let password :=
    if data.Password.ValueString = [] then VirtualMachine.Create.generatePassword seededRand
    else data.Password.ValueString
  let username :=
    if data.Username.ValueString = [] then warrenDefaultVMUsername
    else data.Username.ValueString
  let createReq : CreateVirtualMachineRequest :=
    { Name := some data.Name.ValueString
      OsName := some data.OSName.ValueString
      OsVersion := some data.OSVersion.ValueString
      Disks := some data.DiskSizeInGB.ValueInt64
      VCpu := some data.VCPU.ValueInt64
      Ram := some data.Memory.ValueInt64
      ReservePublicIp := some data.ReservePublicIP.ValueBool
      Backup := some data.Backup.ValueBool
      Username := some username
      Password := some password
      BillingAccountId := none
      PublicKey := if !data.PublicKey.IsNull then some data.PublicKey.ValueString else none
      NetworkUuid :=
        if !(data.NetworkUUID.IsNull || data.NetworkUUID.IsUnknown) then
          some data.NetworkUUID.ValueString
        else none
      SourceUuid := if !data.SourceUUID.IsNull then some data.SourceUUID.ValueString else none
      SourceReplica :=
        if !data.SourceUUID.IsNull && !data.SourceReplica.IsNull then
          some data.SourceReplica.ValueString
        else none
      CloudInit := none }
  if !data.CloudInit.IsNull then
    match VirtualMachine.Create.cloudInit jsonMarshal data.CloudInit.ValueString with
    | .error err => .error err
    | .ok cloudInit => .ok { createReq with CloudInit := some cloudInit }
  else .ok createReq

/-- Go `VirtualMachine.Create`. -/
def VirtualMachine.Create (net : NetPkg) (c : Client) (seededRand : Nat → Nat)
    (jsonMarshal : List GoString → Except GoError GoString) (data : VirtualMachineModel)
    (tr : Trace) : Response VirtualMachineModel × Trace :=
  match VirtualMachine.Create.createReq seededRand jsonMarshal data with
  | .error err => (⟨[⟨lit "Virtual machine create error", err.Error⟩], .unchanged⟩, tr)
  | .ok createReq =>
    match VirtualMachineService.CreateVirtualMachine c createReq tr with
    | (.error err, tr) =>
      (⟨[⟨lit "Virtual machine create error",
        (apis.GetServerErrorFromHttpCallError.nonNil err).Error⟩], .unchanged⟩, tr)
    | (.ok server, tr) =>
      match VirtualMachine.setStateData net c server data tr with
      | (data1, tr) => (⟨[], .set data1⟩, tr)

end resources

/-- The membership condition of the network derivation as the specification
words it: the network lists `uuid` among its VM UUIDs and its subnet, parsed
as CIDR, contains the address `ip`. -/
def networkHolds (net : NetPkg) (uuid : GoString) (ip : IP) (n : warren.Network) : Bool :=
  decide (uuid ∈ n.VmUuids) &&
    match net.ParseCIDR n.Subnet with
    | .ok (_, subnet) => net.Contains subnet ip
    | .error _ => false

/-- The requests of the `CreateFloatingIp` calls of a trace, oldest first. -/
def createFloatingIpCalls (tr : warren.Trace) : List warren.CreateFloatingIpRequest :=
  tr.filterMap (fun call =>
    match call with
    | .CreateFloatingIp req => some req
    | _ => none)

/-- The arguments of the `AssignFloatingIp` calls of a trace, oldest first. -/
def assignFloatingIpCalls (tr : warren.Trace) : List (IP × GoString) :=
  tr.filterMap (fun call =>
    match call with
    | .AssignFloatingIp ip vmUuid => some (ip, vmUuid)
    | _ => none)

/-- The addresses of the `DeleteFloatingIp` calls of a trace, oldest first. -/
def deleteFloatingIpCalls (tr : warren.Trace) : List IP :=
  tr.filterMap (fun call =>
    match call with
    | .DeleteFloatingIp ip => some ip
    | _ => none)

/-- The requests of the `CreateVirtualMachine` calls of a trace, oldest first. -/
def createVirtualMachineCalls (tr : warren.Trace) : List warren.CreateVirtualMachineRequest :=
  tr.filterMap (fun call =>
    match call with
    | .CreateVirtualMachine req => some req
    | _ => none)

/-- The text of `e` passes the guard of the classifiers (`[` first, first `]`
at index 4) and the three bytes between the brackets are `code`. -/
def hasStatusCode (e : GoError) (code : GoString) : Prop :=
  HasPrefix e.Error (lit "[") = true ∧ Index e.Error (lit "]") = 4 ∧ slice e.Error 1 4 = code

instance (e : GoError) (code : GoString) : Decidable (hasStatusCode e code) := by
  unfold hasStatusCode
  infer_instance

namespace fixtures

open warren

/-! ## Sample platforms and states used to evaluate the operations -/

/-- The error text `Client.Call` builds for the 404 answer of the test server
(`mock/network.go`): empty message, one entry in `errors`, no correlation id. -/
def notFoundText : GoString := lit "[404] , map[Error:[404] Server not found], "

/-- A platform on which nothing exists: every fetch, create and delete is
answered with the 404 error and every list is empty. -/
def emptyPlatform : Client where
  CreateDisk := fun _ _ => .error (.plain notFoundText)
  GetDiskById := fun _ _ => .error (.plain notFoundText)
  DeleteDiskById := fun _ _ => some (.plain notFoundText)
  GetByUuid := fun _ _ => .error (.plain notFoundText)
  ListVms := fun _ => .ok []
  CreateVirtualMachine := fun _ _ => .error (.plain notFoundText)
  DeleteVm := fun _ _ => some (.plain notFoundText)
  AttachDisk := fun _ _ _ => .error (.plain notFoundText)
  DetachDisk := fun _ _ _ => some (.plain notFoundText)
  GetNetworkByUUID := fun _ _ => .error (.plain notFoundText)
  ListNetworks := fun _ => .ok []
  CreateNetwork := fun _ _ => .error (.plain notFoundText)
  DeleteNetworkByUUID := fun _ _ => some (.plain notFoundText)
  ChangeNetworkName := fun _ _ _ => .error (.plain notFoundText)
  ListFloatingIps := fun _ => .ok []
  CreateFloatingIp := fun _ _ => .error (.plain notFoundText)
  AssignFloatingIp := fun _ _ _ => .error (.plain notFoundText)
  UnAssignFloatingIp := fun _ _ => .error (.plain notFoundText)
  DeleteFloatingIp := fun _ _ => some (.plain notFoundText)
  ListLocations := fun _ => .ok []

/-- Go `TestNetworkUUID` of mock/network.go. -/
def TestNetworkUUID : GoString := lit "23456789-abcd-4f01-23e5-6789abcdef01"

/-- Go `TestServerUUID` of mock/virtual_machine.go. -/
def TestServerUUID : GoString := lit "01234567-89ab-4def-0123-c56789abcdef"

/-- Go `TestDiskUUID` of mock/disk.go. -/
def TestDiskUUID : GoString := lit "12345678-9abc-def0-1234-56789abcdef0"

/-- The state of the network resource after it was created from
`jsonNetworkDataTemplate` of mock/network.go. -/
def networkState : pkgwarren.NetworkModel where
  CreatedAt := .value (lit "2021-06-29 08:22:52")
  IsDefault := .value true
  Name := .value (lit "test")
  ServerUUIDs := .value [.value TestServerUUID]
  SubnetIPv4 := .value (lit "10.42.0.0/24")
  SubnetIPv6 := .value []
  Type_ := .value (lit "private")
  UpdatedAt := .value (lit "2021-06-29 08:22:52")
  UUID := .value TestNetworkUUID
  VLANID := .value 42

/-- A disk state of which only the id is known. -/
def diskState (uuid : GoString) : resources.DiskModel where
  BillingAccount := .null
  CreatedAt := .null
  ServerUUID := .null
  SizeInGB := .null
  Snapshots := .null
  SourceImageType := .null
  SourceImageUUID := .null
  Status := .null
  StatusComment := .null
  UpdatedAt := .null
  UserID := .null
  UUID := .value uuid

/-- The disk of `jsonDiskDataTemplate` of mock/disk.go. -/
def testDisk (uuid : GoString) : Disk where
  Uuid := uuid
  Status := lit "Active"
  UserId := 8
  BillingAccountId := 6
  SizeGb := 20
  SourceImageType := lit "EMPTY"
  SourceImage := []
  CreatedAt := lit "2022-09-01T12:03:14.355+0000"
  UpdatedAt := lit "2022-09-01T12:03:14.355+0000"
  Snapshots := []
  StatusComment := []

/-- A platform holding the test disk until a `DeleteDiskById` for it has been
issued, as the handler of mock/disk.go does with `isDiskCreated`. -/
def diskPlatform : Client :=
  { emptyPlatform with
    GetDiskById := fun tr uuid =>
      if uuid = TestDiskUUID ∧ ServiceCall.DeleteDiskById TestDiskUUID ∉ tr then .ok (testDisk uuid)
      else .error (.plain notFoundText)
    DeleteDiskById := fun _ _ => none }

/-- The plan of the disk test (`size_in_gb = 20`) with an attachment to the
test server. -/
def diskPlan : resources.DiskModel :=
  { diskState [] with
    UUID := .unknown
    SizeInGB := .value 20
    ServerUUID := .value TestServerUUID }

/-- A platform whose create call answers with a disk that has an empty
`uuid`, and on which no server exists, so that the attach call fails. -/
def emptyUuidPlatform : Client :=
  { emptyPlatform with CreateDisk := fun _ _ => .ok (testDisk []) }

/-- A platform whose create call answers with the test disk while no server
exists, so that the attach call fails; the cleanup delete fails as well. -/
def attachFailsPlatform : Client :=
  { emptyPlatform with CreateDisk := fun _ _ => .ok (testDisk TestDiskUUID) }

/-! ### Package `net` on dotted-decimal IPv4 text

The functions below follow Go's `net.ParseIP`, `net.ParseCIDR` and
`IPNet.Contains` on IPv4 text (`a.b.c.d` and `a.b.c.d/n`); any other text is
rejected. They instantiate `NetPkg` for the sample evaluations. -/

/-- Splits a string at every occurrence of the byte `sep`. -/
def splitOn (sep : Nat) : GoString → List GoString
  | [] => [[]]
  | b :: rest =>
    if b = sep then [] :: splitOn sep rest
    else
      match splitOn sep rest with
      | [] => [[b]]
      | part :: parts => (b :: part) :: parts

/-- A decimal octet as Go's IPv4 parser accepts it: one to three digits with
value at most 255, and no leading zero before another digit ("0" is accepted,
"00" and "01" are not). -/
def parseOctet (s : GoString) : Option Nat :=
  match parseDigits s 0 with
  | some n =>
    if s.length ≤ 3 ∧ n ≤ 255 ∧ ¬ (1 < s.length ∧ s.head? = some 48) then some n else none
  | none => none

/-- The four octets of a dotted-decimal IPv4 address. -/
def parseIPv4 (s : GoString) : Option (Nat × Nat × Nat × Nat) :=
  match (splitOn 46 s).map parseOctet with
  | [some a, some b, some c, some d] => some (a, b, c, d)
  | _ => none

/-- Go `net.ParseIP`: the 16-byte form of an IPv4 address, nil when the text is
not accepted. -/
def ParseIP (s : GoString) : IP :=
  match parseIPv4 s with
  | some (a, b, c, d) => [0, 0, 0, 0, 0, 0, 0, 0, 0, 0, 255, 255, a, b, c, d]
  | none => []

/-- One byte of the mask of an `n`-bit prefix: the bits of byte `i` covered. -/
def maskByte (n i : Nat) : Nat :=
  if n ≥ 8 * (i + 1) then 255
  else if n ≤ 8 * i then 0
  else 256 - 2 ^ (8 - (n - 8 * i))

/-- Go `net.ParseCIDR` on `a.b.c.d/n`: the address and the network with its
4-byte network number and mask. The prefix length is a non-empty run of
decimal digits of value at most 32 (leading zeros are accepted there). -/
def ParseCIDR (s : GoString) : Except GoError (IP × IPNet) :=
  match splitOn 47 s with
  | [addr, bits] =>
    match parseIPv4 addr, parseDigits bits 0 with
    | some (a, b, c, d), some n =>
      if n ≤ 32 then
        .ok ([0, 0, 0, 0, 0, 0, 0, 0, 0, 0, 255, 255, a, b, c, d],
          ⟨[a &&& maskByte n 0, b &&& maskByte n 1, c &&& maskByte n 2, d &&& maskByte n 3],
           [maskByte n 0, maskByte n 1, maskByte n 2, maskByte n 3]⟩)
      else .error (.plain (lit "invalid CIDR address: " ++ s))
    | _, _ => .error (.plain (lit "invalid CIDR address: " ++ s))
  | _ => .error (.plain (lit "invalid CIDR address: " ++ s))

/-- Go `IP.To4`: the 4-byte form of an IPv4 address, nil otherwise. -/
def To4 (ip : IP) : IP :=
  if ip.length = 4 then ip
  else if ip.length = 16 ∧ ip.take 12 = [0, 0, 0, 0, 0, 0, 0, 0, 0, 0, 255, 255] then ip.drop 12
  else []

/-- The comparison loop of `IPNet.Contains`. -/
def sameNetwork : List Nat → List Nat → List Nat → Bool
  | n :: ns, m :: ms, b :: bs => (n &&& m) = (b &&& m) && sameNetwork ns ms bs
  | _, _, _ => true

/-- Go `IPNet.Contains` for a network whose number has 4 bytes. -/
def Contains (n : IPNet) (ip : IP) : Bool :=
  let ip4 := if To4 ip ≠ [] then To4 ip else ip
  if n.IP.length = 4 ∧ ip4.length = n.IP.length then sameNetwork n.IP n.Mask ip4 else false

/-- Package `net` on IPv4 text. -/
def netIPv4 : NetPkg where
  ParseIP := ParseIP
  ParseCIDR := ParseCIDR
  Contains := Contains
  contains_nil := by
    intro s a n _
    simp only [Contains, To4, List.length_nil]
    by_cases h : n.IP.length = 4
    · simp [h]
    · simp [h]

/-- Go `TestFloatingIP` of mock/network.go. -/
def TestFloatingIP : GoString := lit "42.42.42.42"

/-- The floating IP of `jsonFloatingIPDataTemplate` of mock/network.go, with
the given name and assignment target. -/
def testFloatingIp (name assignedTo : GoString) : FloatingIp where
  Id := 42
  IsIPv6 := false
  Address := TestFloatingIP
  UserId := 8
  BillingAccountId := 6
  Type_ := lit "public"
  Name := name
  Enabled := true
  CreatedAt := lit "2019-10-31 10:52:19"
  UpdatedAt := lit "2019-11-01 10:22:19"
  Uuid := lit "3456789a-bcde-4012-3f56-789abcdef012"
  AssignedTo := assignedTo
  AssignedToResourceType := if assignedTo = [] then [] else lit "virtual_machine"
  AssignedToPrivateIp := if assignedTo = [] then [] else lit "10.42.0.1"

/-- The plan of the floating IP test: `name = "test"` and an assignment to the
test server. -/
def floatingIPPlan : resources.FloatingIPModel where
  AssignedTo := .value TestServerUUID
  AssignedToPrivateIP := .unknown
  AssignedToResourceType := .unknown
  Address := .unknown
  BillingAccount := .unknown
  CreatedAt := .unknown
  Enabled := .unknown
  ID := .unknown
  IsIPv6 := .unknown
  Name := .value (lit "test")
  NetworkUUID := .unknown
  Type_ := .unknown
  UpdatedAt := .unknown
  UserID := .unknown
  UUID := .unknown

/-- The server of `jsonServerDataTemplate` of mock/virtual_machine.go with the
given private address. -/
def testServer (privateIPv4 : GoString) : VirtualMachine where
  Backup := false
  BillingAccount := 6
  CreatedAt := lit "2018-02-22 14:24:30"
  Description := lit "Proudly copied from the Warren Platform Cloud API documentation"
  Hostname := lit "machine-01234567-89ab-4def-0123-c56789abcdef"
  Mac := lit "52:54:00:59:44:d1"
  Memory := 2048
  Name := lit "machine-01234567-89ab-4def-0123-c56789abcdef"
  OsName := lit "ubuntu"
  OsVersion := lit "16.04"
  PrivateIPv4 := privateIPv4
  PublicIPv6 := []
  Status := lit "started"
  Storage :=
    [{ CreatedAt := lit "2018-02-22 14:24:30.312877"
       Name := lit "sda"
       Primary := true
       Replica := []
       Size := 20
       UserId := 8
       Uuid := TestDiskUUID }]
  UpdatedAt := lit "2018-02-22 14:24:30"
  UserId := 8
  Username := lit "example"
  Uuid := TestServerUUID
  VCpu := 1

/-- The network of `jsonNetworkDataTemplate` of mock/network.go: subnet
10.42.0.0/24, listing the test server. -/
def testNetwork : Network where
  VlanId := 42
  Subnet := lit "10.42.0.0/24"
  SubnetIPv6 := []
  Name := lit "test"
  CreatedAt := lit "2021-06-29 08:22:52"
  UpdatedAt := lit "2021-06-29 08:22:52"
  Uuid := TestNetworkUUID
  Type_ := lit "private"
  IsDefault := true
  VmUuids := [TestServerUUID]
  ResourcesCount := 0

/-- Whether the test floating IP exists after the calls of a trace, as the
handlers of mock/network.go track it in `isFloatingIPCreated`: a create call
sets the flag, a delete call clears it. -/
def floatingIPCreated (initially : Bool) (tr : Trace) : Bool :=
  tr.foldl (fun created call =>
    match call with
    | .CreateFloatingIp _ => true
    | .DeleteFloatingIp _ => false
    | _ => created) initially

/-- The platform of the floating IP tests: the test server (private address
10.42.0.1) in the test network, and the test floating IP, which the create
call returns with name "test" and already assigned to the test server. -/
def floatingIPPlatform (initially : Bool) : Client :=
  { emptyPlatform with
    GetByUuid := fun _ uuid =>
      if uuid = TestServerUUID then .ok (testServer (lit "10.42.0.1"))
      else .error (.plain notFoundText)
    ListNetworks := fun _ => .ok [testNetwork]
    ListFloatingIps := fun tr =>
      if floatingIPCreated initially tr then .ok [testFloatingIp (lit "test") TestServerUUID]
      else .ok []
    CreateFloatingIp := fun _ _ => .ok (testFloatingIp (lit "test") TestServerUUID)
    DeleteFloatingIp := fun _ _ => none }

/-- A platform that goes down right after it created a floating IP: the
create call answers with the unassigned test floating IP, and from then on the
list call and the assign call are answered 503. -/
def outagePlatform : Client :=
  { emptyPlatform with
    ListFloatingIps := fun tr =>
      if floatingIPCreated false tr then .error (.plain (lit "[503] Service Unavailable, map[], "))
      else .ok []
    CreateFloatingIp := fun _ _ => .ok (testFloatingIp (lit "test") [])
    AssignFloatingIp := fun _ _ _ => .error (.plain (lit "[503] Service Unavailable, map[], ")) }

/-- The test platform with a create call that answers, as the real platform
does, with an unassigned floating IP; the assign call then returns it assigned
to the test server. -/
def freshPlatform : Client :=
  { floatingIPPlatform false with
    CreateFloatingIp := fun _ _ => .ok (testFloatingIp (lit "test") [])
    AssignFloatingIp := fun _ _ _ => .ok (testFloatingIp (lit "test") TestServerUUID) }

/-- The test platform with the test server at a private address outside the
subnet of the test network, which still lists the server. -/
def outsideSubnetPlatform : Client :=
  { floatingIPPlatform true with
    GetByUuid := fun _ _ => .ok (testServer (lit "10.43.0.1")) }

/-- State of the mock VM endpoint after the calls of a trace (variable
`isVMCreated` of `SetupVMEndpointOnMux`): set by a create call, cleared by a
delete call. -/
def vmCreated (initially : Bool) (tr : Trace) : Bool :=
  tr.foldl (fun created call =>
    match call with
    | .CreateVirtualMachine _ => true
    | .DeleteVm _ => false
    | _ => created) initially

/-- The platform of the virtual machine test (`SetupVMEndpointOnMux` with
`emptyUntilCreated`): the create call answers with the test server in status
"stopped"; a fetch of the test server answers with it in status "started" once
it is created and with the 404 error otherwise. -/
def vmPlatform : Client :=
  { emptyPlatform with
    CreateVirtualMachine := fun _ _ =>
      .ok { testServer (lit "10.42.0.1") with Status := lit "stopped" }
    GetByUuid := fun tr uuid =>
      if uuid = TestServerUUID && vmCreated false tr then .ok (testServer (lit "10.42.0.1"))
      else .error (.plain notFoundText)
    DeleteVm := fun _ _ => none }

/-- The plan of the virtual machine test (`generateVirtualMachineConfig`); the
attributes the configuration leaves out are unknown when computed and null
otherwise. -/
def vmPlan : resources.VirtualMachineModel where
  Backup := .unknown
  BillingAccount := .unknown
  CreatedAt := .unknown
  CloudInit := .null
  Description := .unknown
  DiskSizeInGB := .value 20
  Hostname := .unknown
  MAC := .unknown
  Memory := .value 2048
  Name := .value (lit "machine-01234567-89ab-4def-0123-c56789abcdef")
  OSName := .value (lit "ubuntu")
  OSVersion := .value (lit "16.04")
  Password := .null
  SourceReplica := .null
  SourceUUID := .null
  Status := .unknown
  Storage := .unknown
  PrivateIPv4 := .unknown
  PublicIPv6 := .unknown
  PublicKey := .null
  NetworkUUID := .unknown
  ReservePublicIP := .null
  UpdatedAt := .unknown
  UserID := .unknown
  Username := .value (lit "example")
  UUID := .unknown
  VCPU := .value 1

/-- A source of random values for the generated password. -/
def seededRand (i : Nat) : Nat := 7 * i + 3

/-- A JSON marshaller of the cloud-init blocks that never fails. -/
def jsonMarshal (blocks : List GoString) : Except GoError GoString :=
  .ok (blocks.foldl (fun acc b => acc ++ b) [])

/-- The request that `VirtualMachine.Create` sends for the plan of the virtual
machine test: the configured attributes, the flags unset, and a generated
password. -/
def vmCreateRequest : CreateVirtualMachineRequest where
  Name := some (lit "machine-01234567-89ab-4def-0123-c56789abcdef")
  OsName := some (lit "ubuntu")
  OsVersion := some (lit "16.04")
  Disks := some 20
  VCpu := some 1
  Ram := some 2048
  ReservePublicIp := some false
  Backup := some false
  Username := some (lit "example")
  Password := some (resources.VirtualMachine.Create.generatePassword seededRand)
  BillingAccountId := none
  PublicKey := none
  NetworkUuid := none
  SourceUuid := none
  SourceReplica := none
  CloudInit := none

/-- The test disk with two snapshots. -/
def diskWithSnapshots : Disk :=
  { testDisk TestDiskUUID with
    Snapshots :=
      [{ Uuid := lit "snapshot-a", SizeGb := 20, CreatedAt := lit "2022-09-02T12:00:00.000+0000",
         DiskUuid := TestDiskUUID },
       { Uuid := lit "snapshot-b", SizeGb := 10, CreatedAt := lit "2022-09-03T12:00:00.000+0000",
         DiskUuid := TestDiskUUID }] }

/-- The test server with a second storage entry that has two replicas. -/
def serverWithReplicas : VirtualMachine :=
  { testServer (lit "10.42.0.1") with
    Storage :=
      [{ CreatedAt := lit "2018-02-22 14:24:30.312877", Name := lit "sda", Primary := true,
         Replica := [], Size := 20, UserId := 8, Uuid := TestDiskUUID },
       { CreatedAt := lit "2018-02-23 10:00:00.000000", Name := lit "sdb", Primary := false,
         Replica :=
           [{ CreatedAt := lit "2018-02-24 01:00:00", MasterUuid := lit "disk-b", Size := 5,
              Type_ := lit "snapshot", Uuid := lit "replica-a" },
            { CreatedAt := lit "2018-02-25 01:00:00", MasterUuid := lit "disk-b", Size := 6,
              Type_ := lit "backup", Uuid := lit "replica-b" }],
         Size := 40, UserId := 8, Uuid := lit "disk-b" }] }

/-- A second server, to which one listed floating IP is assigned. -/
def SecondServerUUID : GoString := lit "76543210-ba98-4fed-8210-fedcba987654"

/-- The test platform with four floating IPs listed: a disabled one assigned
to the test server (id 7), an enabled one assigned to another server (id 8),
and two enabled ones assigned to the test server (ids 42 and 43, in that
order). -/
def reusePlatform : Client :=
  { floatingIPPlatform true with
    ListFloatingIps := fun _ =>
      .ok [{ testFloatingIp (lit "test") TestServerUUID with Id := 7, Enabled := false },
           { testFloatingIp (lit "test") SecondServerUUID with Id := 8 },
           testFloatingIp (lit "test") TestServerUUID,
           { testFloatingIp (lit "test") TestServerUUID with Id := 43 }] }

/-- The test platform on which the only floating IP assigned to the test
server is disabled. -/
def disabledOnlyPlatform : Client :=
  { floatingIPPlatform false with
    ListFloatingIps := fun _ =>
      .ok [{ testFloatingIp (lit "test") TestServerUUID with Enabled := false },
           { testFloatingIp (lit "test") SecondServerUUID with Id := 8 }] }

end fixtures

/-- The state object that `Disk.setStateData` builds for one snapshot. -/
def snapshotObject (diskSnapshot : warren.Snapshot) : resources.DiskSnapshotObject :=
  { created_at := .value diskSnapshot.CreatedAt
    disk_uuid := .value diskSnapshot.DiskUuid
    size_in_gb := .value diskSnapshot.SizeGb
    uuid := .value diskSnapshot.Uuid }

/-- The state object that `VirtualMachine.setStateData` builds for one replica
of a storage entry. -/
def replicaObject (serverStorageReplica : warren.StorageReplica) :
    resources.StorageReplicaObject :=
  { created_at := .value serverStorageReplica.CreatedAt
    master_uuid := .value serverStorageReplica.MasterUuid
    size_in_gb := .value serverStorageReplica.Size
    type_ := .value serverStorageReplica.Type_
    uuid := .value serverStorageReplica.Uuid }

/-- The state object that `VirtualMachine.setStateData` builds for one storage
entry, with the list of its replicas. -/
def storageObject (serverStorage : warren.VMStorage) : resources.StorageObject :=
  { created_at := .value serverStorage.CreatedAt
    name := .value serverStorage.Name
    primary := .value serverStorage.Primary
    replica := .value (serverStorage.Replica.map replicaObject)
    size_in_gb := .value serverStorage.Size
    user_id := .value serverStorage.UserId
    uuid := .value serverStorage.Uuid }

/-- The number written by a string of decimal digit bytes. -/
def digitsValue (l : List Nat) : Nat := l.foldl (fun a d => a * 10 + (d - 48)) 0

/-! ## The client registry of pkg/warren/apis/client.go -/

namespace warren

/-- The exported configuration of a built Go `*warren.Client` (warren.go):
the parsed base URL, of type `U` for `*url.URL`, the location slug and the
token. The registry stores and returns such clients. -/
structure ClientHandle (U : Type) where
  BaseURL : U
  LocationSlug : GoString
  ApiToken : GoString
  deriving DecidableEq, Repr

/-- Go `ClientBuilder` of warren.go without the HTTP client; a nil pointer
field is `none`. -/
structure ClientBuilder where
  ApiUrl : Option GoString
  ApiToken : Option GoString
  LocationSlug : Option GoString
  deriving DecidableEq, Repr

/-- Go `NewClientFromBuilder` of warren.go; `urlParse` stands for `url.Parse`. -/
def NewClientFromBuilder {U : Type} (urlParse : GoString → Except GoError U)
    (builder : ClientBuilder) : Except GoError (ClientHandle U) :=
  match builder.ApiUrl with
  | none => .error (.plain (lit "ApiUrl must not be empty"))
  | some apiUrl =>
    match urlParse apiUrl with
    | .error err => .error err
    | .ok u =>
      let apiToken : GoString :=
        match builder.ApiToken with
        | some token => token
        | none => []
      let c : ClientHandle U := { BaseURL := u, LocationSlug := [], ApiToken := apiToken }
      match builder.LocationSlug with
      | some slug => .ok { c with LocationSlug := slug }
      | none => .ok c

end warren

namespace apis

open warren

/-- Constant `warrenDefaultURL` of types.go. -/
def warrenDefaultURL : GoString := lit "https://api.equinix.warren.io/v1"

/-- Go `getClient` of client.go: the built client, or nil (`none`) when the
build fails, which is only logged. -/
def getClient {U : Type} (urlParse : GoString → Except GoError U)
    (url token location : GoString) : Option (ClientHandle U) :=
  let clientBuilder0 : ClientBuilder :=
    { ApiUrl := some url, ApiToken := some token, LocationSlug := none }
  let clientBuilder : ClientBuilder :=
    if location ≠ [] then { clientBuilder0 with LocationSlug := some location }
    else clientBuilder0
  match NewClientFromBuilder urlParse clientBuilder with
  | .error _ => none
  | .ok client => some client

/-- Go `GetClientForTokenAndEndpoint` of client.go. The package variable
`singletons` is the argument `singletons` (a token without entry gives
`none`), and `Getenv` stands for `os.Getenv`. The slice expression
`url[len(url) - 1:]` panics on an empty `url`, and the index expression
`urlData[len(urlData) - 1]` on an empty `urlData`. -/
def GetClientForTokenAndEndpoint {U : Type} (urlParse : GoString → Except GoError U)
    (Getenv : GoString → GoString) (singletons : GoString → Option (ClientHandle U))
    (token url : GoString) : Except Panic (Option (ClientHandle U)) :=
  let looked : Option (ClientHandle U) × GoString :=
    if url = [] then
      match singletons token with
      | some client => (some client, url)
      | none =>
        let envUrl := Getenv (lit "WARREN_API_URL")
        (none, if envUrl = [] then warrenDefaultURL else envUrl)
    else (none, url)
  match looked.1 with
  | some client => .ok (some client)
  | none =>
    let url1 := looked.2
    if url1.length = 0 then .error .sliceOutOfRange
    else
      let url2 : GoString :=
        if slice url1 (url1.length - 1) url1.length = lit "/" then slice url1 0 (url1.length - 1)
        else url1
      if Count url2 (lit "/") = 3 then
        .ok (getClient urlParse url2 token (Getenv (lit "WARREN_API_LOCATION")))
      else
        let urlData := Split url2 (lit "/")
        if urlData.length = 0 then .error .indexOutOfRange
        else
          let location := urlData.getD (urlData.length - 1) []
          let url3 := Join (urlData.take (urlData.length - 1)) (lit "/")
          .ok (getClient urlParse url3 token location)

/-- Go `SetClientForToken` of client.go: the registry after the call; a nil
client (`none`) deletes the entry of the token. -/
def SetClientForToken {U : Type} (singletons : GoString → Option (ClientHandle U))
    (token : GoString) (client : Option (ClientHandle U)) : GoString → Option (ClientHandle U) :=
  match client with
  | none => fun t => if t = token then none else singletons t
  | some c => fun t => if t = token then some c else singletons t

end apis

namespace fixtures

open warren

/-- A `url.Parse` that accepts every text and keeps it as the URL. -/
def urlParse (rawURL : GoString) : Except GoError GoString := .ok rawURL

/-- An environment in which no variable is set. -/
def Getenv (_key : GoString) : GoString := []

/-- The registry before any client is registered. -/
def noClients : GoString → Option (ClientHandle GoString) := fun _ => none

/-- The client of `NewMockTestEnv` (mock/test_env.go) for a test server
listening at `http://127.0.0.1:8080`. -/
def mockClient : ClientHandle GoString where
  BaseURL := lit "http://127.0.0.1:8080"
  LocationSlug := lit "cyc01"
  ApiToken := lit "dummy-token"

/-- The `api_url` of the provider configuration of `NewMockTestEnv`. -/
def mockApiUrl : GoString := lit "http://127.0.0.1:8080/v1/cyc01"

end fixtures

/-- The match condition of the network query as the specification words it:
with a name or a UUID given, the name is given and equal or the UUID is given
and equal, and the default flag equals `is_default` if that is given; with
neither given, `is_default` is given and equal to the default flag. -/
def networkMatches (data : pkgwarren.NetworkModel) (network : warren.Network) : Bool :=
  if data.Name.IsNull && data.UUID.IsNull then
    !data.IsDefault.IsNull && data.IsDefault.Equal (.value network.IsDefault)
  else
    ((!data.Name.IsNull && data.Name.Equal (.value network.Name)) ||
      (!data.UUID.IsNull && data.UUID.Equal (.value network.Uuid))) &&
    (data.IsDefault.IsNull || data.IsDefault.Equal (.value network.IsDefault))

namespace fixtures

/-- The configuration of the network data source test: only `name = "test"`. -/
def networkByName : pkgwarren.NetworkModel where
  CreatedAt := .null
  IsDefault := .null
  Name := .value (lit "test")
  ServerUUIDs := .null
  SubnetIPv4 := .null
  SubnetIPv6 := .null
  Type_ := .null
  UpdatedAt := .null
  UUID := .null
  VLANID := .null

/-- A network created later under the name of the test network, with another
UUID. -/
def otherNetwork : warren.Network :=
  { testNetwork with
    Uuid := lit "fedcba98-7654-4321-8fed-cba987654321"
    CreatedAt := lit "2023-01-01 00:00:00"
    UpdatedAt := lit "2023-01-01 00:00:00"
    VmUuids := [] }

end fixtures

namespace resources

open warren

/-- Go `Disk.Update` of disk.go, from the plan `newData` and the prior state
`oldData`. -/
def Disk.Update (c : Client) (newData oldData : DiskModel) (tr : Trace) :
    Response DiskModel × Trace :=
  if !oldData.ServerUUID.Equal newData.ServerUUID then
    let diskUUID := oldData.UUID.ValueString
    let newServerUUID := newData.ServerUUID.ValueString
    let detached : Option GoError × Trace :=
      if !oldData.ServerUUID.IsNull then
        VirtualMachineService.DetachDisk c oldData.ServerUUID.ValueString diskUUID tr
      else (none, tr)
    match detached with
    | (some err, tr) =>
      (⟨[⟨lit "Disk update error", (apis.GetServerErrorFromHttpCallError.nonNil err).Error⟩],
        .unchanged⟩, tr)
    | (none, tr) =>
      if newServerUUID ≠ [] then
        match VirtualMachineService.AttachDisk c newServerUUID diskUUID tr with
        | (.error err, tr) =>
          (⟨[⟨lit "Disk update error", (apis.GetServerErrorFromHttpCallError.nonNil err).Error⟩],
            .unchanged⟩, tr)
        | (.ok _, tr) => (⟨[], .set newData⟩, tr)
      else (⟨[], .set newData⟩, tr)
  else (⟨[], .set newData⟩, tr)

end resources

namespace fixtures

open warren

/-- A second server, the new parent of the disk in the update examples. -/
def OtherServerUUID : GoString := lit "89abcdef-0123-4567-89ab-cdef01234567"

/-- A platform that carries out every detach and attach call. -/
def reparentPlatform : Client :=
  { emptyPlatform with
    DetachDisk := fun _ _ _ => none
    AttachDisk := fun _ _ diskUuid =>
      .ok { CreatedAt := lit "2018-02-22 14:24:30.312877", Name := lit "sdb", Primary := false,
            Replica := [], Size := 20, UserId := 8, Uuid := diskUuid } }

end fixtures

namespace warren

/-- The form parameters that Go `BlockStorageService.CreateDisk` builds from
its request: one entry for every non-nil field, listed in the order of the
`if` statements (the Go map has no order; the keys are distinct). -/
def BlockStorageService.CreateDisk.params (req : CreateDiskRequest) :
    List (GoString × GoString) :=
  (match req.SizeGb with
    | some sizeGb => [(lit "size_gb", Itoa sizeGb)]
    | none => []) ++
  (match req.BillingAccountId with
    | some billingAccountId => [(lit "billing_account_id", Itoa billingAccountId)]
    | none => []) ++
  (match req.SourceImageType with
    | some sourceImageType => [(lit "source_image_type", sourceImageType)]
    | none => []) ++
  (match req.SourceImage with
    | some sourceImage => [(lit "source_image", sourceImage)]
    | none => [])

end warren

/-! ## pkg/provider/data_sources/location.go -/

namespace data_sources

open warren

/-- Go `LocationModel` of data_sources/types.go. -/
structure LocationModel where
  CountryCode : Tf GoString
  Description : Tf GoString
  DisplayName : Tf GoString
  IsDefault : Tf Bool
  IsPreferred : Tf Bool
  Slug : Tf GoString
  deriving DecidableEq, Repr

/-- The `for` loop of `Location.Read`, carrying `isFound` and `data`. The loop
ends at the first location after whose tests `isFound` is true. -/
def Location.Read.loop (isParameterOnly : Bool) :
    List Location → Bool → LocationModel → Bool × LocationModel
  | [], isFound, data => (isFound, data)
  | location :: rest, isFound, data =>
    let isFound1 :=
      if !data.DisplayName.IsNull && data.DisplayName.Equal (.value location.DisplayName) then true
      else isFound
    let isFound2 :=
      if !data.Slug.IsNull && data.Slug.Equal (.value location.Slug) then true else isFound1
    let isFound3 :=
      if !data.IsDefault.IsNull then
        if !data.IsDefault.Equal (.value location.IsDefault) then false
        else if isParameterOnly then true
        else isFound2
      else isFound2
    let isFound4 :=
      if !data.IsPreferred.IsNull then
        if !data.IsPreferred.Equal (.value location.IsPreferred) then false
        else if isParameterOnly then true
        else isFound3
      else isFound3
    if !isFound4 then Location.Read.loop isParameterOnly rest isFound4 data
    else
      (isFound4,
        { data with
          CountryCode := .value location.CountryCode
          DisplayName := .value location.DisplayName
          IsDefault := .value location.IsDefault
          IsPreferred := .value location.IsPreferred
          Slug := .value location.Slug })

/-- Go `Location.Read` of data_sources/location.go. The classifier of the list
error is `GetLocationErrorFromHttpCallError`, on whose result `.Error()` is
called. When no location was selected the operation returns after adding one
diagnostic for a display name that is set and one for a slug that is set. -/
def Location.Read (c : Client) (data : LocationModel) (tr : Trace) :
    Except Panic (Response LocationModel) × Trace :=
  match LocationService.ListLocations c tr with
  | (.error err, tr) =>
    match apis.GetLocationErrorFromHttpCallError (some err) with
    | .error p => (.error p, tr)
    | .ok none => (.error .nilDereference, tr)
    | .ok (some e) => (.ok ⟨[⟨lit "Location read error", e.Error⟩], .unchanged⟩, tr)
  | (.ok locations, tr) =>
    let isParameterOnly := data.DisplayName.IsNull && data.Slug.IsNull
    match Location.Read.loop isParameterOnly locations false data with
    | (true, data1) => (.ok ⟨[], .set data1⟩, tr)
    | (false, data1) =>
      let parameters0 : GoString :=
        if !data1.IsDefault.IsNull then lit "Default " ++ data1.IsDefault.BoolString else []
      let parameters1 : GoString :=
        if !data1.IsPreferred.IsNull then
          (if parameters0 ≠ [] then parameters0 ++ lit ", " else parameters0)
            ++ lit "Preferred " ++ data1.IsPreferred.BoolString
        else parameters0
      let parameters : GoString :=
        if parameters1 ≠ [] then lit " (" ++ parameters1 ++ lit ")" else parameters1
      let diagnostics1 : List Diagnostic :=
        if !data1.DisplayName.IsNull then
          [⟨lit "Location read error",
            lit "No match found for display name: " ++ data1.DisplayName.ValueString ++ parameters⟩]
        else []
      let diagnostics2 : List Diagnostic :=
        if !data1.Slug.IsNull then
          diagnostics1 ++ [⟨lit "Location read error",
            lit "No match found for slug: " ++ data1.Slug.ValueString ++ parameters⟩]
        else diagnostics1
      (.ok ⟨diagnostics2, .unchanged⟩, tr)

end data_sources

/-- The selection test of the loop of `Location.Read`, in closed form: with a
display name or a slug given, one of them is given and equal and every given
flag equals the location's flag; with neither given, `is_preferred` decides
alone when it is given, and otherwise `is_default` must be given and equal. -/
def locationSelected (data : data_sources.LocationModel) (location : warren.Location) : Bool :=
  if data.DisplayName.IsNull && data.Slug.IsNull then
    if !data.IsPreferred.IsNull then data.IsPreferred.Equal (.value location.IsPreferred)
    else !data.IsDefault.IsNull && data.IsDefault.Equal (.value location.IsDefault)
  else
    ((!data.DisplayName.IsNull && data.DisplayName.Equal (.value location.DisplayName)) ||
      (!data.Slug.IsNull && data.Slug.Equal (.value location.Slug))) &&
    (data.IsDefault.IsNull || data.IsDefault.Equal (.value location.IsDefault)) &&
    (data.IsPreferred.IsNull || data.IsPreferred.Equal (.value location.IsPreferred))

/-- The model after `Location.Read` selected a location. -/
def locationPopulated (data : data_sources.LocationModel) (location : warren.Location) :
    data_sources.LocationModel :=
  { data with
    CountryCode := .value location.CountryCode
    DisplayName := .value location.DisplayName
    IsDefault := .value location.IsDefault
    IsPreferred := .value location.IsPreferred
    Slug := .value location.Slug }

namespace fixtures

open warren

/-- A location that is preferred and not the default. -/
def preferredLocation : Location where
  DisplayName := lit "Tallinn"
  IsDefault := false
  IsPreferred := true
  Description := lit "Preferred location"
  OrderNr := 1
  Slug := lit "tll"
  CountryCode := lit "ee"

/-- A location that is the default and not preferred. -/
def defaultLocation : Location where
  DisplayName := lit "Cyclone"
  IsDefault := true
  IsPreferred := false
  Description := lit "Default location"
  OrderNr := 2
  Slug := lit "cyc01"
  CountryCode := lit "ee"

/-- A location query that sets only the two flags. -/
def locationByFlags (isDefault isPreferred : Tf Bool) : data_sources.LocationModel where
  CountryCode := .null
  Description := .null
  DisplayName := .null
  IsDefault := isDefault
  IsPreferred := isPreferred
  Slug := .null

end fixtures

/-! ## Theorems -/

/-- In a text that passes the status guard the classifier reads its code. -/
theorem lit_404_ne_400 : lit "404" ≠ lit "400" := by decide

theorem lit_409_ne_400 : lit "409" ≠ lit "400" := by decide

theorem lit_409_ne_404 : lit "409" ≠ lit "404" := by decide

theorem lit_500_ne_400 : lit "500" ≠ lit "400" := by decide

theorem lit_500_ne_404 : lit "500" ≠ lit "404" := by decide

theorem lit_500_ne_409 : lit "500" ≠ lit "409" := by decide

/-- C1: for every error whose text has the bracketed status guard satisfied
(it starts with `[` and its first `]` is at index 4), the server classifier
returns `ErrServerNotFound` for code 404, `ErrServerIsLocked` for code 409, and
for code 500 an error for which `errors.Is(_, ErrUnknownInternal)` holds,
whatever follows the prefix. -/
theorem server_classifier_404_409_500 (e : GoError)
    (h0 : HasPrefix e.Error (lit "[") = true) (h4 : Index e.Error (lit "]") = 4) :
    (slice e.Error 1 4 = lit "404" →
      apis.GetServerErrorFromHttpCallError (some e) = some apis.ErrServerNotFound) ∧
    (slice e.Error 1 4 = lit "409" →
      apis.GetServerErrorFromHttpCallError (some e) = some apis.ErrServerIsLocked) ∧
    (slice e.Error 1 4 = lit "500" →
      ∃ r, apis.GetServerErrorFromHttpCallError (some e) = some r ∧
        errorsIs r apis.ErrUnknownInternal = true) := by
  refine ⟨fun hc => ?_, fun hc => ?_, fun hc => ?_⟩
  · simp [apis.GetServerErrorFromHttpCallError, apis.GetServerErrorFromHttpCallError.nonNil, h0, h4, hc, lit_404_ne_400]
  · simp [apis.GetServerErrorFromHttpCallError, apis.GetServerErrorFromHttpCallError.nonNil, h0, h4, hc, lit_409_ne_400, lit_409_ne_404]
  · have hr : apis.GetServerErrorFromHttpCallError (some e) = some (.wrap2
        (apis.ErrUnknownInternal.Error ++ lit ": " ++ e.Error) apis.ErrUnknownInternal e) := by
      simp only [apis.GetServerErrorFromHttpCallError, apis.GetServerErrorFromHttpCallError.nonNil,
        apis.GetErrorFromHttpCallError.nonNil, h0, h4, hc,
        lit_500_ne_400, lit_500_ne_404, lit_500_ne_409, Bool.and_self, beq_self_eq_true,
        if_true, if_false]
    exact ⟨_, hr, by simp [errorsIs, apis.ErrUnknownInternal]⟩

/-- C1 witness: the three sample texts of the specification. -/
theorem server_classifier_404_409_500_witness :
    apis.GetServerErrorFromHttpCallError (some (.plain (lit "[404] Server not found")))
      = some apis.ErrServerNotFound ∧
    apis.GetServerErrorFromHttpCallError (some (.plain (lit "[409] locked")))
      = some apis.ErrServerIsLocked ∧
    (∃ r, apis.GetServerErrorFromHttpCallError (some (.plain (lit "[500] boom"))) = some r ∧
      errorsIs r apis.ErrUnknownInternal = true) :=
  ⟨(server_classifier_404_409_500 (.plain (lit "[404] Server not found"))
      (by decide) (by decide)).1 (by decide),
   (server_classifier_404_409_500 (.plain (lit "[409] locked"))
      (by decide) (by decide)).2.1 (by decide),
   (server_classifier_404_409_500 (.plain (lit "[500] boom"))
      (by decide) (by decide)).2.2 (by decide)⟩

/-- C2: a non-nil error whose text fails the status guard (no leading `[`, or
the first `]` is not at index 4) is returned unchanged by the generic, server,
volume, network, floating IP and location classifiers. -/
theorem classifiers_pass_unprefixed (e : GoError)
    (h : HasPrefix e.Error (lit "[") = false ∨ Index e.Error (lit "]") ≠ 4) :
    apis.GetErrorFromHttpCallError (some e) = some e ∧
    apis.GetServerErrorFromHttpCallError (some e) = some e ∧
    apis.GetVolumeErrorFromHttpCallError (some e) = some e ∧
    apis.GetNetworkErrorFromHttpCallError (some e) = some e ∧
    apis.GetFloatingIPErrorFromHttpCallError (some e) = some e ∧
    apis.GetLocationErrorFromHttpCallError (some e) = .ok (some e) := by
  have hg : (HasPrefix e.Error (lit "[") && Index e.Error (lit "]") == 4) = false := by
    rcases h with h | h
    · simp [h]
    · simp [h]
  simp [apis.GetErrorFromHttpCallError, apis.GetServerErrorFromHttpCallError,
    apis.GetVolumeErrorFromHttpCallError, apis.GetNetworkErrorFromHttpCallError,
    apis.GetFloatingIPErrorFromHttpCallError, apis.GetLocationErrorFromHttpCallError,
    apis.GetErrorFromHttpCallError.nonNil, apis.GetServerErrorFromHttpCallError.nonNil,
    apis.GetVolumeErrorFromHttpCallError.nonNil, apis.GetNetworkErrorFromHttpCallError.nonNil,
    apis.GetFloatingIPErrorFromHttpCallError.nonNil, hg]

/-- C2 witness: a Go-native network error passes through every classifier. -/
theorem classifiers_pass_unprefixed_witness :
    apis.GetErrorFromHttpCallError
        (some (.plain (lit "failed to call HTTP request: dial tcp: connection refused")))
      = some (.plain (lit "failed to call HTTP request: dial tcp: connection refused")) ∧
    apis.GetServerErrorFromHttpCallError
        (some (.plain (lit "failed to call HTTP request: dial tcp: connection refused")))
      = some (.plain (lit "failed to call HTTP request: dial tcp: connection refused")) :=
  ⟨(classifiers_pass_unprefixed
      (.plain (lit "failed to call HTTP request: dial tcp: connection refused"))
      (Or.inl (by decide))).1,
   (classifiers_pass_unprefixed
      (.plain (lit "failed to call HTTP request: dial tcp: connection refused"))
      (Or.inl (by decide))).2.1⟩

theorem formatNat_three_digits (n : Nat) (h1 : 100 ≤ n) (h2 : n ≤ 999) :
    formatNat n = [48 + n / 100, 48 + n / 10 % 10, 48 + n % 10] := by
  obtain ⟨k, rfl⟩ : ∃ k, n = k + 100 := ⟨n - 100, by omega⟩
  have e : k + 100 + 1 = (k + 98) + 1 + 1 + 1 := by omega
  unfold formatNat
  rw [e]
  have a1 : ¬ (k + 100 < 10) := by omega
  have a2 : ¬ ((k + 100) / 10 < 10) := by omega
  have a3 : (k + 100) / 10 / 10 < 10 := by omega
  have a4 : (k + 100) / 10 / 10 = (k + 100) / 100 := by omega
  simp only [formatNatAux, a1, a2, a3, if_true, if_false]
  rw [a4]

theorem Itoa_three_digits (s : Int) (h1 : 100 ≤ s) (h2 : s ≤ 999) :
    ∃ d1 d2 d3 : Nat, Itoa s = [d1, d2, d3] ∧ d1 ≠ 93 ∧ d2 ≠ 93 ∧ d3 ≠ 93 := by
  have hn : ¬ (s < 0) := by omega
  have hf := formatNat_three_digits s.toNat (by omega) (by omega)
  have hi : Itoa s = formatNat s.toNat := by simp only [Itoa, hn, if_false]
  have b1 : s.toNat / 100 < 10 := by omega
  exact ⟨48 + s.toNat / 100, 48 + s.toNat / 10 % 10, 48 + s.toNat % 10, hi.trans hf,
    by omega, by omega, by omega⟩

theorem status_text_shape (d1 d2 d3 : Nat) (rest : GoString)
    (h1 : d1 ≠ 93) (h2 : d2 ≠ 93) (h3 : d3 ≠ 93) :
    HasPrefix (91 :: d1 :: d2 :: d3 :: 93 :: rest) (lit "[") = true ∧
    Index (91 :: d1 :: d2 :: d3 :: 93 :: rest) (lit "]") = 4 ∧
    slice (91 :: d1 :: d2 :: d3 :: 93 :: rest) 1 4 = [d1, d2, d3] := by
  have l1 : lit "[" = [91] := by decide
  have l2 : lit "]" = [93] := by decide
  refine ⟨?_, ?_, ?_⟩
  · simp [HasPrefix, l1, List.isPrefixOf]
  · simp [Index, IndexFrom, l2, List.isPrefixOf, h1, h2, h3, Ne.symm h1, Ne.symm h2, Ne.symm h3]
  · simp [slice]

/-- Every error that `Client.Call` builds for a response with status at least
300 has a text of the form `[` status `]` rest. -/
theorem call_failure_text (s : Int) (h300 : 300 ≤ s) (body : Except GoError GoString)
    (reqId : GoString) (decodeError : GoString → Except GoError warren.ResponseError)
    (responseData : Option (Except GoError GoString → Option GoError)) :
    ∃ e rest, warren.Client.Call none (.ok ⟨s, body, reqId⟩) decodeError responseData = some e ∧
      e.Error = lit "[" ++ Itoa s ++ lit "]" ++ rest := by
  have hs : s ≥ 300 := h300
  have k1 : lit "] failed to read error response: " = lit "]" ++ lit " failed to read error response: " := by
    decide
  have k2 : lit "] empty error response " = lit "]" ++ lit " empty error response " := by decide
  have k3 : lit "] failed to parse error response, body: "
      = lit "]" ++ lit " failed to parse error response, body: " := by decide
  have k4 : lit "] failed to parse meaningful data from error response, body: "
      = lit "]" ++ lit " failed to parse meaningful data from error response, body: " := by decide
  have k5 : lit "] " = lit "]" ++ lit " " := by decide
  unfold warren.Client.Call
  simp only [hs, if_true]
  cases body with
  | error err =>
    exact ⟨_, _, rfl, by simp only [GoError.Error, k1, List.append_assoc]; rfl⟩
  | ok buf =>
    by_cases hb : buf.length = 0
    · simp only [hb, if_true]
      exact ⟨_, _, rfl, by simp only [GoError.Error, k2, List.append_assoc]; rfl⟩
    · simp only [hb, if_false]
      cases hd : decodeError buf with
      | error err =>
        exact ⟨_, _, rfl, by simp only [GoError.Error, k3, List.append_assoc]; rfl⟩
      | ok errMess =>
        by_cases hm : errMess.Message.length = 0 ∧ errMess.Errors.length = 0
        · simp only [hm, and_self, if_true]
          exact ⟨_, _, rfl, by simp only [GoError.Error, k4, List.append_assoc]; rfl⟩
        · simp only [hm, if_false]
          exact ⟨_, _, rfl, by simp only [GoError.Error, k5, List.append_assoc]; rfl⟩

/-- An error whose text passes the status guard with code 404 is classified as
the NotFound error of each resource classifier. -/
theorem classifiers_404 (e : GoError)
    (h0 : HasPrefix e.Error (lit "[") = true) (h4 : Index e.Error (lit "]") = 4)
    (hc : slice e.Error 1 4 = lit "404") :
    apis.GetServerErrorFromHttpCallError (some e) = some apis.ErrServerNotFound ∧
    apis.GetVolumeErrorFromHttpCallError (some e) = some apis.ErrVolumeNotFound ∧
    apis.GetNetworkErrorFromHttpCallError (some e) = some apis.ErrNetworkNotFound ∧
    apis.GetFloatingIPErrorFromHttpCallError (some e) = some apis.ErrFloatingIPNotFound ∧
    apis.GetLocationErrorFromHttpCallError (some e) = .ok (some apis.ErrLocationNotFound) := by
  simp [apis.GetServerErrorFromHttpCallError, apis.GetVolumeErrorFromHttpCallError,
    apis.GetNetworkErrorFromHttpCallError, apis.GetFloatingIPErrorFromHttpCallError,
    apis.GetLocationErrorFromHttpCallError, apis.GetServerErrorFromHttpCallError.nonNil,
    apis.GetVolumeErrorFromHttpCallError.nonNil, apis.GetNetworkErrorFromHttpCallError.nonNil,
    apis.GetFloatingIPErrorFromHttpCallError.nonNil, h0, h4, hc, lit_404_ne_400]

/-- C3: for every response with a three-digit status `s ≥ 300`, whatever the
body (unreadable, empty, not JSON, JSON without message and errors, or a
structured error), `Client.Call` returns a non-nil error whose text begins
with `[` ++ decimal(s) ++ `]`; the classifiers' guard holds on it and the
bytes they read at positions 1..3 are decimal(s). For `s = 404` every resource
classifier therefore returns its NotFound error, also for an empty body. -/
theorem call_failure_status_embedded (s : Int) (h300 : 300 ≤ s) (h999 : s ≤ 999)
    (body : Except GoError GoString) (reqId : GoString)
    (decodeError : GoString → Except GoError warren.ResponseError)
    (responseData : Option (Except GoError GoString → Option GoError)) :
    ∃ e, warren.Client.Call none (.ok ⟨s, body, reqId⟩) decodeError responseData = some e ∧
      HasPrefix e.Error (lit "[" ++ Itoa s ++ lit "]") = true ∧
      HasPrefix e.Error (lit "[") = true ∧ Index e.Error (lit "]") = 4 ∧
      slice e.Error 1 4 = Itoa s ∧
      (s = 404 →
        apis.GetServerErrorFromHttpCallError (some e) = some apis.ErrServerNotFound ∧
        apis.GetVolumeErrorFromHttpCallError (some e) = some apis.ErrVolumeNotFound ∧
        apis.GetNetworkErrorFromHttpCallError (some e) = some apis.ErrNetworkNotFound ∧
        apis.GetFloatingIPErrorFromHttpCallError (some e) = some apis.ErrFloatingIPNotFound ∧
        apis.GetLocationErrorFromHttpCallError (some e) = .ok (some apis.ErrLocationNotFound)) := by
  obtain ⟨e, rest, hcall, htext⟩ := call_failure_text s h300 body reqId decodeError responseData
  obtain ⟨d1, d2, d3, hd, n1, n2, n3⟩ := Itoa_three_digits s (by omega) h999
  have l1 : lit "[" = [91] := by decide
  have l2 : lit "]" = [93] := by decide
  have hshape : e.Error = 91 :: d1 :: d2 :: d3 :: 93 :: rest := by
    rw [htext, hd, l1, l2]; rfl
  obtain ⟨g0, g4, gs⟩ := status_text_shape d1 d2 d3 rest n1 n2 n3
  rw [← hshape] at g0 g4 gs
  refine ⟨e, hcall, ?_, g0, g4, ?_, ?_⟩
  · rw [htext]
    simp [HasPrefix]
  · rw [gs, hd]
  · intro h404
    have hi : Itoa s = lit "404" := by rw [h404]; decide
    exact classifiers_404 e g0 g4 (by rw [gs, ← hd, hi])

/-- C3 witness: a 404 response with an empty body. -/
theorem call_failure_status_embedded_witness :
    ∃ e, warren.Client.Call none (.ok ⟨404, .ok [], []⟩) (fun _ => .error (.plain [])) none
        = some e ∧
      HasPrefix e.Error (lit "[" ++ Itoa 404 ++ lit "]") = true ∧
      HasPrefix e.Error (lit "[") = true ∧ Index e.Error (lit "]") = 4 ∧
      slice e.Error 1 4 = Itoa 404 ∧
      ((404 : Int) = 404 →
        apis.GetServerErrorFromHttpCallError (some e) = some apis.ErrServerNotFound ∧
        apis.GetVolumeErrorFromHttpCallError (some e) = some apis.ErrVolumeNotFound ∧
        apis.GetNetworkErrorFromHttpCallError (some e) = some apis.ErrNetworkNotFound ∧
        apis.GetFloatingIPErrorFromHttpCallError (some e) = some apis.ErrFloatingIPNotFound ∧
        apis.GetLocationErrorFromHttpCallError (some e) = .ok (some apis.ErrLocationNotFound)) :=
  call_failure_status_embedded 404 (by decide) (by decide) (.ok []) []
    (fun _ => .error (.plain [])) none

/-- C4 (evaluation at the failing input): `Network.Read` of a network that the
platform no longer lists (prior state from the test template, empty list
response) adds the error diagnostic "No match found for name: test (Default
true)" and leaves the state in place; the same happens when the list call is
answered 404 and classified `ErrNetworkNotFound`; and for no client, model and
trace does `Network.Read` remove the resource. The sibling `Disk.Read` removes
the resource on the same 404 answer. -/
theorem network_read_missing_adds_error_keeps_state :
    resources.Network.Read fixtures.emptyPlatform fixtures.networkState [] =
      (⟨[⟨lit "Network read error", lit "No match found for name: test (Default true)"⟩],
        .unchanged⟩, [.ListNetworks]) ∧
    resources.Network.Read
        { fixtures.emptyPlatform with ListNetworks := fun _ => .error (.plain fixtures.notFoundText) }
        fixtures.networkState [] =
      (⟨[⟨lit "Network read error", lit "Network not found"⟩], .unchanged⟩, [.ListNetworks]) ∧
    (∀ (c : warren.Client) (data : pkgwarren.NetworkModel) (tr : warren.Trace),
      (resources.Network.Read c data tr).1.State ≠ .removed) ∧
    resources.Disk.Read fixtures.emptyPlatform (fixtures.diskState fixtures.TestDiskUUID) [] =
      (⟨[], .removed⟩, [.GetDiskById fixtures.TestDiskUUID]) := by
  refine ⟨by decide, by decide, ?_, by decide⟩
  intro c data tr
  unfold resources.Network.Read
  split <;> simp

theorem volume_404_is_not_found (e : GoError) (h : hasStatusCode e (lit "404")) :
    apis.GetVolumeErrorFromHttpCallError.nonNil e = apis.ErrVolumeNotFound := by
  obtain ⟨h0, h4, hc⟩ := h
  simp [apis.GetVolumeErrorFromHttpCallError.nonNil, h0, h4, hc]

theorem network_404_is_not_found (e : GoError) (h : hasStatusCode e (lit "404")) :
    apis.GetNetworkErrorFromHttpCallError.nonNil e = apis.ErrNetworkNotFound := by
  obtain ⟨h0, h4, hc⟩ := h
  simp [apis.GetNetworkErrorFromHttpCallError.nonNil, h0, h4, hc]

theorem floatingIP_404_is_not_found (e : GoError) (h : hasStatusCode e (lit "404")) :
    apis.GetFloatingIPErrorFromHttpCallError.nonNil e = apis.ErrFloatingIPNotFound := by
  obtain ⟨h0, h4, hc⟩ := h
  simp [apis.GetFloatingIPErrorFromHttpCallError.nonNil, h0, h4, hc]

theorem server_404_is_not_found (e : GoError) (h : hasStatusCode e (lit "404")) :
    apis.GetServerErrorFromHttpCallError.nonNil e = apis.ErrServerNotFound := by
  obtain ⟨h0, h4, hc⟩ := h
  simp [apis.GetServerErrorFromHttpCallError.nonNil, h0, h4, hc, lit_404_ne_400]

theorem server_400_missing_is_not_found (e : GoError) (h : hasStatusCode e (lit "400"))
    (hm : Index e.Error (lit "No such virtual machine exists") > -1) :
    apis.GetServerErrorFromHttpCallError.nonNil e = apis.ErrServerNotFound := by
  obtain ⟨h0, h4, hc⟩ := h
  simp [apis.GetServerErrorFromHttpCallError.nonNil, h0, h4, hc, hm]

theorem errorsIs_self_sentinel (s : Sentinel) :
    errorsIs (.sentinel s) (.sentinel s) = true := by
  simp [errorsIs]

theorem errorsIs_wrap_sentinel (t : GoString) (s : Sentinel) :
    errorsIs (.wrap t (.sentinel s)) (.sentinel s) = true := by
  simp [errorsIs]

/-- C5: at every trace (in particular the one reached after a first, successful
Delete), when the lookup that precedes deletion reports NotFound, Delete adds
no error diagnostic and issues no call besides the lookup: for Disk and
Network on a 404 answer, for VirtualMachine on a 404 answer or a 400 answer
containing "No such virtual machine exists", for FloatingIP when the list has
no enabled entry with the stored id or the list call is answered 404. -/
theorem delete_of_missing_resource_succeeds (net : NetPkg) (c : warren.Client) (tr : warren.Trace) :
    (∀ (data : resources.DiskModel) (e : GoError),
      c.GetDiskById tr data.UUID.ValueString = .error e → hasStatusCode e (lit "404") →
      resources.Disk.Delete c data tr =
        (⟨[], .unchanged⟩, tr ++ [.GetDiskById data.UUID.ValueString])) ∧
    (∀ (data : pkgwarren.NetworkModel) (e : GoError),
      c.GetNetworkByUUID tr data.UUID.ValueString = .error e → hasStatusCode e (lit "404") →
      resources.Network.Delete c data tr =
        (⟨[], .unchanged⟩, tr ++ [.GetNetworkByUUID data.UUID.ValueString])) ∧
    (∀ (data : resources.VirtualMachineModel) (e : GoError),
      c.GetByUuid tr data.UUID.ValueString = .error e →
      (hasStatusCode e (lit "404") ∨
        (hasStatusCode e (lit "400") ∧
          Index e.Error (lit "No such virtual machine exists") > -1)) →
      resources.VirtualMachine.Delete c data tr =
        (⟨[], .unchanged⟩, tr ++ [.GetByUuid data.UUID.ValueString])) ∧
    (∀ (data : resources.FloatingIPModel) (id : Int) (ips : List warren.FloatingIp),
      Atoi data.ID.ValueString = .ok id → c.ListFloatingIps tr = .ok ips →
      (∀ ip ∈ ips, ¬ (ip.Enabled = true ∧ ip.Id = id)) →
      resources.FloatingIP.Delete net c data tr = (⟨[], .unchanged⟩, tr ++ [.ListFloatingIps])) ∧
    (∀ (data : resources.FloatingIPModel) (id : Int) (e : GoError),
      Atoi data.ID.ValueString = .ok id → c.ListFloatingIps tr = .error e →
      hasStatusCode e (lit "404") →
      resources.FloatingIP.Delete net c data tr = (⟨[], .unchanged⟩, tr ++ [.ListFloatingIps])) := by
  refine ⟨?_, ?_, ?_, ?_, ?_⟩
  · intro data e hget h404
    simp [resources.Disk.Delete, warren.BlockStorageService.GetDiskById, hget,
      volume_404_is_not_found e h404, apis.ErrVolumeNotFound, errorsIs]
  · intro data e hget h404
    simp [resources.Network.Delete, warren.NetworkService.GetNetworkByUUID, hget,
      network_404_is_not_found e h404, apis.ErrNetworkNotFound, errorsIs]
  · intro data e hget hnf
    have hcls : apis.GetServerErrorFromHttpCallError.nonNil e = apis.ErrServerNotFound := by
      rcases hnf with h404 | ⟨h400, hm⟩
      · exact server_404_is_not_found e h404
      · exact server_400_missing_is_not_found e h400 hm
    simp [resources.VirtualMachine.Delete, warren.VirtualMachineService.GetByUuid, hget, hcls,
      apis.ErrServerNotFound, errorsIs]
  · intro data id ips hid hlist hnone
    have hfind : ips.find? (fun ip => ip.Enabled && decide (ip.Id = id)) = none := by
      rw [List.find?_eq_none]
      intro ip hip
      simpa using hnone ip hip
    simp [resources.FloatingIP.Delete, hid, apis.GetFloatingIPByID,
      warren.NetworkService.ListFloatingIps, hlist, hfind, apis.ErrFloatingIPNotFound, errorsIs]
  · intro data id e hid hlist h404
    simp [resources.FloatingIP.Delete, hid, apis.GetFloatingIPByID,
      warren.NetworkService.ListFloatingIps, hlist, floatingIP_404_is_not_found e h404,
      apis.ErrFloatingIPNotFound, errorsIs]

/-- C5 witness: on the platform of the disk test server a first Delete finds
the disk and deletes it; the second Delete, run on the trace the first one
left, is answered 404 by the lookup, adds no diagnostic and issues no delete. -/
theorem delete_of_missing_resource_succeeds_witness :
    resources.Disk.Delete fixtures.diskPlatform (fixtures.diskState fixtures.TestDiskUUID) [] =
      (⟨[], .unchanged⟩,
        [.GetDiskById fixtures.TestDiskUUID, .DeleteDiskById fixtures.TestDiskUUID]) ∧
    resources.Disk.Delete fixtures.diskPlatform (fixtures.diskState fixtures.TestDiskUUID)
        [.GetDiskById fixtures.TestDiskUUID, .DeleteDiskById fixtures.TestDiskUUID] =
      (⟨[], .unchanged⟩,
        [.GetDiskById fixtures.TestDiskUUID, .DeleteDiskById fixtures.TestDiskUUID] ++
          [.GetDiskById (fixtures.diskState fixtures.TestDiskUUID).UUID.ValueString]) :=
  ⟨by decide,
   (delete_of_missing_resource_succeeds
      fixtures.netIPv4
      fixtures.diskPlatform
      [.GetDiskById fixtures.TestDiskUUID, .DeleteDiskById fixtures.TestDiskUUID]).1
      (fixtures.diskState fixtures.TestDiskUUID) (.plain fixtures.notFoundText)
      (by decide) (by decide)⟩

/-- C6 (counterexample): the create call succeeds and returns a disk whose
UUID is the empty string, the attach call fails, and `Disk.Create` issues no
`DeleteDiskById` at all. -/
theorem disk_create_empty_uuid_skips_cleanup :
    fixtures.emptyUuidPlatform.CreateDisk [] (resources.Disk.create.createReq fixtures.diskPlan)
      = .ok (fixtures.testDisk []) ∧
    fixtures.emptyUuidPlatform.AttachDisk
        [.CreateDisk (resources.Disk.create.createReq fixtures.diskPlan)]
        fixtures.TestServerUUID (fixtures.testDisk []).Uuid
      = .error (.plain fixtures.notFoundText) ∧
    (resources.Disk.Create fixtures.emptyUuidPlatform fixtures.diskPlan []).2 =
      [.CreateDisk (resources.Disk.create.createReq fixtures.diskPlan),
       .AttachDisk fixtures.TestServerUUID []] ∧
    (resources.Disk.Create fixtures.emptyUuidPlatform fixtures.diskPlan []).2.count
      (.DeleteDiskById (fixtures.testDisk []).Uuid) = 0 := by
  decide

/-- C6 (amended): in `Disk.Create`, if `CreateDisk` succeeds with a disk of
non-empty UUID `u` and the following `AttachDisk` fails, the calls issued are
the create, the attach and exactly one `DeleteDiskById(u)`, no state is saved
and the diagnostic carries the classified attach error, whatever the delete
call returns; for an empty UUID no delete is issued; and if `CreateDisk`
itself fails, no call follows it and the diagnostic carries the classified
create error. -/
theorem disk_create_cleanup (c : warren.Client) (data : resources.DiskModel) (tr : warren.Trace) :
    (∀ (disk : warren.Disk) (e : GoError),
      c.CreateDisk tr (resources.Disk.create.createReq data) = .ok disk →
      data.ServerUUID.IsNull = false →
      c.AttachDisk (tr ++ [.CreateDisk (resources.Disk.create.createReq data)])
        data.ServerUUID.ValueString disk.Uuid = .error e →
      (disk.Uuid ≠ [] →
        resources.Disk.Create c data tr =
          (⟨[⟨lit "Disk create error", (apis.GetServerErrorFromHttpCallError.nonNil e).Error⟩],
            .unchanged⟩,
           tr ++ [.CreateDisk (resources.Disk.create.createReq data)] ++
             [.AttachDisk data.ServerUUID.ValueString disk.Uuid] ++
             [.DeleteDiskById disk.Uuid])) ∧
      (disk.Uuid = [] →
        resources.Disk.Create c data tr =
          (⟨[⟨lit "Disk create error", (apis.GetServerErrorFromHttpCallError.nonNil e).Error⟩],
            .unchanged⟩,
           tr ++ [.CreateDisk (resources.Disk.create.createReq data)] ++
             [.AttachDisk data.ServerUUID.ValueString disk.Uuid]))) ∧
    (∀ e : GoError, c.CreateDisk tr (resources.Disk.create.createReq data) = .error e →
      resources.Disk.Create c data tr =
        (⟨[⟨lit "Disk create error", (apis.GetVolumeErrorFromHttpCallError.nonNil e).Error⟩],
          .unchanged⟩,
         tr ++ [.CreateDisk (resources.Disk.create.createReq data)])) := by
  refine ⟨?_, ?_⟩
  · intro disk e hcreate hsrv hattach
    refine ⟨fun hu => ?_, fun hu => ?_⟩
    · simp [resources.Disk.Create, resources.Disk.create, warren.BlockStorageService.CreateDisk,
        warren.VirtualMachineService.AttachDisk, hcreate, hsrv, hattach,
        resources.Disk.createOnErrorCleanup, hu, warren.BlockStorageService.DeleteDiskById]
    · have hattach0 := hattach
      rw [hu] at hattach0
      simp [resources.Disk.Create, resources.Disk.create, warren.BlockStorageService.CreateDisk,
        warren.VirtualMachineService.AttachDisk, hcreate, hsrv, hattach0,
        resources.Disk.createOnErrorCleanup, hu]
  · intro e hcreate
    simp [resources.Disk.Create, resources.Disk.create, warren.BlockStorageService.CreateDisk,
      hcreate, resources.Disk.createOnErrorCleanup]

/-- C6 witness: the test disk is created, the attach is answered 404, and one
delete for the created disk follows; the diagnostic is the classified attach
error although the delete fails too. -/
theorem disk_create_cleanup_witness :
    resources.Disk.Create fixtures.attachFailsPlatform fixtures.diskPlan [] =
      (⟨[⟨lit "Disk create error", lit "Server not found"⟩], .unchanged⟩,
       [.CreateDisk (resources.Disk.create.createReq fixtures.diskPlan),
        .AttachDisk fixtures.TestServerUUID fixtures.TestDiskUUID,
        .DeleteDiskById fixtures.TestDiskUUID]) :=
  ((disk_create_cleanup fixtures.attachFailsPlatform fixtures.diskPlan []).1
    (fixtures.testDisk fixtures.TestDiskUUID) (.plain fixtures.notFoundText)
    (by decide) (by decide) (by decide)).1 (by decide)

/-- Go `GetNetworkFromServerUUID` only issues `GetByUuid` and `ListNetworks`. -/
theorem getNetworkFromServerUUID_calls {β : Type} (f : warren.ServiceCall → Option β)
    (h1 : ∀ u, f (.GetByUuid u) = none) (h2 : f .ListNetworks = none)
    (net : NetPkg) (c : warren.Client) (uuid : GoString) (tr : warren.Trace) :
    (apis.GetNetworkFromServerUUID net c uuid tr).2.filterMap f = tr.filterMap f := by
  unfold apis.GetNetworkFromServerUUID warren.VirtualMachineService.GetByUuid
    warren.NetworkService.ListNetworks
  cases hg : c.GetByUuid tr uuid with
  | error e => simp [h1]
  | ok server =>
    cases hl : c.ListNetworks (tr ++ [.GetByUuid uuid]) with
    | error e => simp [hl, h1, h2]
    | ok networks => simp [hl, h1, h2]

/-- Go `FloatingIP.setStateData` only issues `GetByUuid` and `ListNetworks`. -/
theorem floatingIP_setStateData_calls {β : Type} (f : warren.ServiceCall → Option β)
    (h1 : ∀ u, f (.GetByUuid u) = none) (h2 : f .ListNetworks = none)
    (net : NetPkg) (c : warren.Client) (ip : warren.FloatingIp)
    (data : resources.FloatingIPModel) (tr : warren.Trace) :
    (resources.FloatingIP.setStateData net c ip data tr).2.filterMap f = tr.filterMap f := by
  have h := getNetworkFromServerUUID_calls f h1 h2 net c ip.AssignedTo tr
  unfold resources.FloatingIP.setStateData
  simp only [Tf.IsNull, Tf.ValueString, Bool.not_false, if_true]
  split
  · rename_i err tr1 heq
    rw [heq] at h
    exact h
  · rename_i network tr1 heq
    rw [heq] at h
    exact h

/-- The state written by `FloatingIP.setStateData` has the decimal id of the
floating IP it was given, whether or not the network lookup succeeds. -/
theorem floatingIP_setStateData_ID (net : NetPkg) (c : warren.Client) (ip : warren.FloatingIp)
    (data : resources.FloatingIPModel) (tr : warren.Trace) :
    (resources.FloatingIP.setStateData net c ip data tr).1.2.ID = .value (Itoa ip.Id) := by
  unfold resources.FloatingIP.setStateData
  simp only [Tf.IsNull, Bool.not_false, if_true]
  split <;> rfl

theorem find?_of_first {α : Type} (p : α → Bool) (pre post : List α) (x : α)
    (hx : p x = true) (hpre : ∀ y ∈ pre, p y = false) :
    (pre ++ x :: post).find? p = some x := by
  induction pre with
  | nil => simp [List.find?, hx]
  | cons y ys ih =>
    have hy : p y = false := hpre y (by simp)
    have hys : ∀ z ∈ ys, p z = false := fun z hz => hpre z (by simp [hz])
    simp [List.find?, hy, ih hys]

theorem createCalls_setStateData (net : NetPkg) (c : warren.Client) (ip : warren.FloatingIp)
    (data : resources.FloatingIPModel) (tr : warren.Trace) :
    createFloatingIpCalls (resources.FloatingIP.setStateData net c ip data tr).2
      = createFloatingIpCalls tr := by
  unfold createFloatingIpCalls
  exact floatingIP_setStateData_calls _ (fun _ => rfl) rfl net c ip data tr

theorem assignCalls_setStateData (net : NetPkg) (c : warren.Client) (ip : warren.FloatingIp)
    (data : resources.FloatingIPModel) (tr : warren.Trace) :
    assignFloatingIpCalls (resources.FloatingIP.setStateData net c ip data tr).2
      = assignFloatingIpCalls tr := by
  unfold assignFloatingIpCalls
  exact floatingIP_setStateData_calls _ (fun _ => rfl) rfl net c ip data tr

theorem deleteCalls_setStateData (net : NetPkg) (c : warren.Client) (ip : warren.FloatingIp)
    (data : resources.FloatingIPModel) (tr : warren.Trace) :
    deleteFloatingIpCalls (resources.FloatingIP.setStateData net c ip data tr).2
      = deleteFloatingIpCalls tr := by
  unfold deleteFloatingIpCalls
  exact floatingIP_setStateData_calls _ (fun _ => rfl) rfl net c ip data tr

theorem createCalls_append (a b : warren.Trace) :
    createFloatingIpCalls (a ++ b) = createFloatingIpCalls a ++ createFloatingIpCalls b := by
  simp [createFloatingIpCalls]

theorem assignCalls_append (a b : warren.Trace) :
    assignFloatingIpCalls (a ++ b) = assignFloatingIpCalls a ++ assignFloatingIpCalls b := by
  simp [assignFloatingIpCalls]

theorem deleteCalls_append (a b : warren.Trace) :
    deleteFloatingIpCalls (a ++ b) = deleteFloatingIpCalls a ++ deleteFloatingIpCalls b := by
  simp [deleteFloatingIpCalls]

theorem getFloatingIPFromAssignedUUID_trace (c : warren.Client) (uuid : GoString)
    (tr : warren.Trace) :
    (apis.GetFloatingIPFromAssignedUUID c uuid tr).2 = tr ++ [.ListFloatingIps] := by
  unfold apis.GetFloatingIPFromAssignedUUID warren.NetworkService.ListFloatingIps
  cases c.ListFloatingIps tr with
  | error e => rfl
  | ok ips =>
    simp only []
    cases List.find? (fun ip => ip.Enabled && decide (ip.AssignedTo = uuid)) ips <;> rfl

theorem getFloatingIPByID_trace (c : warren.Client) (id : Int) (tr : warren.Trace) :
    (apis.GetFloatingIPByID c id tr).2 = tr ++ [.ListFloatingIps] := by
  unfold apis.GetFloatingIPByID warren.NetworkService.ListFloatingIps
  cases c.ListFloatingIps tr with
  | error e => rfl
  | ok ips =>
    simp only []
    cases List.find? (fun ip => ip.Enabled && decide (ip.Id = id)) ips <;> rfl

/-- The first block of `FloatingIP.create` issues at most the list call. -/
theorem resolve_trace (c : warren.Client) (data : resources.FloatingIPModel) (tr : warren.Trace) :
    (resources.FloatingIP.create.resolve c data tr).2 = tr ∨
    (resources.FloatingIP.create.resolve c data tr).2 = tr ++ [.ListFloatingIps] := by
  unfold resources.FloatingIP.create.resolve
  by_cases hT : data.AssignedTo.ValueString = []
  · simp [hT]
  · right
    simp only [ne_eq, hT, not_false_eq_true, if_true]
    have h := getFloatingIPFromAssignedUUID_trace c data.AssignedTo.ValueString tr
    revert h
    generalize apis.GetFloatingIPFromAssignedUUID c data.AssignedTo.ValueString tr = r
    intro h
    obtain ⟨res, t⟩ := r
    simp only at h
    subst h
    cases res with
    | error e => simp only []; split <;> rfl
    | ok ip => rfl

/-- When the list call succeeds, the first block returns the first enabled
entry assigned to the target, if there is one. -/
theorem resolve_of_list (c : warren.Client) (data : resources.FloatingIPModel)
    (tr : warren.Trace) (ips : List warren.FloatingIp)
    (hT : data.AssignedTo.ValueString ≠ []) (hlist : c.ListFloatingIps tr = .ok ips) :
    resources.FloatingIP.create.resolve c data tr =
      (.ok (ips.find? (fun x => x.Enabled && decide (x.AssignedTo = data.AssignedTo.ValueString))),
        tr ++ [.ListFloatingIps]) := by
  unfold resources.FloatingIP.create.resolve apis.GetFloatingIPFromAssignedUUID
    warren.NetworkService.ListFloatingIps
  simp only [ne_eq, hT, not_false_eq_true, if_true, hlist]
  cases List.find? (fun x => x.Enabled && decide (x.AssignedTo = data.AssignedTo.ValueString)) ips with
  | none => simp [errorsIs, apis.ErrFloatingIPNotFound]
  | some ip => rfl

/-- The remainder of `FloatingIP.create` leaves the scratch record alone and
issues neither a create nor a delete call. -/
theorem finish_calls (net : NetPkg) (c : warren.Client) (data : resources.FloatingIPModel)
    (ip : warren.FloatingIp) (rd : resources.floatingIPCreateMethodData) (tr : warren.Trace) :
    (resources.FloatingIP.create.finish net c data ip rd tr).1.2.2 = rd ∧
    createFloatingIpCalls (resources.FloatingIP.create.finish net c data ip rd tr).2
      = createFloatingIpCalls tr ∧
    deleteFloatingIpCalls (resources.FloatingIP.create.finish net c data ip rd tr).2
      = deleteFloatingIpCalls tr := by
  unfold resources.FloatingIP.create.finish warren.NetworkService.AssignFloatingIp
  simp only []
  split
  · exact ⟨rfl, rfl, rfl⟩
  · split
    · split <;> exact ⟨rfl, rfl, rfl⟩
    · split
      · cases c.AssignFloatingIp tr (net.ParseIP ip.Address) data.AssignedTo.ValueString with
        | error e =>
          refine ⟨rfl, ?_, ?_⟩
          · simp [createCalls_append, createFloatingIpCalls]
          · simp [deleteCalls_append, deleteFloatingIpCalls]
        | ok ip1 =>
          refine ⟨rfl, ?_, ?_⟩
          · simp only [createCalls_setStateData, createCalls_append]
            simp [createFloatingIpCalls]
          · simp only [deleteCalls_setStateData, deleteCalls_append]
            simp [deleteFloatingIpCalls]
      · exact ⟨rfl, createCalls_setStateData _ _ _ _ _, deleteCalls_setStateData _ _ _ _ _⟩

/-- When the remainder of `FloatingIP.create` succeeds for a floating IP that
is already assigned, the model carries that floating IP's id. -/
theorem finish_ID (net : NetPkg) (c : warren.Client) (data : resources.FloatingIPModel)
    (ip : warren.FloatingIp) (rd : resources.floatingIPCreateMethodData) (tr : warren.Trace)
    (hassigned : ip.AssignedTo ≠ [])
    (hok : (resources.FloatingIP.create.finish net c data ip rd tr).1.1 = none) :
    (resources.FloatingIP.create.finish net c data ip rd tr).1.2.1.ID = .value (Itoa ip.Id) := by
  unfold resources.FloatingIP.create.finish at hok ⊢
  simp only [] at hok ⊢
  split
  · rename_i h; simp [h] at hok
  · rename_i h1
    split
    · rename_i h; simp [h1, h] at hok; split at hok <;> simp at hok
    · rename_i h2
      have h3 : ¬ (data.AssignedTo.ValueString ≠ [] ∧ ip.AssignedTo = []) := fun h => hassigned h.2
      simp only [h3, if_false]
      exact floatingIP_setStateData_ID net c ip data tr

/-- Go `Create` in terms of `create`: on success the model is stored and nothing
else happens; on failure one diagnostic is added, no state is stored and the
cleanup runs on the scratch record. -/
theorem Create_eq (net : NetPkg) (c : warren.Client) (data : resources.FloatingIPModel)
    (tr : warren.Trace) :
    ((resources.FloatingIP.create net c data ⟨0⟩ tr).1.1 = none →
      resources.FloatingIP.Create net c data tr =
        (⟨[], .set (resources.FloatingIP.create net c data ⟨0⟩ tr).1.2.1⟩,
          (resources.FloatingIP.create net c data ⟨0⟩ tr).2)) ∧
    (∀ e, (resources.FloatingIP.create net c data ⟨0⟩ tr).1.1 = some e →
      resources.FloatingIP.Create net c data tr =
        (⟨[⟨lit "Floating IP create error", e.Error⟩], .unchanged⟩,
          resources.FloatingIP.createOnErrorCleanup net c
            (resources.FloatingIP.create net c data ⟨0⟩ tr).1.2.2
            (resources.FloatingIP.create net c data ⟨0⟩ tr).2)) := by
  unfold resources.FloatingIP.Create
  generalize resources.FloatingIP.create net c data ⟨0⟩ tr = r
  obtain ⟨⟨err, d, rd⟩, t⟩ := r
  refine ⟨fun h => ?_, fun e h => ?_⟩
  · simp only at h; subst h; rfl
  · simp only at h; subst h; rfl

/-- The cleanup issues no create call, and no call at all for scratch id 0. -/
theorem cleanup_calls (net : NetPkg) (c : warren.Client)
    (rd : resources.floatingIPCreateMethodData) (tr : warren.Trace) :
    createFloatingIpCalls (resources.FloatingIP.createOnErrorCleanup net c rd tr)
      = createFloatingIpCalls tr ∧
    assignFloatingIpCalls (resources.FloatingIP.createOnErrorCleanup net c rd tr)
      = assignFloatingIpCalls tr ∧
    (rd.FloatingIPID = 0 → resources.FloatingIP.createOnErrorCleanup net c rd tr = tr) := by
  unfold resources.FloatingIP.createOnErrorCleanup
  by_cases h0 : rd.FloatingIPID = 0
  · simp [h0]
  · simp only [ne_eq, h0, not_false_eq_true, if_true, false_implies, and_true]
    have h := getFloatingIPByID_trace c rd.FloatingIPID tr
    revert h
    generalize apis.GetFloatingIPByID c rd.FloatingIPID tr = r
    intro h
    obtain ⟨res, t⟩ := r
    simp only at h
    subst h
    cases res with
    | error e =>
      simp only [createCalls_append, assignCalls_append]
      simp [createFloatingIpCalls, assignFloatingIpCalls]
    | ok ip =>
      simp only [warren.NetworkService.DeleteFloatingIp, createCalls_append, assignCalls_append]
      simp [createFloatingIpCalls, assignFloatingIpCalls]

/-- Go `create` from the outcome of its first two blocks. -/
theorem create_of_obtained (net : NetPkg) (c : warren.Client) (data : resources.FloatingIPModel)
    (rd rd1 : resources.floatingIPCreateMethodData) (tr tr0 tr1 : warren.Trace)
    (found : Option warren.FloatingIp) (ip : warren.FloatingIp)
    (hres : resources.FloatingIP.create.resolve c data tr = (.ok found, tr0))
    (hobt : resources.FloatingIP.create.obtain c data found rd tr0 = (.ok ip, rd1, tr1)) :
    resources.FloatingIP.create net c data rd tr =
      resources.FloatingIP.create.finish net c data ip rd1 tr1 := by
  unfold resources.FloatingIP.create
  simp only [hres, hobt]

/-- The calls of `Create` that create a floating IP are those of `create`. -/
theorem Create_createCalls (net : NetPkg) (c : warren.Client) (data : resources.FloatingIPModel)
    (tr : warren.Trace) :
    createFloatingIpCalls (resources.FloatingIP.Create net c data tr).2 =
      createFloatingIpCalls (resources.FloatingIP.create net c data ⟨0⟩ tr).2 := by
  cases h : (resources.FloatingIP.create net c data ⟨0⟩ tr).1.1 with
  | none => rw [(Create_eq net c data tr).1 h]
  | some e => rw [(Create_eq net c data tr).2 e h]; exact (cleanup_calls net c _ _).1

/-- The remainder of `FloatingIP.create` for a floating IP that is already
assigned to the configured target: it succeeds exactly when the floating IP's
name is empty or is the configured name. -/
theorem finish_reuse (net : NetPkg) (c : warren.Client) (data : resources.FloatingIPModel)
    (ip : warren.FloatingIp) (rd : resources.floatingIPCreateMethodData) (tr : warren.Trace)
    (hT : data.AssignedTo.ValueString ≠ []) (hat : ip.AssignedTo = data.AssignedTo.ValueString) :
    ((resources.FloatingIP.create.finish net c data ip rd tr).1.1 = none ↔
      (ip.Name = [] ∨ data.Name.ValueString = ip.Name)) := by
  have hne : ip.AssignedTo ≠ [] := by rw [hat]; exact hT
  unfold resources.FloatingIP.create.finish
  simp only []
  by_cases hname : ip.Name ≠ [] ∧ data.Name.ValueString ≠ ip.Name
  · rw [if_pos hname]
    constructor
    · intro h; cases h
    · intro h
      rcases h with h | h
      · exact absurd h hname.1
      · exact absurd h hname.2
  · rw [if_neg hname]
    have h2 : ¬ (ip.AssignedTo ≠ [] ∧ data.AssignedTo.ValueString ≠ ip.AssignedTo) :=
      fun h => h.2 hat.symm
    have h3 : ¬ (data.AssignedTo.ValueString ≠ [] ∧ ip.AssignedTo = []) := fun h => hne h.2
    rw [if_neg h2, if_neg h3]
    constructor
    · intro _
      by_cases hn : ip.Name = []
      · exact Or.inl hn
      · by_cases hd : data.Name.ValueString = ip.Name
        · exact Or.inr hd
        · exact absurd ⟨hn, hd⟩ hname
    · intro _
      rfl

/-- C8: `FloatingIP.create` with a non-empty `assigned_to` = T and a
successful list call. If the list has an enabled entry assigned to T, then no
`CreateFloatingIp` call is issued (by `create` and by the whole `Create`);
`create` succeeds exactly when the name of the first such entry in list order
is empty or is the configured name; and whenever it succeeds, in particular
in that case, the id written to the model and stored in state by `Create` is
the decimal id of that first entry. If no enabled entry is assigned to T,
exactly one `CreateFloatingIp` call is issued, with the configured name. -/
theorem floatingIP_create_reuses_or_creates (net : NetPkg) (c : warren.Client)
    (data : resources.FloatingIPModel) (tr : warren.Trace) (ips : List warren.FloatingIp)
    (hT : data.AssignedTo.ValueString ≠ []) (hlist : c.ListFloatingIps tr = .ok ips) :
    (∀ (pre post : List warren.FloatingIp) (ip : warren.FloatingIp),
      ips = pre ++ ip :: post →
      ip.Enabled = true → ip.AssignedTo = data.AssignedTo.ValueString →
      (∀ x ∈ pre, ¬ (x.Enabled = true ∧ x.AssignedTo = data.AssignedTo.ValueString)) →
      createFloatingIpCalls (resources.FloatingIP.create net c data ⟨0⟩ tr).2
        = createFloatingIpCalls tr ∧
      createFloatingIpCalls (resources.FloatingIP.Create net c data tr).2
        = createFloatingIpCalls tr ∧
      ((resources.FloatingIP.create net c data ⟨0⟩ tr).1.1 = none →
        (resources.FloatingIP.create net c data ⟨0⟩ tr).1.2.1.ID = .value (Itoa ip.Id) ∧
        ∃ m, (resources.FloatingIP.Create net c data tr).1 = ⟨[], .set m⟩ ∧
          m.ID = .value (Itoa ip.Id)) ∧
      ((resources.FloatingIP.create net c data ⟨0⟩ tr).1.1 = none ↔
        (ip.Name = [] ∨ data.Name.ValueString = ip.Name)) ∧
      ((ip.Name = [] ∨ data.Name.ValueString = ip.Name) →
        (resources.FloatingIP.create net c data ⟨0⟩ tr).1.1 = none ∧
        (resources.FloatingIP.create net c data ⟨0⟩ tr).1.2.1.ID = .value (Itoa ip.Id) ∧
        ∃ m, (resources.FloatingIP.Create net c data tr).1 = ⟨[], .set m⟩ ∧
          m.ID = .value (Itoa ip.Id))) ∧
    ((∀ x ∈ ips, ¬ (x.Enabled = true ∧ x.AssignedTo = data.AssignedTo.ValueString)) →
      createFloatingIpCalls (resources.FloatingIP.create net c data ⟨0⟩ tr).2
        = createFloatingIpCalls tr ++ [⟨some data.Name.ValueString, none⟩] ∧
      createFloatingIpCalls (resources.FloatingIP.Create net c data tr).2
        = createFloatingIpCalls tr ++ [⟨some data.Name.ValueString, none⟩]) := by
  have hres := resolve_of_list c data tr ips hT hlist
  refine ⟨?_, ?_⟩
  · intro pre post ip hips hen hat hpre
    have hfind : ips.find? (fun x => x.Enabled && decide (x.AssignedTo = data.AssignedTo.ValueString))
        = some ip := by
      rw [hips]
      apply find?_of_first
      · simp [hen, hat]
      · intro y hy
        have := hpre y hy
        by_cases hye : y.Enabled = true
        · simp [hye]; exact fun h => this ⟨hye, h⟩
        · simp [hye]
    rw [hfind] at hres
    have hcreate := create_of_obtained net c data ⟨0⟩ ⟨0⟩ tr _ _ _ ip hres rfl
    have hfin := finish_calls net c data ip ⟨0⟩ (tr ++ [.ListFloatingIps])
    have hcc : createFloatingIpCalls (resources.FloatingIP.create net c data ⟨0⟩ tr).2
        = createFloatingIpCalls tr := by
      rw [hcreate, hfin.2.1, createCalls_append]
      simp [createFloatingIpCalls]
    have hstore : (resources.FloatingIP.create net c data ⟨0⟩ tr).1.1 = none →
        (resources.FloatingIP.create net c data ⟨0⟩ tr).1.2.1.ID = .value (Itoa ip.Id) ∧
        ∃ m, (resources.FloatingIP.Create net c data tr).1 = ⟨[], .set m⟩ ∧
          m.ID = .value (Itoa ip.Id) := by
      intro hok
      have hid : (resources.FloatingIP.create net c data ⟨0⟩ tr).1.2.1.ID
          = .value (Itoa ip.Id) := by
        rw [hcreate] at hok ⊢
        exact finish_ID net c data ip ⟨0⟩ _ (by rw [hat]; exact hT) hok
      refine ⟨hid, _, ?_, hid⟩
      rw [(Create_eq net c data tr).1 hok]
    have hiff : (resources.FloatingIP.create net c data ⟨0⟩ tr).1.1 = none ↔
        (ip.Name = [] ∨ data.Name.ValueString = ip.Name) := by
      rw [hcreate]
      exact finish_reuse net c data ip ⟨0⟩ _ hT hat
    exact ⟨hcc, (Create_createCalls net c data tr).trans hcc, hstore, hiff,
      fun hname => ⟨hiff.mpr hname, hstore (hiff.mpr hname)⟩⟩
  · intro hnone
    have hfind : ips.find? (fun x => x.Enabled && decide (x.AssignedTo = data.AssignedTo.ValueString))
        = none := by
      rw [List.find?_eq_none]
      intro x hx
      simpa using hnone x hx
    rw [hfind] at hres
    have hcc : createFloatingIpCalls (resources.FloatingIP.create net c data ⟨0⟩ tr).2
        = createFloatingIpCalls tr ++ [⟨some data.Name.ValueString, none⟩] := by
      unfold resources.FloatingIP.create
      simp only [hres, resources.FloatingIP.create.obtain, warren.NetworkService.CreateFloatingIp]
      cases c.CreateFloatingIp (tr ++ [.ListFloatingIps]) ⟨some data.Name.ValueString, none⟩ with
      | error e =>
        simp only [createCalls_append]
        simp [createFloatingIpCalls]
      | ok ip =>
        simp only [(finish_calls net c data ip _ _).2.1, createCalls_append]
        simp [createFloatingIpCalls]
    exact ⟨hcc, (Create_createCalls net c data tr).trans hcc⟩

/-- C8 witness: on a platform that lists, in this order, a disabled floating
IP assigned to the test server (id 7), an enabled one assigned to another
server (id 8) and two enabled ones assigned to the test server (ids 42 and
43), the plan reuses the one with id 42: no create call is issued, `create`
succeeds and `Create` stores the id "42" without a diagnostic. On a platform
whose only floating IP assigned to the test server is disabled, one create
call with the configured name is issued. -/
theorem floatingIP_create_reuses_or_creates_witness :
    (createFloatingIpCalls
        (resources.FloatingIP.create fixtures.netIPv4 fixtures.reusePlatform
          fixtures.floatingIPPlan ⟨0⟩ []).2 = [] ∧
      createFloatingIpCalls
        (resources.FloatingIP.Create fixtures.netIPv4 fixtures.reusePlatform
          fixtures.floatingIPPlan []).2 = [] ∧
      (resources.FloatingIP.create fixtures.netIPv4 fixtures.reusePlatform
          fixtures.floatingIPPlan ⟨0⟩ []).1.1 = none ∧
      (resources.FloatingIP.create fixtures.netIPv4 fixtures.reusePlatform
          fixtures.floatingIPPlan ⟨0⟩ []).1.2.1.ID = .value (Itoa 42) ∧
      (∃ m, (resources.FloatingIP.Create fixtures.netIPv4 fixtures.reusePlatform
          fixtures.floatingIPPlan []).1 = ⟨[], .set m⟩ ∧ m.ID = .value (Itoa 42)) ∧
      Itoa 42 = lit "42") ∧
    (createFloatingIpCalls
        (resources.FloatingIP.create fixtures.netIPv4 fixtures.disabledOnlyPlatform
          fixtures.floatingIPPlan ⟨0⟩ []).2 = [⟨some (lit "test"), none⟩] ∧
      createFloatingIpCalls
        (resources.FloatingIP.Create fixtures.netIPv4 fixtures.disabledOnlyPlatform
          fixtures.floatingIPPlan []).2 = [⟨some (lit "test"), none⟩]) :=
  have reuse := (floatingIP_create_reuses_or_creates fixtures.netIPv4 fixtures.reusePlatform
      fixtures.floatingIPPlan []
      [{ fixtures.testFloatingIp (lit "test") fixtures.TestServerUUID with
          Id := 7, Enabled := false },
       { fixtures.testFloatingIp (lit "test") fixtures.SecondServerUUID with Id := 8 },
       fixtures.testFloatingIp (lit "test") fixtures.TestServerUUID,
       { fixtures.testFloatingIp (lit "test") fixtures.TestServerUUID with Id := 43 }]
      (by decide) (by decide)).1
      [{ fixtures.testFloatingIp (lit "test") fixtures.TestServerUUID with
          Id := 7, Enabled := false },
       { fixtures.testFloatingIp (lit "test") fixtures.SecondServerUUID with Id := 8 }]
      [{ fixtures.testFloatingIp (lit "test") fixtures.TestServerUUID with Id := 43 }]
      (fixtures.testFloatingIp (lit "test") fixtures.TestServerUUID)
      (by decide) (by decide) (by decide) (by decide)
  ⟨⟨reuse.1, reuse.2.1, (reuse.2.2.2.2 (by decide)).1, (reuse.2.2.2.2 (by decide)).2.1,
      (reuse.2.2.2.2 (by decide)).2.2, by decide⟩,
   (floatingIP_create_reuses_or_creates fixtures.netIPv4 fixtures.disabledOnlyPlatform
      fixtures.floatingIPPlan []
      [{ fixtures.testFloatingIp (lit "test") fixtures.TestServerUUID with Enabled := false },
       { fixtures.testFloatingIp (lit "test") fixtures.SecondServerUUID with Id := 8 }]
      (by decide) (by decide)).2 (by decide)⟩


/-- Go `FloatingIP.create` never issues a delete call. -/
theorem create_no_delete (net : NetPkg) (c : warren.Client)
    (data : resources.FloatingIPModel) (rd : resources.floatingIPCreateMethodData)
    (tr : warren.Trace) :
    deleteFloatingIpCalls (resources.FloatingIP.create net c data rd tr).2
      = deleteFloatingIpCalls tr := by
  have hres : deleteFloatingIpCalls (resources.FloatingIP.create.resolve c data tr).2
      = deleteFloatingIpCalls tr := by
    rcases resolve_trace c data tr with h | h
    · rw [h]
    · rw [h, deleteCalls_append]; simp [deleteFloatingIpCalls]
  unfold resources.FloatingIP.create
  revert hres
  generalize resources.FloatingIP.create.resolve c data tr = r
  intro hres
  obtain ⟨res, tr1⟩ := r
  simp only at hres
  cases res with
  | error e => exact hres
  | ok found =>
    cases found with
    | some ip =>
      simp only [resources.FloatingIP.create.obtain]
      rw [(finish_calls net c data ip rd tr1).2.2, hres]
    | none =>
      simp only [resources.FloatingIP.create.obtain, warren.NetworkService.CreateFloatingIp]
      cases c.CreateFloatingIp tr1 ⟨some data.Name.ValueString, none⟩ with
      | error e =>
        simp only [deleteCalls_append, hres]
        simp [deleteFloatingIpCalls]
      | ok ip =>
        simp only [(finish_calls net c data ip _ _).2.2, deleteCalls_append, hres]
        simp [deleteFloatingIpCalls]

/-- The scratch id after `create`: it is the id of the floating IP created in
this call, and stays as it was when an existing one was found or the create
call failed. -/
theorem create_scratch (net : NetPkg) (c : warren.Client)
    (data : resources.FloatingIPModel) (rd : resources.floatingIPCreateMethodData)
    (tr tr1 : warren.Trace) :
    (∀ ip, resources.FloatingIP.create.resolve c data tr = (.ok (some ip), tr1) →
      (resources.FloatingIP.create net c data rd tr).1.2.2 = rd) ∧
    (∀ e, resources.FloatingIP.create.resolve c data tr = (.ok none, tr1) →
      c.CreateFloatingIp tr1 ⟨some data.Name.ValueString, none⟩ = .error e →
      (resources.FloatingIP.create net c data rd tr).1.2.2 = rd) ∧
    (∀ ip, resources.FloatingIP.create.resolve c data tr = (.ok none, tr1) →
      c.CreateFloatingIp tr1 ⟨some data.Name.ValueString, none⟩ = .ok ip →
      (resources.FloatingIP.create net c data rd tr).1.2.2 = ⟨ip.Id⟩) := by
  refine ⟨fun ip hres => ?_, fun e hres hc => ?_, fun ip hres hc => ?_⟩
  · rw [create_of_obtained net c data rd rd tr tr1 tr1 (some ip) ip hres rfl]
    exact (finish_calls net c data ip rd tr1).1
  · unfold resources.FloatingIP.create
    simp only [hres, resources.FloatingIP.create.obtain, warren.NetworkService.CreateFloatingIp, hc]
  · have hobt : resources.FloatingIP.create.obtain c data none rd tr1 =
        (.ok ip, ⟨ip.Id⟩, tr1 ++ [.CreateFloatingIp ⟨some data.Name.ValueString, none⟩]) := by
      simp only [resources.FloatingIP.create.obtain, warren.NetworkService.CreateFloatingIp, hc]
    rw [create_of_obtained net c data rd _ tr tr1 _ none ip hres hobt]
    exact (finish_calls net c data ip _ _).1

/-- The delete calls of the cleanup for a non-zero scratch id, by the outcome
of its lookup. -/
theorem cleanup_deletes (net : NetPkg) (c : warren.Client) (id : Int) (tr : warren.Trace)
    (hid : id ≠ 0) :
    (∀ e, c.ListFloatingIps tr = .error e →
      deleteFloatingIpCalls (resources.FloatingIP.createOnErrorCleanup net c ⟨id⟩ tr)
        = deleteFloatingIpCalls tr) ∧
    (∀ ips, c.ListFloatingIps tr = .ok ips →
      ips.find? (fun x => x.Enabled && decide (x.Id = id)) = none →
      deleteFloatingIpCalls (resources.FloatingIP.createOnErrorCleanup net c ⟨id⟩ tr)
        = deleteFloatingIpCalls tr) ∧
    (∀ ips x, c.ListFloatingIps tr = .ok ips →
      ips.find? (fun x => x.Enabled && decide (x.Id = id)) = some x →
      deleteFloatingIpCalls (resources.FloatingIP.createOnErrorCleanup net c ⟨id⟩ tr)
        = deleteFloatingIpCalls tr ++ [net.ParseIP x.Address]) := by
  unfold resources.FloatingIP.createOnErrorCleanup apis.GetFloatingIPByID
    warren.NetworkService.ListFloatingIps warren.NetworkService.DeleteFloatingIp
  simp only [ne_eq, hid, not_false_eq_true, if_true]
  refine ⟨fun e hl => ?_, fun ips hl hf => ?_, fun ips x hl hf => ?_⟩
  · simp only [hl, deleteCalls_append]
    simp [deleteFloatingIpCalls]
  · simp only [hl, hf, deleteCalls_append]
    simp [deleteFloatingIpCalls]
  · simp only [hl, hf, deleteCalls_append]
    simp [deleteFloatingIpCalls]

/-- C7 (counterexample): nothing is found for the target, `CreateFloatingIp`
succeeds in this call, the following `AssignFloatingIp` fails, and yet no
`DeleteFloatingIp` is issued, because the list call of the cleanup fails. -/
theorem floatingIP_create_outage_leaves_orphan :
    resources.FloatingIP.create.resolve fixtures.outagePlatform fixtures.floatingIPPlan []
      = (.ok none, [.ListFloatingIps]) ∧
    fixtures.outagePlatform.CreateFloatingIp [.ListFloatingIps] ⟨some (lit "test"), none⟩
      = .ok (fixtures.testFloatingIp (lit "test") []) ∧
    (resources.FloatingIP.create fixtures.netIPv4 fixtures.outagePlatform
        fixtures.floatingIPPlan ⟨0⟩ []).1.1 ≠ none ∧
    (resources.FloatingIP.Create fixtures.netIPv4 fixtures.outagePlatform
        fixtures.floatingIPPlan []).2 =
      [.ListFloatingIps, .CreateFloatingIp ⟨some (lit "test"), none⟩,
       .AssignFloatingIp (fixtures.ParseIP fixtures.TestFloatingIP) fixtures.TestServerUUID,
       .ListFloatingIps] ∧
    deleteFloatingIpCalls (resources.FloatingIP.Create fixtures.netIPv4 fixtures.outagePlatform
        fixtures.floatingIPPlan []).2 = [] := by
  decide

/-- C7 (amended): which `DeleteFloatingIp` calls `FloatingIP.Create` issues.
None when `create` succeeds, when an existing floating IP was found, or when
nothing was found and `CreateFloatingIp` failed. When nothing was found,
`CreateFloatingIp` returned a floating IP and a later step of `create` fails,
the cleanup looks the created id up in a fresh list response: for id 0, a
failed list call, or a list without an enabled entry of that id, no delete is
issued; otherwise exactly one delete is issued, for the address of the first
enabled entry with that id. -/
theorem floatingIP_create_cleanup_deletes (net : NetPkg) (c : warren.Client)
    (data : resources.FloatingIPModel) (tr : warren.Trace) :
    ((resources.FloatingIP.create net c data ⟨0⟩ tr).1.1 = none →
      deleteFloatingIpCalls (resources.FloatingIP.Create net c data tr).2
        = deleteFloatingIpCalls tr) ∧
    (∀ (tr1 : warren.Trace) (ip : warren.FloatingIp),
      resources.FloatingIP.create.resolve c data tr = (.ok (some ip), tr1) →
      deleteFloatingIpCalls (resources.FloatingIP.Create net c data tr).2
        = deleteFloatingIpCalls tr) ∧
    (∀ (tr1 : warren.Trace) (e : GoError),
      resources.FloatingIP.create.resolve c data tr = (.ok none, tr1) →
      c.CreateFloatingIp tr1 ⟨some data.Name.ValueString, none⟩ = .error e →
      deleteFloatingIpCalls (resources.FloatingIP.Create net c data tr).2
        = deleteFloatingIpCalls tr) ∧
    (∀ (tr1 : warren.Trace) (ip : warren.FloatingIp),
      resources.FloatingIP.create.resolve c data tr = (.ok none, tr1) →
      c.CreateFloatingIp tr1 ⟨some data.Name.ValueString, none⟩ = .ok ip →
      (resources.FloatingIP.create net c data ⟨0⟩ tr).1.1 ≠ none →
      (ip.Id = 0 →
        deleteFloatingIpCalls (resources.FloatingIP.Create net c data tr).2
          = deleteFloatingIpCalls tr) ∧
      (∀ e, ip.Id ≠ 0 →
        c.ListFloatingIps (resources.FloatingIP.create net c data ⟨0⟩ tr).2 = .error e →
        deleteFloatingIpCalls (resources.FloatingIP.Create net c data tr).2
          = deleteFloatingIpCalls tr) ∧
      (∀ ips, ip.Id ≠ 0 →
        c.ListFloatingIps (resources.FloatingIP.create net c data ⟨0⟩ tr).2 = .ok ips →
        ips.find? (fun x => x.Enabled && decide (x.Id = ip.Id)) = none →
        deleteFloatingIpCalls (resources.FloatingIP.Create net c data tr).2
          = deleteFloatingIpCalls tr) ∧
      (∀ ips x, ip.Id ≠ 0 →
        c.ListFloatingIps (resources.FloatingIP.create net c data ⟨0⟩ tr).2 = .ok ips →
        ips.find? (fun x => x.Enabled && decide (x.Id = ip.Id)) = some x →
        deleteFloatingIpCalls (resources.FloatingIP.Create net c data tr).2
          = deleteFloatingIpCalls tr ++ [net.ParseIP x.Address])) := by
  have hnd := create_no_delete net c data ⟨0⟩ tr
  have hzero : (resources.FloatingIP.create net c data ⟨0⟩ tr).1.2.2 = ⟨0⟩ →
      deleteFloatingIpCalls (resources.FloatingIP.Create net c data tr).2
        = deleteFloatingIpCalls tr := by
    intro hrd
    cases h : (resources.FloatingIP.create net c data ⟨0⟩ tr).1.1 with
    | none => rw [(Create_eq net c data tr).1 h]; exact hnd
    | some e =>
      rw [(Create_eq net c data tr).2 e h, hrd]
      simp only [(cleanup_calls net c ⟨0⟩ _).2.2 rfl]
      exact hnd
  refine ⟨fun hok => ?_, fun tr1 ip hres => ?_, fun tr1 e hres hc => ?_,
    fun tr1 ip hres hc hfail => ?_⟩
  · rw [(Create_eq net c data tr).1 hok]; exact hnd
  · exact hzero ((create_scratch net c data ⟨0⟩ tr tr1).1 ip hres)
  · exact hzero ((create_scratch net c data ⟨0⟩ tr tr1).2.1 e hres hc)
  · have hrd := (create_scratch net c data ⟨0⟩ tr tr1).2.2 ip hres hc
    obtain ⟨e, he⟩ := Option.ne_none_iff_exists'.mp hfail
    have hC := (Create_eq net c data tr).2 e he
    rw [hrd] at hC
    refine ⟨fun h0 => ?_, fun e1 h0 hl => ?_, fun ips h0 hl hf => ?_, fun ips x h0 hl hf => ?_⟩
    · exact hzero (by rw [hrd, h0])
    · rw [hC]
      simp only [(cleanup_deletes net c ip.Id _ h0).1 e1 hl]
      exact hnd
    · rw [hC]
      simp only [(cleanup_deletes net c ip.Id _ h0).2.1 ips hl hf]
      exact hnd
    · rw [hC]
      simp only [(cleanup_deletes net c ip.Id _ h0).2.2 ips x hl hf]
      rw [hnd]

/-- C7 witness: on the test platform, which lists nothing at first, a plan
named "web" makes the create call return a floating IP named "test"; the name
check fails, the cleanup finds the created floating IP in the list and deletes
its address. -/
theorem floatingIP_create_cleanup_deletes_witness :
    deleteFloatingIpCalls
        (resources.FloatingIP.Create fixtures.netIPv4 (fixtures.floatingIPPlatform false)
          { fixtures.floatingIPPlan with Name := .value (lit "web") } []).2 =
      deleteFloatingIpCalls [] ++
        [fixtures.netIPv4.ParseIP
          (fixtures.testFloatingIp (lit "test") fixtures.TestServerUUID).Address] :=
  ((floatingIP_create_cleanup_deletes fixtures.netIPv4 (fixtures.floatingIPPlatform false)
      { fixtures.floatingIPPlan with Name := .value (lit "web") } []).2.2.2
      [.ListFloatingIps] (fixtures.testFloatingIp (lit "test") fixtures.TestServerUUID)
      (by decide) (by decide) (by decide)).2.2.2
      [fixtures.testFloatingIp (lit "test") fixtures.TestServerUUID]
      (fixtures.testFloatingIp (lit "test") fixtures.TestServerUUID)
      (by decide) (by decide) (by decide)

/-- The second block of `FloatingIP.create` issues at most the create call. -/
theorem obtain_trace (c : warren.Client) (data : resources.FloatingIPModel)
    (found : Option warren.FloatingIp) (rd : resources.floatingIPCreateMethodData)
    (tr : warren.Trace) :
    (resources.FloatingIP.create.obtain c data found rd tr).2.2 = tr ∨
    (resources.FloatingIP.create.obtain c data found rd tr).2.2 =
      tr ++ [.CreateFloatingIp ⟨some data.Name.ValueString, none⟩] := by
  unfold resources.FloatingIP.create.obtain warren.NetworkService.CreateFloatingIp
  cases found with
  | some ip => exact Or.inl rfl
  | none =>
    right
    cases c.CreateFloatingIp tr ⟨some data.Name.ValueString, none⟩ <;> rfl

/-- C9 (counterexample): nothing is found for the target, the created floating
IP is unassigned, so its assignment target differs from the desired one; yet
`create` does not fail and issues an `AssignFloatingIp` call. -/
theorem floatingIP_create_unassigned_is_assigned :
    resources.FloatingIP.create.obtain fixtures.freshPlatform fixtures.floatingIPPlan none ⟨0⟩
        [.ListFloatingIps] =
      (.ok (fixtures.testFloatingIp (lit "test") []), ⟨42⟩,
        [.ListFloatingIps, .CreateFloatingIp ⟨some (lit "test"), none⟩]) ∧
    (fixtures.testFloatingIp (lit "test") []).AssignedTo
      ≠ fixtures.floatingIPPlan.AssignedTo.ValueString ∧
    (resources.FloatingIP.create fixtures.netIPv4 fixtures.freshPlatform
        fixtures.floatingIPPlan ⟨0⟩ []).1.1 = none ∧
    assignFloatingIpCalls (resources.FloatingIP.create fixtures.netIPv4 fixtures.freshPlatform
        fixtures.floatingIPPlan ⟨0⟩ []).2 =
      [(fixtures.ParseIP fixtures.TestFloatingIP, fixtures.TestServerUUID)] := by
  decide

/-- C9 (amended): let `ip` be the floating IP that `create` found or created.
If its name is non-empty and differs from the desired name, or its assignment
target is non-empty and differs from the desired `assigned_to`, then `create`
returns an error whose text starts with "Floating IP configuration mismatch",
`Create` reports it and stores no state, and neither issues an
`AssignFloatingIp` call. -/
theorem floatingIP_create_mismatch_fails (net : NetPkg) (c : warren.Client)
    (data : resources.FloatingIPModel) (tr tr0 tr1 : warren.Trace)
    (found : Option warren.FloatingIp) (ip : warren.FloatingIp)
    (rd1 : resources.floatingIPCreateMethodData)
    (hres : resources.FloatingIP.create.resolve c data tr = (.ok found, tr0))
    (hobt : resources.FloatingIP.create.obtain c data found ⟨0⟩ tr0 = (.ok ip, rd1, tr1))
    (hmis : (ip.Name ≠ [] ∧ data.Name.ValueString ≠ ip.Name) ∨
      (ip.AssignedTo ≠ [] ∧ data.AssignedTo.ValueString ≠ ip.AssignedTo)) :
    ∃ e, (resources.FloatingIP.create net c data ⟨0⟩ tr).1.1 = some e ∧
      HasPrefix e.Error (lit "Floating IP configuration mismatch") = true ∧
      assignFloatingIpCalls (resources.FloatingIP.create net c data ⟨0⟩ tr).2
        = assignFloatingIpCalls tr ∧
      (resources.FloatingIP.Create net c data tr).1 =
        ⟨[⟨lit "Floating IP create error", e.Error⟩], .unchanged⟩ ∧
      assignFloatingIpCalls (resources.FloatingIP.Create net c data tr).2
        = assignFloatingIpCalls tr := by
  have k1 : lit "Floating IP configuration mismatch between existing instance name and given one: "
      = lit "Floating IP configuration mismatch"
        ++ lit " between existing instance name and given one: " := by decide
  have k2 : lit "Floating IP configuration mismatch between existing instance attached resource type: "
      = lit "Floating IP configuration mismatch"
        ++ lit " between existing instance attached resource type: " := by decide
  have k3 : lit "Floating IP configuration mismatch between existing instance attached server UUID and given one: "
      = lit "Floating IP configuration mismatch"
        ++ lit " between existing instance attached server UUID and given one: " := by decide
  have htr1 : assignFloatingIpCalls tr1 = assignFloatingIpCalls tr := by
    have h0 : assignFloatingIpCalls tr0 = assignFloatingIpCalls tr := by
      have := resolve_trace c data tr
      rw [hres] at this
      rcases this with h | h
      · simp only at h; rw [h]
      · simp only at h; rw [h, assignCalls_append]; simp [assignFloatingIpCalls]
    have := obtain_trace c data found ⟨0⟩ tr0
    rw [hobt] at this
    rcases this with h | h
    · simp only at h; rw [h, h0]
    · simp only at h; rw [h, assignCalls_append, h0]; simp [assignFloatingIpCalls]
  have hcreate := create_of_obtained net c data ⟨0⟩ rd1 tr tr0 tr1 found ip hres hobt
  have hfin : ∃ e, resources.FloatingIP.create.finish net c data ip rd1 tr1
        = ((some e, data, rd1), tr1) ∧
      HasPrefix e.Error (lit "Floating IP configuration mismatch") = true := by
    unfold resources.FloatingIP.create.finish
    by_cases hn : ip.Name ≠ [] ∧ data.Name.ValueString ≠ ip.Name
    · rw [if_pos hn]
      exact ⟨_, rfl, by simp [GoError.Error, k1, HasPrefix]⟩
    · have ha : ip.AssignedTo ≠ [] ∧ data.AssignedTo.ValueString ≠ ip.AssignedTo := by
        rcases hmis with h | h
        · exact absurd h hn
        · exact h
      rw [if_neg hn, if_pos ha]
      by_cases ht : ip.AssignedToResourceType ≠ resources.NetworkAssignedToResourceVM
      · rw [if_pos ht]
        exact ⟨_, rfl, by simp [GoError.Error, k2, HasPrefix]⟩
      · rw [if_neg ht]
        exact ⟨_, rfl, by simp [GoError.Error, k3, HasPrefix]⟩
  obtain ⟨e, hf, hpre⟩ := hfin
  rw [hf] at hcreate
  have herr : (resources.FloatingIP.create net c data ⟨0⟩ tr).1.1 = some e := by rw [hcreate]
  refine ⟨e, herr, hpre, by rw [hcreate]; exact htr1, ?_, ?_⟩
  · rw [(Create_eq net c data tr).2 e herr]
  · rw [(Create_eq net c data tr).2 e herr, (cleanup_calls net c _ _).2.1, hcreate]
    exact htr1

/-- C9 witness: on the test platform a plan named "web" meets the created
floating IP named "test"; `create` fails with the name mismatch and no assign
call is issued. -/
theorem floatingIP_create_mismatch_fails_witness :
    ∃ e, (resources.FloatingIP.create fixtures.netIPv4 (fixtures.floatingIPPlatform false)
        { fixtures.floatingIPPlan with Name := .value (lit "web") } ⟨0⟩ []).1.1 = some e ∧
      HasPrefix e.Error (lit "Floating IP configuration mismatch") = true ∧
      assignFloatingIpCalls (resources.FloatingIP.create fixtures.netIPv4
        (fixtures.floatingIPPlatform false)
        { fixtures.floatingIPPlan with Name := .value (lit "web") } ⟨0⟩ []).2
        = assignFloatingIpCalls [] ∧
      (resources.FloatingIP.Create fixtures.netIPv4 (fixtures.floatingIPPlatform false)
        { fixtures.floatingIPPlan with Name := .value (lit "web") } []).1 =
        ⟨[⟨lit "Floating IP create error", e.Error⟩], .unchanged⟩ ∧
      assignFloatingIpCalls (resources.FloatingIP.Create fixtures.netIPv4
        (fixtures.floatingIPPlatform false)
        { fixtures.floatingIPPlan with Name := .value (lit "web") } []).2
        = assignFloatingIpCalls [] :=
  floatingIP_create_mismatch_fails fixtures.netIPv4 (fixtures.floatingIPPlatform false)
    { fixtures.floatingIPPlan with Name := .value (lit "web") } [] [.ListFloatingIps]
    [.ListFloatingIps, .CreateFloatingIp ⟨some (lit "web"), none⟩] none
    (fixtures.testFloatingIp (lit "test") fixtures.TestServerUUID) ⟨42⟩
    (by decide) (by decide) (Or.inl (by decide))

/-- The inner loop of `GetNetworkFromServerUUID` for a network whose subnet
parses: it reports the network exactly when the membership condition holds. -/
theorem scanVmUuids_eq (net : NetPkg) (uuid : GoString) (ip : IP) (n : warren.Network)
    (a : IP) (subnet : IPNet) (hp : net.ParseCIDR n.Subnet = .ok (a, subnet))
    (l : List GoString) :
    apis.GetNetworkFromServerUUID.scanVmUuids net uuid ip n l =
      if uuid ∈ l ∧ net.Contains subnet ip = true then .found else .next := by
  induction l with
  | nil => simp [apis.GetNetworkFromServerUUID.scanVmUuids]
  | cons x xs ih =>
    unfold apis.GetNetworkFromServerUUID.scanVmUuids
    by_cases hx : x = uuid
    · subst hx
      simp only [if_true, hp, List.mem_cons, true_or, true_and]
      by_cases hc : net.Contains subnet ip = true
      · simp [hc]
      · simp only [hc, if_false, ih, and_false]
        simp
    · have hx2 : ¬ uuid = x := fun h => hx h.symm
      simp only [hx, if_false, ih, List.mem_cons, hx2, false_or]

theorem scanVmUuids_holds (net : NetPkg) (uuid : GoString) (ip : IP) (n : warren.Network)
    (hv : ∃ r, net.ParseCIDR n.Subnet = .ok r) :
    apis.GetNetworkFromServerUUID.scanVmUuids net uuid ip n n.VmUuids =
      if networkHolds net uuid ip n = true then .found else .next := by
  obtain ⟨⟨a, subnet⟩, hp⟩ := hv
  rw [scanVmUuids_eq net uuid ip n a subnet hp]
  simp [networkHolds, hp]

/-- The outer loop returns the first network for which the condition holds. -/
theorem scanNetworks_first (net : NetPkg) (uuid : GoString) (ip : IP)
    (pre post : List warren.Network) (n : warren.Network)
    (hvalid : ∀ m ∈ pre ++ n :: post, ∃ r, net.ParseCIDR m.Subnet = .ok r)
    (hn : networkHolds net uuid ip n = true)
    (hpre : ∀ m ∈ pre, networkHolds net uuid ip m = false) :
    apis.GetNetworkFromServerUUID.scanNetworks net uuid ip (pre ++ n :: post) = .ok n := by
  induction pre with
  | nil =>
    simp only [List.nil_append, apis.GetNetworkFromServerUUID.scanNetworks]
    rw [scanVmUuids_holds net uuid ip n (hvalid n (by simp))]
    simp [hn]
  | cons m ms ih =>
    simp only [List.cons_append, apis.GetNetworkFromServerUUID.scanNetworks]
    rw [scanVmUuids_holds net uuid ip m (hvalid m (by simp))]
    simp only [hpre m (by simp), Bool.false_eq_true, if_false]
    exact ih (fun k hk => hvalid k (by simp at hk ⊢; exact Or.inr hk))
      (fun k hk => hpre k (by simp [hk]))

/-- The outer loop ends with `ErrNetworkNotFound` when the condition holds for
no network. -/
theorem scanNetworks_none (net : NetPkg) (uuid : GoString) (ip : IP)
    (networks : List warren.Network)
    (hvalid : ∀ m ∈ networks, ∃ r, net.ParseCIDR m.Subnet = .ok r)
    (hnone : ∀ m ∈ networks, networkHolds net uuid ip m = false) :
    apis.GetNetworkFromServerUUID.scanNetworks net uuid ip networks =
      .error (.wrap (apis.ErrNetworkNotFound.Error ++ lit ": Server UUID " ++ uuid)
        apis.ErrNetworkNotFound) := by
  induction networks with
  | nil => rfl
  | cons m ms ih =>
    simp only [apis.GetNetworkFromServerUUID.scanNetworks]
    rw [scanVmUuids_holds net uuid ip m (hvalid m (by simp))]
    simp only [hnone m (by simp), Bool.false_eq_true, if_false]
    exact ih (fun k hk => hvalid k (by simp [hk])) (fun k hk => hnone k (by simp [hk]))

/-- C10: `GetNetworkFromServerUUID(uuid)`, when the server fetch and the
network list succeed and every listed subnet parses as CIDR, returns the first
network in list order that lists `uuid` among its VM UUIDs and whose subnet
contains the server's private IPv4 address; when no listed network satisfies
both conditions (in particular when the server has no private IPv4 address)
it returns an error wrapping `ErrNetworkNotFound`. -/
theorem getNetworkFromServerUUID_first_match (net : NetPkg) (c : warren.Client)
    (uuid : GoString) (tr : warren.Trace) (server : warren.VirtualMachine)
    (networks : List warren.Network)
    (hget : c.GetByUuid tr uuid = .ok server)
    (hlist : c.ListNetworks (tr ++ [.GetByUuid uuid]) = .ok networks)
    (hvalid : ∀ n ∈ networks, ∃ r, net.ParseCIDR n.Subnet = .ok r) :
    (∀ (pre post : List warren.Network) (n : warren.Network),
      networks = pre ++ n :: post →
      networkHolds net uuid
        (if server.PrivateIPv4 ≠ [] then net.ParseIP server.PrivateIPv4 else []) n = true →
      (∀ m ∈ pre, networkHolds net uuid
        (if server.PrivateIPv4 ≠ [] then net.ParseIP server.PrivateIPv4 else []) m = false) →
      (apis.GetNetworkFromServerUUID net c uuid tr).1 = .ok n) ∧
    ((∀ n ∈ networks, networkHolds net uuid
        (if server.PrivateIPv4 ≠ [] then net.ParseIP server.PrivateIPv4 else []) n = false) →
      ∃ e, (apis.GetNetworkFromServerUUID net c uuid tr).1 = .error e ∧
        errorsIs e apis.ErrNetworkNotFound = true) ∧
    (server.PrivateIPv4 = [] →
      ∃ e, (apis.GetNetworkFromServerUUID net c uuid tr).1 = .error e ∧
        errorsIs e apis.ErrNetworkNotFound = true) := by
  have hrun : (apis.GetNetworkFromServerUUID net c uuid tr).1 =
      apis.GetNetworkFromServerUUID.scanNetworks net uuid
        (if server.PrivateIPv4 ≠ [] then net.ParseIP server.PrivateIPv4 else []) networks := by
    simp only [apis.GetNetworkFromServerUUID, warren.VirtualMachineService.GetByUuid, hget,
      warren.NetworkService.ListNetworks, hlist]
  have hnf : ∀ ip, (∀ n ∈ networks, networkHolds net uuid ip n = false) →
      ∃ e, apis.GetNetworkFromServerUUID.scanNetworks net uuid ip networks = .error e ∧
        errorsIs e apis.ErrNetworkNotFound = true := by
    intro ip hnone
    exact ⟨_, scanNetworks_none net uuid ip networks hvalid hnone,
      by simp [errorsIs, apis.ErrNetworkNotFound]⟩
  refine ⟨fun pre post n hn hholds hpre => ?_, fun hnone => ?_, fun hempty => ?_⟩
  · rw [hrun, hn]
    exact scanNetworks_first net uuid _ pre post n (by rw [← hn]; exact hvalid) hholds hpre
  · rw [hrun]
    exact hnf _ hnone
  · rw [hrun]
    apply hnf
    intro n hn
    obtain ⟨⟨a, subnet⟩, hp⟩ := hvalid n hn
    simp [networkHolds, hp, hempty, net.contains_nil n.Subnet a subnet hp]

/-- C10 witness: the server with private address 10.42.0.1 and the network
10.42.0.0/24 that lists it: the network is returned; with the address
10.43.0.1, outside the subnet, the result wraps `ErrNetworkNotFound`. -/
theorem getNetworkFromServerUUID_first_match_witness :
    (apis.GetNetworkFromServerUUID fixtures.netIPv4 (fixtures.floatingIPPlatform true)
        fixtures.TestServerUUID []).1 = .ok fixtures.testNetwork ∧
    ∃ e, (apis.GetNetworkFromServerUUID fixtures.netIPv4 fixtures.outsideSubnetPlatform
        fixtures.TestServerUUID []).1 = .error e ∧
      errorsIs e apis.ErrNetworkNotFound = true :=
  ⟨(getNetworkFromServerUUID_first_match fixtures.netIPv4 (fixtures.floatingIPPlatform true)
      fixtures.TestServerUUID [] (fixtures.testServer (lit "10.42.0.1")) [fixtures.testNetwork]
      (by decide) (by decide)
      (fun n hn => ⟨([0, 0, 0, 0, 0, 0, 0, 0, 0, 0, 255, 255, 10, 42, 0, 0],
          ⟨[10, 42, 0, 0], [255, 255, 255, 0]⟩), by
        rw [List.mem_singleton.mp hn]; decide⟩)).1
      [] [] fixtures.testNetwork rfl (by decide) (by decide),
   (getNetworkFromServerUUID_first_match fixtures.netIPv4 fixtures.outsideSubnetPlatform
      fixtures.TestServerUUID [] (fixtures.testServer (lit "10.43.0.1")) [fixtures.testNetwork]
      (by decide) (by decide)
      (fun n hn => ⟨([0, 0, 0, 0, 0, 0, 0, 0, 0, 0, 255, 255, 10, 42, 0, 0],
          ⟨[10, 42, 0, 0], [255, 255, 255, 0]⟩), by
        rw [List.mem_singleton.mp hn]; decide⟩)).2.1 (by decide)⟩

/-- C11 (counterexample): the texts "[502] bad gateway" and "[503] unavailable"
pass the guard with a 5xx code, and the generic classifier and the resource
classifiers return them unchanged; the result does not wrap
`ErrUnknownInternal`. -/
theorem classifiers_pass_502_503 :
    hasStatusCode (.plain (lit "[502] bad gateway")) (lit "502") ∧
    apis.GetErrorFromHttpCallError (some (.plain (lit "[502] bad gateway")))
      = some (.plain (lit "[502] bad gateway")) ∧
    apis.GetServerErrorFromHttpCallError (some (.plain (lit "[502] bad gateway")))
      = some (.plain (lit "[502] bad gateway")) ∧
    apis.GetVolumeErrorFromHttpCallError (some (.plain (lit "[503] unavailable")))
      = some (.plain (lit "[503] unavailable")) ∧
    errorsIs (.plain (lit "[502] bad gateway")) apis.ErrUnknownInternal = false ∧
    errorsIs (.plain (lit "[503] unavailable")) apis.ErrUnknownInternal = false := by
  decide

/-- The generic classifier on an error that passes the guard with code 500. -/
theorem generic_500 (e : GoError) (h : hasStatusCode e (lit "500")) :
    apis.GetErrorFromHttpCallError.nonNil e =
      .wrap2 (apis.ErrUnknownInternal.Error ++ lit ": " ++ e.Error) apis.ErrUnknownInternal e := by
  obtain ⟨h0, h4, hc⟩ := h
  simp only [apis.GetErrorFromHttpCallError.nonNil, h0, h4, hc, lit_500_ne_400, Bool.and_self,
    beq_self_eq_true, if_true, if_false]

/-- C11 (amended): for an error whose text passes the guard, the generic
classifier and the five resource classifiers that delegate to it return an
error wrapping `ErrUnknownInternal` (and the original error) when the code is
exactly 500; for every other code whose first digit is 5 (501 to 599) all six
return the error unchanged. -/
theorem classifiers_internal_only_500 (e : GoError)
    (h0 : HasPrefix e.Error (lit "[") = true) (h4 : Index e.Error (lit "]") = 4) :
    (slice e.Error 1 4 = lit "500" →
      ∃ r, errorsIs r apis.ErrUnknownInternal = true ∧ errorsIs r e = true ∧
        apis.GetErrorFromHttpCallError (some e) = some r ∧
        apis.GetServerErrorFromHttpCallError (some e) = some r ∧
        apis.GetVolumeErrorFromHttpCallError (some e) = some r ∧
        apis.GetNetworkErrorFromHttpCallError (some e) = some r ∧
        apis.GetFloatingIPErrorFromHttpCallError (some e) = some r ∧
        apis.GetLocationErrorFromHttpCallError (some e) = .ok (some r)) ∧
    (∀ d2 d3 : Nat, slice e.Error 1 4 = [53, d2, d3] → [53, d2, d3] ≠ lit "500" →
      apis.GetErrorFromHttpCallError (some e) = some e ∧
      apis.GetServerErrorFromHttpCallError (some e) = some e ∧
      apis.GetVolumeErrorFromHttpCallError (some e) = some e ∧
      apis.GetNetworkErrorFromHttpCallError (some e) = some e ∧
      apis.GetFloatingIPErrorFromHttpCallError (some e) = some e ∧
      apis.GetLocationErrorFromHttpCallError (some e) = .ok (some e)) := by
  refine ⟨fun hc => ?_, fun d2 d3 hc hne => ?_⟩
  · have hg := generic_500 e ⟨h0, h4, hc⟩
    refine ⟨.wrap2 (apis.ErrUnknownInternal.Error ++ lit ": " ++ e.Error)
      apis.ErrUnknownInternal e, ?_, ?_, ?_, ?_, ?_, ?_, ?_, ?_⟩
    · simp [errorsIs, apis.ErrUnknownInternal]
    · have hself : errorsIs e e = true := by cases e <;> simp [errorsIs]
      simp [errorsIs, hself]
    · simp only [apis.GetErrorFromHttpCallError, hg]
    · simp only [apis.GetServerErrorFromHttpCallError, apis.GetServerErrorFromHttpCallError.nonNil,
        h0, h4, hc, hg, lit_500_ne_400, lit_500_ne_404, lit_500_ne_409, Bool.and_self,
        beq_self_eq_true, if_true, if_false]
    · simp only [apis.GetVolumeErrorFromHttpCallError, apis.GetVolumeErrorFromHttpCallError.nonNil,
        h0, h4, hc, hg, lit_500_ne_404, Bool.and_self, beq_self_eq_true, if_true, if_false]
    · simp only [apis.GetNetworkErrorFromHttpCallError, apis.GetNetworkErrorFromHttpCallError.nonNil,
        h0, h4, hc, hg, lit_500_ne_404, Bool.and_self, beq_self_eq_true, if_true, if_false]
    · simp only [apis.GetFloatingIPErrorFromHttpCallError,
        apis.GetFloatingIPErrorFromHttpCallError.nonNil,
        h0, h4, hc, hg, lit_500_ne_404, Bool.and_self, beq_self_eq_true, if_true, if_false]
    · simp only [apis.GetLocationErrorFromHttpCallError,
        h0, h4, hc, hg, lit_500_ne_404, Bool.and_self, beq_self_eq_true, if_true, if_false]
  · have n400 : [53, d2, d3] ≠ lit "400" := by
      have hl : lit "400" = [52, 48, 48] := by decide
      rw [hl]; simp
    have n404 : [53, d2, d3] ≠ lit "404" := by
      have hl : lit "404" = [52, 48, 52] := by decide
      rw [hl]; simp
    have n409 : [53, d2, d3] ≠ lit "409" := by
      have hl : lit "409" = [52, 48, 57] := by decide
      rw [hl]; simp
    have n429 : [53, d2, d3] ≠ lit "429" := by
      have hl : lit "429" = [52, 50, 57] := by decide
      rw [hl]; simp
    simp [apis.GetErrorFromHttpCallError, apis.GetServerErrorFromHttpCallError,
      apis.GetVolumeErrorFromHttpCallError, apis.GetNetworkErrorFromHttpCallError,
      apis.GetFloatingIPErrorFromHttpCallError, apis.GetLocationErrorFromHttpCallError,
      apis.GetErrorFromHttpCallError.nonNil, apis.GetServerErrorFromHttpCallError.nonNil,
      apis.GetVolumeErrorFromHttpCallError.nonNil, apis.GetNetworkErrorFromHttpCallError.nonNil,
      apis.GetFloatingIPErrorFromHttpCallError.nonNil, h0, h4, hc, hne, n400, n404, n409, n429]

/-- C11 witness: "[500] boom" is wrapped by all six classifiers. -/
theorem classifiers_internal_only_500_witness :
    ∃ r, errorsIs r apis.ErrUnknownInternal = true ∧
      errorsIs r (.plain (lit "[500] boom")) = true ∧
      apis.GetErrorFromHttpCallError (some (.plain (lit "[500] boom"))) = some r ∧
      apis.GetServerErrorFromHttpCallError (some (.plain (lit "[500] boom"))) = some r ∧
      apis.GetVolumeErrorFromHttpCallError (some (.plain (lit "[500] boom"))) = some r ∧
      apis.GetNetworkErrorFromHttpCallError (some (.plain (lit "[500] boom"))) = some r ∧
      apis.GetFloatingIPErrorFromHttpCallError (some (.plain (lit "[500] boom"))) = some r ∧
      apis.GetLocationErrorFromHttpCallError (some (.plain (lit "[500] boom"))) = .ok (some r) :=
  (classifiers_internal_only_500 (.plain (lit "[500] boom")) (by decide) (by decide)).1
    (by decide)

/-- The search loop of `strings.Index` answers `-1` exactly when the text does
not contain the substring, and otherwise an offset not before its start. -/
theorem IndexFrom_spec (substr : GoString) (s : GoString) (i : Nat) :
    (IndexFrom substr s i = -1 ↔ ¬ substr <:+: s) ∧
    (IndexFrom substr s i = -1 ∨ (i : Int) ≤ IndexFrom substr s i) := by
  induction s generalizing i with
  | nil =>
    unfold IndexFrom
    by_cases h : substr = []
    · subst h; simp
    · have hp : substr.isPrefixOf [] = false := by
        cases substr with
        | nil => exact absurd rfl h
        | cons a as => rfl
      simp [hp, h]
  | cons c cs ih =>
    unfold IndexFrom
    by_cases hp : substr.isPrefixOf (c :: cs) = true
    · have hpre : substr <+: c :: cs := List.isPrefixOf_iff_prefix.mp hp
      simp only [hp, if_true]
      refine ⟨?_, Or.inr (le_refl _)⟩
      constructor
      · intro h; omega
      · intro h; exact absurd hpre.isInfix h
    · have hnp : ¬ substr <+: c :: cs := fun h => hp (List.isPrefixOf_iff_prefix.mpr h)
      have hp2 : substr.isPrefixOf (c :: cs) = false := Bool.eq_false_iff.mpr hp
      simp only [hp2, Bool.false_eq_true, if_false]
      obtain ⟨ih1, ih2⟩ := ih (i + 1)
      refine ⟨?_, ?_⟩
      · rw [ih1, List.infix_cons_iff]
        constructor
        · intro h hc; rcases hc with hc | hc
          · exact hnp hc
          · exact h hc
        · intro h hc; exact h (Or.inr hc)
      · rcases ih2 with h | h
        · exact Or.inl h
        · right; push_cast at h; omega

/-- Go `strings.Index(s, substr) > -1` holds exactly when `s` contains
`substr`. -/
theorem Index_gt_iff_contains (s substr : GoString) :
    Index s substr > -1 ↔ ∃ pre post, s = pre ++ substr ++ post := by
  obtain ⟨h1, h2⟩ := IndexFrom_spec substr s 0
  have hinf : substr <:+: s ↔ ∃ pre post, s = pre ++ substr ++ post := by
    constructor
    · rintro ⟨pre, post, h⟩; exact ⟨pre, post, h.symm⟩
    · rintro ⟨pre, post, h⟩; exact ⟨pre, post, h.symm⟩
  rw [← hinf]
  unfold Index
  constructor
  · intro h
    by_contra hc
    have := h1.mpr hc
    omega
  · intro h
    have hne : IndexFrom substr s 0 ≠ -1 := fun hc => (h1.mp hc) h
    rcases h2 with h2 | h2
    · exact absurd h2 hne
    · push_cast at h2; omega

/-- C12: for every error whose text passes the guard with code 400,
`GetServerErrorFromHttpCallError` returns `ErrServerNotFound` if the text
contains the literal "No such virtual machine exists"; otherwise it returns
the result of the generic classifier, which is the error itself and not
`ErrServerNotFound`. -/
theorem server_classifier_400 (e : GoError) (h : hasStatusCode e (lit "400")) :
    ((∃ pre post, e.Error = pre ++ lit "No such virtual machine exists" ++ post) →
      apis.GetServerErrorFromHttpCallError (some e) = some apis.ErrServerNotFound) ∧
    ((¬ ∃ pre post, e.Error = pre ++ lit "No such virtual machine exists" ++ post) →
      apis.GetServerErrorFromHttpCallError (some e) = apis.GetErrorFromHttpCallError (some e) ∧
      apis.GetServerErrorFromHttpCallError (some e) = some e ∧
      apis.GetServerErrorFromHttpCallError (some e) ≠ some apis.ErrServerNotFound) := by
  have hg : apis.GetErrorFromHttpCallError.nonNil e = e := by
    obtain ⟨h0, h4, hc⟩ := h
    simp [apis.GetErrorFromHttpCallError.nonNil, h0, h4, hc]
  refine ⟨fun hc => ?_, fun hc => ?_⟩
  · have hi := (Index_gt_iff_contains e.Error (lit "No such virtual machine exists")).mpr hc
    rw [apis.GetServerErrorFromHttpCallError, server_400_missing_is_not_found e h hi]
  · have hi : ¬ Index e.Error (lit "No such virtual machine exists") > -1 :=
      fun hi => hc ((Index_gt_iff_contains e.Error _).mp hi)
    have hs : apis.GetServerErrorFromHttpCallError.nonNil e = e := by
      obtain ⟨h0, h4, h400⟩ := h
      simp only [apis.GetServerErrorFromHttpCallError.nonNil, h0, h4, h400, hi, hg,
        Bool.and_self, beq_self_eq_true, if_true, if_false]
    have hne : e ≠ apis.ErrServerNotFound := by
      intro heq
      have h0 := h.1
      rw [heq] at h0
      revert h0
      decide
    refine ⟨?_, ?_, ?_⟩
    · simp only [apis.GetServerErrorFromHttpCallError, apis.GetErrorFromHttpCallError, hs, hg]
    · simp only [apis.GetServerErrorFromHttpCallError, hs]
    · simp only [apis.GetServerErrorFromHttpCallError, hs]
      intro heq
      exact hne (Option.some.inj heq)

/-- C12 witness: a 400 answer with the missing-VM text is NotFound, a 400
answer without it is returned unchanged. -/
theorem server_classifier_400_witness :
    apis.GetServerErrorFromHttpCallError
        (some (.plain (lit "[400] No such virtual machine exists, map[], ")))
      = some apis.ErrServerNotFound ∧
    apis.GetServerErrorFromHttpCallError (some (.plain (lit "[400] bad request, map[], ")))
      = some (.plain (lit "[400] bad request, map[], ")) :=
  ⟨(server_classifier_400 (.plain (lit "[400] No such virtual machine exists, map[], "))
      (by decide)).1 ⟨lit "[400] ", lit ", map[], ", by decide⟩,
   ((server_classifier_400 (.plain (lit "[400] bad request, map[], ")) (by decide)).2
      (fun hc => by
        have h := (Index_gt_iff_contains (lit "[400] bad request, map[], ")
          (lit "No such virtual machine exists")).mpr hc
        revert h
        decide)).2.1⟩

/-- C13 (counterexample): with a non-empty `formParams` and a non-nil
`jsonBody`, `BuildBody` returns the JSON encoding with the JSON content type,
not the form encoding. -/
theorem buildBody_json_overrides_form :
    warren.BuildBody (fun _ => lit "uuid=x") (fun j : GoString => .ok (lit "\"" ++ j ++ lit "\""))
        { method := lit "POST", slug := [], path := lit "/user-resource/vm/start",
          headers := [], queryParams := [], formParams := [(lit "uuid", lit "x")],
          jsonBody := some (lit "x") } =
      .ok (lit "\"x\"", lit "application/json; charset=utf-8") := by
  decide

/-- C13 (amended): `BuildBody` chooses the body by this precedence: a non-nil
`jsonBody` gives its JSON encoding with the JSON content type (or the wrapped
marshalling error), whether or not `formParams` is supplied; otherwise a
non-empty `formParams` gives its URL-form encoding with the form content
type; otherwise the body and the content type are empty. The result is always
one of the two encodings alone. -/
theorem buildBody_precedence {J : Type} (urlEncode : List (GoString × GoString) → GoString)
    (jsonMarshal : J → Except GoError GoString) (params : warren.ApiCall J) :
    (∀ (j : J) (b : GoString), params.jsonBody = some j → jsonMarshal j = .ok b →
      warren.BuildBody urlEncode jsonMarshal params =
        .ok (b, lit "application/json; charset=utf-8")) ∧
    (∀ (j : J) (err : GoError), params.jsonBody = some j → jsonMarshal j = .error err →
      warren.BuildBody urlEncode jsonMarshal params =
        .error (.wrap (lit "failed to convert jsonBody to JSON: " ++ err.Error) err)) ∧
    (params.jsonBody = none → params.formParams ≠ [] →
      warren.BuildBody urlEncode jsonMarshal params =
        .ok (urlEncode params.formParams, lit "application/x-www-form-urlencoded")) ∧
    (params.jsonBody = none → params.formParams = [] →
      warren.BuildBody urlEncode jsonMarshal params = .ok ([], [])) := by
  refine ⟨fun j b hj hm => ?_, fun j err hj hm => ?_, fun hj hf => ?_, fun hj hf => ?_⟩
  · simp only [warren.BuildBody, hj, hm]
  · simp only [warren.BuildBody, hj, hm]
  · have hl : params.formParams.length > 0 := List.length_pos.mpr hf
    simp only [warren.BuildBody, hj, hl, if_true]
  · simp [warren.BuildBody, hj, hf]

/-- C13 witness: form parameters alone are form encoded; a JSON body alone is
JSON encoded. -/
theorem buildBody_precedence_witness :
    warren.BuildBody (fun _ => lit "uuid=x") (fun j : GoString => .ok (lit "\"" ++ j ++ lit "\""))
        { method := lit "POST", slug := [], path := lit "/user-resource/vm/start",
          headers := [], queryParams := [], formParams := [(lit "uuid", lit "x")],
          jsonBody := none } =
      .ok ((fun _ => lit "uuid=x") [(lit "uuid", lit "x")],
        lit "application/x-www-form-urlencoded") :=
  (buildBody_precedence (fun _ => lit "uuid=x")
    (fun j : GoString => .ok (lit "\"" ++ j ++ lit "\""))
    { method := lit "POST", slug := [], path := lit "/user-resource/vm/start",
      headers := [], queryParams := [], formParams := [(lit "uuid", lit "x")],
      jsonBody := none }).2.2.1 rfl (by decide)

/-- C14: for a response with status at least 300 whose body was read,
`Client.Call` returns: for an empty body the "empty error response" error; for
a body the decoder rejects the "failed to parse error response" error, which
wraps the decoder's error; for a decoded body with empty message and empty
errors the "failed to parse meaningful data" error; and for a decoded body
with a non-empty message or a non-empty errors map the structured form
`[s] message, errors, requestId`. -/
theorem call_failure_forms (s : Int) (h300 : 300 ≤ s) (reqId : GoString)
    (decodeError : GoString → Except GoError warren.ResponseError)
    (responseData : Option (Except GoError GoString → Option GoError)) :
    warren.Client.Call none (.ok ⟨s, .ok [], reqId⟩) decodeError responseData =
      some (.plain (lit "[" ++ Itoa s ++ lit "] empty error response " ++ reqId)) ∧
    (∀ (buf : GoString) (err : GoError), buf ≠ [] → decodeError buf = .error err →
      warren.Client.Call none (.ok ⟨s, .ok buf, reqId⟩) decodeError responseData =
        some (.wrap (lit "[" ++ Itoa s ++ lit "] failed to parse error response, body: "
          ++ buf ++ lit ", err: " ++ err.Error ++ lit " " ++ reqId) err)) ∧
    (∀ (buf : GoString) (m : warren.ResponseError), buf ≠ [] → decodeError buf = .ok m →
      m.Message = [] → m.Errors = [] →
      warren.Client.Call none (.ok ⟨s, .ok buf, reqId⟩) decodeError responseData =
        some (.plain (lit "[" ++ Itoa s
          ++ lit "] failed to parse meaningful data from error response, body: "
          ++ buf ++ lit " " ++ reqId))) ∧
    (∀ (buf : GoString) (m : warren.ResponseError), buf ≠ [] → decodeError buf = .ok m →
      (m.Message ≠ [] ∨ m.Errors ≠ []) →
      warren.Client.Call none (.ok ⟨s, .ok buf, reqId⟩) decodeError responseData =
        some (.plain (lit "[" ++ Itoa s ++ lit "] " ++ m.Message ++ lit ", "
          ++ warren.fmtMap m.Errors ++ lit ", " ++ reqId))) := by
  have hs : s ≥ 300 := h300
  refine ⟨?_, fun buf err hb hd => ?_, fun buf m hb hd hm he => ?_, fun buf m hb hd hme => ?_⟩
  · simp [warren.Client.Call, hs]
  · have hl : ¬ buf.length = 0 := fun h => hb (List.length_eq_zero.mp h)
    simp only [warren.Client.Call, hs, if_true, hl, if_false, hd]
  · have hl : ¬ buf.length = 0 := fun h => hb (List.length_eq_zero.mp h)
    simp [warren.Client.Call, hs, hl, hd, hm, he]
  · have hl : ¬ buf.length = 0 := fun h => hb (List.length_eq_zero.mp h)
    have hne : ¬ (m.Message.length = 0 ∧ m.Errors.length = 0) := by
      rintro ⟨h1, h2⟩
      rcases hme with h | h
      · exact h (List.length_eq_zero.mp h1)
      · exact h (List.length_eq_zero.mp h2)
    simp only [warren.Client.Call, hs, if_true, hl, if_false, hd, hne]

/-- C14 witness: the 404 answer of the test server, whose body decodes to an
empty message and one entry in `errors`, gives the structured form. -/
theorem call_failure_forms_witness :
    warren.Client.Call none (.ok ⟨404, .ok (lit "body"), []⟩)
        (fun _ => .ok ⟨[], [(lit "Error", lit "[404] Server not found")]⟩) none =
      some (.plain (lit "[" ++ Itoa 404 ++ lit "] "
        ++ (⟨[], [(lit "Error", lit "[404] Server not found")]⟩ : warren.ResponseError).Message
        ++ lit ", "
        ++ warren.fmtMap
          (⟨[], [(lit "Error", lit "[404] Server not found")]⟩ : warren.ResponseError).Errors
        ++ lit ", " ++ [])) :=
  (call_failure_forms 404 (by decide) []
    (fun _ => .ok ⟨[], [(lit "Error", lit "[404] Server not found")]⟩) none).2.2.2
    (lit "body") ⟨[], [(lit "Error", lit "[404] Server not found")]⟩ (by decide) rfl
    (Or.inr (by decide))

/-- C15: the request path built by `Client.Call` is "/v1" ++ seg ++ path,
where seg is "/" ++ the call's slug when that is non-empty, else "/" ++ the
client's location when that is non-empty, else empty; so a non-empty slug of
the call overrides the client's location, which is the default. -/
theorem call_relPath (LocationSlug paramsSlug path : GoString) :
    warren.Client.Call.relPath LocationSlug paramsSlug path =
      lit "/v1" ++
        (if paramsSlug ≠ [] then lit "/" ++ paramsSlug
         else if LocationSlug ≠ [] then lit "/" ++ LocationSlug
         else []) ++ path ∧
    (paramsSlug ≠ [] →
      warren.Client.Call.relPath LocationSlug paramsSlug path
        = lit "/v1" ++ lit "/" ++ paramsSlug ++ path) ∧
    (paramsSlug = [] → LocationSlug ≠ [] →
      warren.Client.Call.relPath LocationSlug paramsSlug path
        = lit "/v1" ++ lit "/" ++ LocationSlug ++ path) ∧
    (paramsSlug = [] → LocationSlug = [] →
      warren.Client.Call.relPath LocationSlug paramsSlug path = lit "/v1" ++ path) := by
  have hlen : ∀ l : GoString, l.length > 0 ↔ l ≠ [] := fun l => List.length_pos
  refine ⟨?_, fun hp => ?_, fun hp hl => ?_, fun hp hl => ?_⟩
  · simp only [warren.Client.Call.relPath, hlen]
  · simp [warren.Client.Call.relPath, hlen, hp]
  · simp [warren.Client.Call.relPath, hlen, hp, hl]
  · simp [warren.Client.Call.relPath, hp, hl]

/-- C15 witness: the client of the test environment has location "cyc01"; a
call without a slug goes to "/v1/cyc01/network/networks", a call with the slug
"tll01" to "/v1/tll01/network/networks". -/
theorem call_relPath_witness :
    warren.Client.Call.relPath (lit "cyc01") [] (lit "/network/networks")
      = lit "/v1" ++ lit "/" ++ lit "cyc01" ++ lit "/network/networks" ∧
    warren.Client.Call.relPath (lit "cyc01") (lit "tll01") (lit "/network/networks")
      = lit "/v1" ++ lit "/" ++ lit "tll01" ++ lit "/network/networks" :=
  ⟨(call_relPath (lit "cyc01") [] (lit "/network/networks")).2.2.1 rfl (by decide),
   (call_relPath (lit "cyc01") (lit "tll01") (lit "/network/networks")).2.1 (by decide)⟩

/-- Every field that `Disk.setStateData` writes from the disk. -/
theorem disk_setStateData_fields (c : warren.Client) (disk : warren.Disk)
    (data : resources.DiskModel) (tr : warren.Trace) :
    (resources.Disk.setStateData c disk data tr).1.BillingAccount = .value disk.BillingAccountId ∧
    (resources.Disk.setStateData c disk data tr).1.CreatedAt = .value disk.CreatedAt ∧
    (resources.Disk.setStateData c disk data tr).1.SizeInGB = .value disk.SizeGb ∧
    (resources.Disk.setStateData c disk data tr).1.SourceImageUUID = .value disk.SourceImage ∧
    (resources.Disk.setStateData c disk data tr).1.SourceImageType = .value disk.SourceImageType ∧
    (resources.Disk.setStateData c disk data tr).1.Status = .value disk.Status ∧
    (resources.Disk.setStateData c disk data tr).1.StatusComment = .value disk.StatusComment ∧
    (resources.Disk.setStateData c disk data tr).1.UpdatedAt = .value disk.UpdatedAt ∧
    (resources.Disk.setStateData c disk data tr).1.UserID = .value disk.UserId ∧
    (resources.Disk.setStateData c disk data tr).1.UUID = .value disk.Uuid ∧
    (resources.Disk.setStateData c disk data tr).1.Snapshots
      = .value (disk.Snapshots.map snapshotObject) := by
  unfold resources.Disk.setStateData
  simp only []
  split <;> exact ⟨rfl, rfl, rfl, rfl, rfl, rfl, rfl, rfl, rfl, rfl, rfl⟩

/-- The storage loop of `VirtualMachine.setStateData` appends the state object
of every entry, in order. -/
theorem storageLoop_objects (l : List warren.VMStorage) (d : Tf Int)
    (acc : List resources.StorageObject) :
    (resources.VirtualMachine.setStateData.storageLoop l d acc).2 = acc ++ l.map storageObject := by
  induction l generalizing d acc with
  | nil => simp [resources.VirtualMachine.setStateData.storageLoop]
  | cons x xs ih =>
    unfold resources.VirtualMachine.setStateData.storageLoop
    simp only []
    rw [ih]
    simp [storageObject, replicaObject]

/-- Every field that `VirtualMachine.setStateData` writes from the server. -/
theorem vm_setStateData_fields (net : NetPkg) (c : warren.Client)
    (server : warren.VirtualMachine) (data : resources.VirtualMachineModel) (tr : warren.Trace) :
    (resources.VirtualMachine.setStateData net c server data tr).1.Backup = .value server.Backup ∧
    (resources.VirtualMachine.setStateData net c server data tr).1.BillingAccount
      = .value (int64OfUint64 server.BillingAccount) ∧
    (resources.VirtualMachine.setStateData net c server data tr).1.CreatedAt
      = .value server.CreatedAt ∧
    (resources.VirtualMachine.setStateData net c server data tr).1.Description
      = .value server.Description ∧
    (resources.VirtualMachine.setStateData net c server data tr).1.Hostname
      = .value server.Hostname ∧
    (resources.VirtualMachine.setStateData net c server data tr).1.Name = .value server.Name ∧
    (resources.VirtualMachine.setStateData net c server data tr).1.MAC = .value server.Mac ∧
    (resources.VirtualMachine.setStateData net c server data tr).1.Memory = .value server.Memory ∧
    (resources.VirtualMachine.setStateData net c server data tr).1.OSName = .value server.OsName ∧
    (resources.VirtualMachine.setStateData net c server data tr).1.OSVersion
      = .value server.OsVersion ∧
    (resources.VirtualMachine.setStateData net c server data tr).1.PrivateIPv4
      = .value server.PrivateIPv4 ∧
    (resources.VirtualMachine.setStateData net c server data tr).1.PublicIPv6
      = .value server.PublicIPv6 ∧
    (resources.VirtualMachine.setStateData net c server data tr).1.Status = .value server.Status ∧
    (resources.VirtualMachine.setStateData net c server data tr).1.UpdatedAt
      = .value server.UpdatedAt ∧
    (resources.VirtualMachine.setStateData net c server data tr).1.UserID
      = .value (int64OfUint64 server.UserId) ∧
    (resources.VirtualMachine.setStateData net c server data tr).1.Username
      = .value server.Username ∧
    (resources.VirtualMachine.setStateData net c server data tr).1.UUID = .value server.Uuid ∧
    (resources.VirtualMachine.setStateData net c server data tr).1.VCPU = .value server.VCpu ∧
    (resources.VirtualMachine.setStateData net c server data tr).1.Storage
      = .value (server.Storage.map storageObject) := by
  have hl := storageLoop_objects server.Storage data.DiskSizeInGB []
  simp only [List.nil_append] at hl
  unfold resources.VirtualMachine.setStateData
  simp only []
  split <;>
    exact ⟨rfl, rfl, rfl, rfl, rfl, rfl, rfl, rfl, rfl, rfl, rfl, rfl, rfl, rfl, rfl, rfl, rfl, rfl,
      congrArg Tf.value hl⟩

/-- A create call answered with a server makes `VirtualMachine.Create` store
the model that `setStateData` builds from that server. -/
theorem vm_Create_of_server (net : NetPkg) (c : warren.Client) (seededRand : Nat → Nat)
    (jsonMarshal : List GoString → Except GoError GoString)
    (data : resources.VirtualMachineModel) (tr : warren.Trace)
    (createReq : warren.CreateVirtualMachineRequest) (server : warren.VirtualMachine)
    (hreq : resources.VirtualMachine.Create.createReq seededRand jsonMarshal data = .ok createReq)
    (hcall : c.CreateVirtualMachine tr createReq = .ok server) :
    resources.VirtualMachine.Create net c seededRand jsonMarshal data tr
      = (⟨[], .set (resources.VirtualMachine.setStateData net c server data
            (tr ++ [.CreateVirtualMachine createReq])).1⟩,
          (resources.VirtualMachine.setStateData net c server data
            (tr ++ [.CreateVirtualMachine createReq])).2) := by
  unfold resources.VirtualMachine.Create
  rw [hreq]
  simp only [warren.VirtualMachineService.CreateVirtualMachine, hcall]

/-- A fetch answered with a server makes `VirtualMachine.Read` store the model
that `setStateData` builds from that server. -/
theorem vm_Read_of_server (net : NetPkg) (c : warren.Client)
    (data : resources.VirtualMachineModel) (tr : warren.Trace) (server : warren.VirtualMachine)
    (hcall : c.GetByUuid tr data.UUID.ValueString = .ok server) :
    resources.VirtualMachine.Read net c data tr
      = (⟨[], .set (resources.VirtualMachine.setStateData net c server data
            (tr ++ [.GetByUuid data.UUID.ValueString])).1⟩,
          (resources.VirtualMachine.setStateData net c server data
            (tr ++ [.GetByUuid data.UUID.ValueString])).2) := by
  unfold resources.VirtualMachine.Read
  simp only [warren.VirtualMachineService.GetByUuid, hcall]

/-- C19: the state written by `VirtualMachine.setStateData` has id, status,
memory and vcpu equal to the uuid, status, memory and vcpu of the server it is
given, whatever the model held before. `VirtualMachine.Create` stores that
state for the server its create call returns, and `VirtualMachine.Read` stores
it for the server its fetch returns. So a create answered with status
"stopped", followed by a read of the created model answered with status
"started", stores status "stopped" first and leaves status "started". -/
theorem vm_state_reflects_server :
    (∀ (net : NetPkg) (c : warren.Client) (server : warren.VirtualMachine)
        (data : resources.VirtualMachineModel) (tr : warren.Trace),
      (resources.VirtualMachine.setStateData net c server data tr).1.UUID = .value server.Uuid ∧
      (resources.VirtualMachine.setStateData net c server data tr).1.Status
        = .value server.Status ∧
      (resources.VirtualMachine.setStateData net c server data tr).1.Memory
        = .value server.Memory ∧
      (resources.VirtualMachine.setStateData net c server data tr).1.VCPU = .value server.VCpu) ∧
    (∀ (net : NetPkg) (c : warren.Client) (seededRand : Nat → Nat)
        (jsonMarshal : List GoString → Except GoError GoString)
        (data : resources.VirtualMachineModel) (tr : warren.Trace)
        (createReq : warren.CreateVirtualMachineRequest) (server : warren.VirtualMachine),
      resources.VirtualMachine.Create.createReq seededRand jsonMarshal data = .ok createReq →
      c.CreateVirtualMachine tr createReq = .ok server →
      ∃ m, (resources.VirtualMachine.Create net c seededRand jsonMarshal data tr).1
            = ⟨[], .set m⟩ ∧
        m.UUID = .value server.Uuid ∧ m.Status = .value server.Status ∧
        m.Memory = .value server.Memory ∧ m.VCPU = .value server.VCpu) ∧
    (∀ (net : NetPkg) (c : warren.Client) (data : resources.VirtualMachineModel)
        (tr : warren.Trace) (server : warren.VirtualMachine),
      c.GetByUuid tr data.UUID.ValueString = .ok server →
      ∃ m, (resources.VirtualMachine.Read net c data tr).1 = ⟨[], .set m⟩ ∧
        m.UUID = .value server.Uuid ∧ m.Status = .value server.Status ∧
        m.Memory = .value server.Memory ∧ m.VCPU = .value server.VCpu) ∧
    (∀ (net : NetPkg) (c : warren.Client) (seededRand : Nat → Nat)
        (jsonMarshal : List GoString → Except GoError GoString)
        (plan : resources.VirtualMachineModel) (tr : warren.Trace)
        (createReq : warren.CreateVirtualMachineRequest) (created read : warren.VirtualMachine),
      resources.VirtualMachine.Create.createReq seededRand jsonMarshal plan = .ok createReq →
      c.CreateVirtualMachine tr createReq = .ok created →
      created.Status = lit "stopped" →
      c.GetByUuid (resources.VirtualMachine.Create net c seededRand jsonMarshal plan tr).2
        created.Uuid = .ok read →
      read.Status = lit "started" →
      ∃ m1 m2,
        (resources.VirtualMachine.Create net c seededRand jsonMarshal plan tr).1
          = ⟨[], .set m1⟩ ∧
        m1.Status = .value (lit "stopped") ∧
        (resources.VirtualMachine.Read net c m1
          (resources.VirtualMachine.Create net c seededRand jsonMarshal plan tr).2).1
          = ⟨[], .set m2⟩ ∧
        m2.Status = .value (lit "started")) := by
  refine ⟨?_, ?_, ?_, ?_⟩
  · intro net c server data tr
    have h := vm_setStateData_fields net c server data tr
    exact ⟨h.2.2.2.2.2.2.2.2.2.2.2.2.2.2.2.2.1, h.2.2.2.2.2.2.2.2.2.2.2.2.1, h.2.2.2.2.2.2.2.1,
      h.2.2.2.2.2.2.2.2.2.2.2.2.2.2.2.2.2.1⟩
  · intro net c seededRand jsonMarshal data tr createReq server hreq hcall
    have h := vm_setStateData_fields net c server data (tr ++ [.CreateVirtualMachine createReq])
    rw [vm_Create_of_server net c seededRand jsonMarshal data tr createReq server hreq hcall]
    exact ⟨_, rfl, h.2.2.2.2.2.2.2.2.2.2.2.2.2.2.2.2.1, h.2.2.2.2.2.2.2.2.2.2.2.2.1,
      h.2.2.2.2.2.2.2.1, h.2.2.2.2.2.2.2.2.2.2.2.2.2.2.2.2.2.1⟩
  · intro net c data tr server hcall
    have h := vm_setStateData_fields net c server data (tr ++ [.GetByUuid data.UUID.ValueString])
    rw [vm_Read_of_server net c data tr server hcall]
    exact ⟨_, rfl, h.2.2.2.2.2.2.2.2.2.2.2.2.2.2.2.2.1, h.2.2.2.2.2.2.2.2.2.2.2.2.1,
      h.2.2.2.2.2.2.2.1, h.2.2.2.2.2.2.2.2.2.2.2.2.2.2.2.2.2.1⟩
  · intro net c seededRand jsonMarshal plan tr createReq created read hreq hcall hstopped hget
      hstarted
    have hC := vm_Create_of_server net c seededRand jsonMarshal plan tr createReq created hreq hcall
    have h1 := vm_setStateData_fields net c created plan (tr ++ [.CreateVirtualMachine createReq])
    rw [hC] at hget ⊢
    clear hC
    generalize resources.VirtualMachine.setStateData net c created plan
      (tr ++ [.CreateVirtualMachine createReq]) = p at hget h1 ⊢
    simp only [] at hget ⊢
    have hu : p.1.UUID.ValueString = created.Uuid := by
      rw [h1.2.2.2.2.2.2.2.2.2.2.2.2.2.2.2.2.1]; rfl
    rw [← hu] at hget
    have hR := vm_Read_of_server net c p.1 p.2 read hget
    have h2 := vm_setStateData_fields net c read p.1 (p.2 ++ [.GetByUuid p.1.UUID.ValueString])
    have hs1 : p.1.Status = .value (lit "stopped") := by
      rw [h1.2.2.2.2.2.2.2.2.2.2.2.2.1, hstopped]
    have hs2 : (resources.VirtualMachine.setStateData net c read p.1
        (p.2 ++ [.GetByUuid p.1.UUID.ValueString])).1.Status = .value (lit "started") := by
      rw [h2.2.2.2.2.2.2.2.2.2.2.2.2.1, hstarted]
    exact ⟨p.1, (resources.VirtualMachine.setStateData net c read p.1
      (p.2 ++ [.GetByUuid p.1.UUID.ValueString])).1, rfl, hs1, by rw [hR], hs2⟩

/-- The virtual machine test: on the mock platform the plan is created with
status "stopped" and the read that follows leaves status "started". -/
theorem vm_state_reflects_server_witness :
    ∃ m1 m2,
      (resources.VirtualMachine.Create fixtures.netIPv4 fixtures.vmPlatform fixtures.seededRand
        fixtures.jsonMarshal fixtures.vmPlan []).1 = ⟨[], .set m1⟩ ∧
      m1.Status = .value (lit "stopped") ∧
      (resources.VirtualMachine.Read fixtures.netIPv4 fixtures.vmPlatform m1
        (resources.VirtualMachine.Create fixtures.netIPv4 fixtures.vmPlatform fixtures.seededRand
          fixtures.jsonMarshal fixtures.vmPlan []).2).1 = ⟨[], .set m2⟩ ∧
      m2.Status = .value (lit "started") :=
  vm_state_reflects_server.2.2.2 fixtures.netIPv4 fixtures.vmPlatform fixtures.seededRand
    fixtures.jsonMarshal fixtures.vmPlan []
    fixtures.vmCreateRequest
    { fixtures.testServer (lit "10.42.0.1") with Status := lit "stopped" }
    (fixtures.testServer (lit "10.42.0.1"))
    (by decide) (by decide) (by decide) (by decide) (by decide)

/-- The decimal digits written by `formatNatAux` read back as the number. -/
theorem digitsValue_formatNatAux (fuel : Nat) :
    ∀ (n : Nat) (acc : List Nat), n < fuel →
      digitsValue (formatNatAux fuel n acc) = acc.foldl (fun a d => a * 10 + (d - 48)) n := by
  induction fuel with
  | zero => intro n acc h; omega
  | succ fuel ih =>
    intro n acc h
    unfold formatNatAux
    by_cases h10 : n < 10
    · rw [if_pos h10]
      simp [digitsValue]
    · rw [if_neg h10, ih (n / 10) _ (by omega)]
      have e : n / 10 * 10 + (48 + n % 10 - 48) = n := by omega
      simp only [List.foldl_cons, e]

theorem digitsValue_formatNat (n : Nat) : digitsValue (formatNat n) = n := by
  unfold formatNat
  rw [digitsValue_formatNatAux (n + 1) n [] (by omega)]
  rfl

theorem formatNat_injective (a b : Nat) (h : formatNat a = formatNat b) : a = b := by
  have := congrArg digitsValue h
  rwa [digitsValue_formatNat, digitsValue_formatNat] at this

theorem digitsValue_minus (l : List Nat) : digitsValue (45 :: l) = digitsValue l := by
  simp [digitsValue]

theorem formatNat_ne_minus (a b : Nat) : 45 :: formatNat a ≠ formatNat b := by
  intro h
  have hv := congrArg digitsValue h
  rw [digitsValue_minus, digitsValue_formatNat, digitsValue_formatNat] at hv
  subst hv
  have := congrArg List.length h
  simp at this

/-- Go `strconv.Itoa` gives different texts for different numbers. -/
theorem Itoa_injective (i j : Int) (h : Itoa i = Itoa j) : i = j := by
  unfold Itoa at h
  by_cases hi : i < 0 <;> by_cases hj : j < 0
  · rw [if_pos hi, if_pos hj] at h
    have := formatNat_injective _ _ (List.cons.inj h).2
    omega
  · rw [if_pos hi, if_neg hj] at h
    exact absurd h (formatNat_ne_minus _ _)
  · rw [if_neg hi, if_pos hj] at h
    exact absurd h.symm (formatNat_ne_minus _ _)
  · rw [if_neg hi, if_neg hj] at h
    have := formatNat_injective _ _ h
    omega

/-- The conversion of a `uint64` to `int64` keeps different values apart. -/
theorem int64OfUint64_injective (a b : Nat) (ha : a < 2 ^ 64) (hb : b < 2 ^ 64)
    (h : int64OfUint64 a = int64OfUint64 b) : a = b := by
  unfold int64OfUint64 at h
  rw [Nat.mod_eq_of_lt ha, Nat.mod_eq_of_lt hb] at h
  have e63 : (2 : Nat) ^ 63 = 9223372036854775808 := by norm_num
  have e64 : (2 : Nat) ^ 64 = 18446744073709551616 := by norm_num
  have e64i : (2 : Int) ^ 64 = 18446744073709551616 := by norm_num
  rw [e63, e64i] at h
  rw [e64] at ha hb
  split at h <;> split at h <;> omega

theorem snapshotObject_injective : Function.Injective snapshotObject := by
  intro a b h
  cases a; cases b
  simpa [snapshotObject, and_comm, and_left_comm, and_assoc] using h

theorem replicaObject_injective : Function.Injective replicaObject := by
  intro a b h
  cases a; cases b
  simpa [replicaObject] using h

theorem storageObject_injective : Function.Injective storageObject := by
  intro a b h
  cases a; cases b
  simp only [storageObject, resources.StorageObject.mk.injEq, Tf.value.injEq] at h
  obtain ⟨h1, h2, h3, h4, h5, h6, h7⟩ := h
  have h4b := List.map_injective_iff.mpr replicaObject_injective h4
  simp [h1, h2, h3, h4b, h5, h6, h7]

/-- Every field that `FloatingIP.setStateData` writes from the floating IP. -/
theorem floatingIP_setStateData_fields (net : NetPkg) (c : warren.Client)
    (floatingIP : warren.FloatingIp) (data : resources.FloatingIPModel) (tr : warren.Trace) :
    (resources.FloatingIP.setStateData net c floatingIP data tr).1.2.AssignedTo
      = .value floatingIP.AssignedTo ∧
    (resources.FloatingIP.setStateData net c floatingIP data tr).1.2.AssignedToPrivateIP
      = .value floatingIP.AssignedToPrivateIp ∧
    (resources.FloatingIP.setStateData net c floatingIP data tr).1.2.AssignedToResourceType
      = .value floatingIP.AssignedToResourceType ∧
    (resources.FloatingIP.setStateData net c floatingIP data tr).1.2.Address
      = .value floatingIP.Address ∧
    (resources.FloatingIP.setStateData net c floatingIP data tr).1.2.BillingAccount
      = .value floatingIP.BillingAccountId ∧
    (resources.FloatingIP.setStateData net c floatingIP data tr).1.2.CreatedAt
      = .value floatingIP.CreatedAt ∧
    (resources.FloatingIP.setStateData net c floatingIP data tr).1.2.Enabled
      = .value floatingIP.Enabled ∧
    (resources.FloatingIP.setStateData net c floatingIP data tr).1.2.ID
      = .value (Itoa floatingIP.Id) ∧
    (resources.FloatingIP.setStateData net c floatingIP data tr).1.2.IsIPv6
      = .value floatingIP.IsIPv6 ∧
    (resources.FloatingIP.setStateData net c floatingIP data tr).1.2.Name
      = .value floatingIP.Name ∧
    (resources.FloatingIP.setStateData net c floatingIP data tr).1.2.Type_
      = .value floatingIP.Type_ ∧
    (resources.FloatingIP.setStateData net c floatingIP data tr).1.2.UpdatedAt
      = .value floatingIP.UpdatedAt ∧
    (resources.FloatingIP.setStateData net c floatingIP data tr).1.2.UserID
      = .value floatingIP.UserId ∧
    (resources.FloatingIP.setStateData net c floatingIP data tr).1.2.UUID
      = .value floatingIP.Uuid := by
  unfold resources.FloatingIP.setStateData
  simp only []
  split
  · split <;> exact ⟨rfl, rfl, rfl, rfl, rfl, rfl, rfl, rfl, rfl, rfl, rfl, rfl, rfl, rfl⟩
  · exact ⟨rfl, rfl, rfl, rfl, rfl, rfl, rfl, rfl, rfl, rfl, rfl, rfl, rfl, rfl⟩

/-- C16 (counterexample). Two networks that differ only in `resources_count` get the same state:
the test network, and the test network with one resource more. -/
theorem network_state_drops_resources_count :
    fixtures.testNetwork
        ≠ { fixtures.testNetwork with ResourcesCount := fixtures.testNetwork.ResourcesCount + 1 } ∧
    pkgwarren.NetworkSetStateData fixtures.testNetwork fixtures.networkState
      = pkgwarren.NetworkSetStateData
          { fixtures.testNetwork with ResourcesCount := fixtures.testNetwork.ResourcesCount + 1 }
          fixtures.networkState := by
  decide

/-- C16, as the code has it: the state mapping keeps every wire field of a
Disk, of a FloatingIp and of a VirtualMachine (whose `uint64` fields are below
2^64), so that two objects mapped to the same state are the same object,
whatever the models held before and whatever the lookups answered; for a
Network the state keeps every wire field except `resources_count`, so that two
networks mapped to the same state agree on all other fields. -/
theorem state_mapping_lossless_except_resources_count :
    (∀ (c1 c2 : warren.Client) (d1 d2 : warren.Disk) (m1 m2 : resources.DiskModel)
        (tr1 tr2 : warren.Trace),
      (resources.Disk.setStateData c1 d1 m1 tr1).1 = (resources.Disk.setStateData c2 d2 m2 tr2).1 →
      d1 = d2) ∧
    (∀ (net : NetPkg) (c1 c2 : warren.Client) (f1 f2 : warren.FloatingIp)
        (m1 m2 : resources.FloatingIPModel) (tr1 tr2 : warren.Trace),
      (resources.FloatingIP.setStateData net c1 f1 m1 tr1).1.2
        = (resources.FloatingIP.setStateData net c2 f2 m2 tr2).1.2 →
      f1 = f2) ∧
    (∀ (net : NetPkg) (c1 c2 : warren.Client) (s1 s2 : warren.VirtualMachine)
        (m1 m2 : resources.VirtualMachineModel) (tr1 tr2 : warren.Trace),
      s1.BillingAccount < 2 ^ 64 → s1.UserId < 2 ^ 64 →
      s2.BillingAccount < 2 ^ 64 → s2.UserId < 2 ^ 64 →
      (resources.VirtualMachine.setStateData net c1 s1 m1 tr1).1
        = (resources.VirtualMachine.setStateData net c2 s2 m2 tr2).1 →
      s1 = s2) ∧
    (∀ (n1 n2 : warren.Network) (m1 m2 : pkgwarren.NetworkModel),
      pkgwarren.NetworkSetStateData n1 m1 = pkgwarren.NetworkSetStateData n2 m2 →
      n1 = { n2 with ResourcesCount := n1.ResourcesCount }) := by
  refine ⟨?_, ?_, ?_, ?_⟩
  · intro c1 c2 d1 d2 m1 m2 tr1 tr2 h
    have a := disk_setStateData_fields c1 d1 m1 tr1
    have b := disk_setStateData_fields c2 d2 m2 tr2
    rw [h] at a
    obtain ⟨a1, a2, a3, a4, a5, a6, a7, a8, a9, a10, a11⟩ := a
    obtain ⟨b1, b2, b3, b4, b5, b6, b7, b8, b9, b10, b11⟩ := b
    have e1 := Tf.value.inj (a1.symm.trans b1)
    have e2 := Tf.value.inj (a2.symm.trans b2)
    have e3 := Tf.value.inj (a3.symm.trans b3)
    have e4 := Tf.value.inj (a4.symm.trans b4)
    have e5 := Tf.value.inj (a5.symm.trans b5)
    have e6 := Tf.value.inj (a6.symm.trans b6)
    have e7 := Tf.value.inj (a7.symm.trans b7)
    have e8 := Tf.value.inj (a8.symm.trans b8)
    have e9 := Tf.value.inj (a9.symm.trans b9)
    have e10 := Tf.value.inj (a10.symm.trans b10)
    have e11 := List.map_injective_iff.mpr snapshotObject_injective
      (Tf.value.inj (a11.symm.trans b11))
    cases d1; cases d2
    simp only [] at e1 e2 e3 e4 e5 e6 e7 e8 e9 e10 e11
    simp [e1, e2, e3, e4, e5, e6, e7, e8, e9, e10, e11]
  · intro net c1 c2 f1 f2 m1 m2 tr1 tr2 h
    have a := floatingIP_setStateData_fields net c1 f1 m1 tr1
    have b := floatingIP_setStateData_fields net c2 f2 m2 tr2
    rw [h] at a
    obtain ⟨a1, a2, a3, a4, a5, a6, a7, a8, a9, a10, a11, a12, a13, a14⟩ := a
    obtain ⟨b1, b2, b3, b4, b5, b6, b7, b8, b9, b10, b11, b12, b13, b14⟩ := b
    have e1 := Tf.value.inj (a1.symm.trans b1)
    have e2 := Tf.value.inj (a2.symm.trans b2)
    have e3 := Tf.value.inj (a3.symm.trans b3)
    have e4 := Tf.value.inj (a4.symm.trans b4)
    have e5 := Tf.value.inj (a5.symm.trans b5)
    have e6 := Tf.value.inj (a6.symm.trans b6)
    have e7 := Tf.value.inj (a7.symm.trans b7)
    have e8 := Itoa_injective _ _ (Tf.value.inj (a8.symm.trans b8))
    have e9 := Tf.value.inj (a9.symm.trans b9)
    have e10 := Tf.value.inj (a10.symm.trans b10)
    have e11 := Tf.value.inj (a11.symm.trans b11)
    have e12 := Tf.value.inj (a12.symm.trans b12)
    have e13 := Tf.value.inj (a13.symm.trans b13)
    have e14 := Tf.value.inj (a14.symm.trans b14)
    cases f1; cases f2
    simp only [] at e1 e2 e3 e4 e5 e6 e7 e8 e9 e10 e11 e12 e13 e14
    simp [e1, e2, e3, e4, e5, e6, e7, e8, e9, e10, e11, e12, e13, e14]
  · intro net c1 c2 s1 s2 m1 m2 tr1 tr2 hb1 hu1 hb2 hu2 h
    have a := vm_setStateData_fields net c1 s1 m1 tr1
    have b := vm_setStateData_fields net c2 s2 m2 tr2
    rw [h] at a
    obtain ⟨a1, a2, a3, a4, a5, a6, a7, a8, a9, a10, a11, a12, a13, a14, a15, a16, a17, a18,
      a19⟩ := a
    obtain ⟨b1, b2, b3, b4, b5, b6, b7, b8, b9, b10, b11, b12, b13, b14, b15, b16, b17, b18,
      b19⟩ := b
    have e1 := Tf.value.inj (a1.symm.trans b1)
    have e2 := int64OfUint64_injective _ _ hb1 hb2 (Tf.value.inj (a2.symm.trans b2))
    have e3 := Tf.value.inj (a3.symm.trans b3)
    have e4 := Tf.value.inj (a4.symm.trans b4)
    have e5 := Tf.value.inj (a5.symm.trans b5)
    have e6 := Tf.value.inj (a6.symm.trans b6)
    have e7 := Tf.value.inj (a7.symm.trans b7)
    have e8 := Tf.value.inj (a8.symm.trans b8)
    have e9 := Tf.value.inj (a9.symm.trans b9)
    have e10 := Tf.value.inj (a10.symm.trans b10)
    have e11 := Tf.value.inj (a11.symm.trans b11)
    have e12 := Tf.value.inj (a12.symm.trans b12)
    have e13 := Tf.value.inj (a13.symm.trans b13)
    have e14 := Tf.value.inj (a14.symm.trans b14)
    have e15 := int64OfUint64_injective _ _ hu1 hu2 (Tf.value.inj (a15.symm.trans b15))
    have e16 := Tf.value.inj (a16.symm.trans b16)
    have e17 := Tf.value.inj (a17.symm.trans b17)
    have e18 := Tf.value.inj (a18.symm.trans b18)
    have e19 := List.map_injective_iff.mpr storageObject_injective
      (Tf.value.inj (a19.symm.trans b19))
    cases s1; cases s2
    simp only [] at e1 e2 e3 e4 e5 e6 e7 e8 e9 e10 e11 e12 e13 e14 e15 e16 e17 e18 e19
    simp [e1, e2, e3, e4, e5, e6, e7, e8, e9, e10, e11, e12, e13, e14, e15, e16, e17, e18, e19]
  · intro n1 n2 m1 m2 h
    cases n1; cases n2
    simp only [pkgwarren.NetworkSetStateData, pkgwarren.NetworkModel.mk.injEq,
      Tf.value.injEq] at h
    obtain ⟨h1, h2, h3, h4, h5, h6, h7, h8, h9, h10⟩ := h
    have h4b := List.map_injective_iff.mpr (fun a b hab => Tf.value.inj hab) h4
    simp [h1, h2, h3, h4b, h5, h6, h7, h8, h9, h10]

/-- The test objects: the state of each is the same from different call
histories, and the test network with one resource more has the state of the
test network, which it equals up to `resources_count`. -/
theorem state_mapping_lossless_except_resources_count_witness :
    fixtures.testDisk fixtures.TestDiskUUID = fixtures.testDisk fixtures.TestDiskUUID ∧
    fixtures.testFloatingIp (lit "test") [] = fixtures.testFloatingIp (lit "test") [] ∧
    fixtures.testServer (lit "10.42.0.1") = fixtures.testServer (lit "10.42.0.1") ∧
    fixtures.testNetwork
      = { ({ fixtures.testNetwork with ResourcesCount := 1 } : warren.Network) with
          ResourcesCount := fixtures.testNetwork.ResourcesCount } :=
  ⟨state_mapping_lossless_except_resources_count.1 fixtures.emptyPlatform fixtures.emptyPlatform
      (fixtures.testDisk fixtures.TestDiskUUID) (fixtures.testDisk fixtures.TestDiskUUID)
      (fixtures.diskState []) (fixtures.diskState []) [] [.ListVms] (by decide),
   state_mapping_lossless_except_resources_count.2.1 fixtures.netIPv4 fixtures.emptyPlatform
      fixtures.emptyPlatform (fixtures.testFloatingIp (lit "test") [])
      (fixtures.testFloatingIp (lit "test") []) fixtures.floatingIPPlan fixtures.floatingIPPlan
      [] [.ListVms] (by decide),
   state_mapping_lossless_except_resources_count.2.2.1 fixtures.netIPv4 fixtures.emptyPlatform
      fixtures.emptyPlatform (fixtures.testServer (lit "10.42.0.1"))
      (fixtures.testServer (lit "10.42.0.1")) fixtures.vmPlan fixtures.vmPlan [] [.ListVms]
      (by decide) (by decide) (by decide) (by decide) (by decide),
   state_mapping_lossless_except_resources_count.2.2.2 fixtures.testNetwork
      { fixtures.testNetwork with ResourcesCount := 1 } fixtures.networkState
      fixtures.networkState (by decide)⟩

/-- C17: nested collections keep their source order. The snapshot list that
`Disk.setStateData` stores has the length of `disk.Snapshots`, and its element
i carries the uuid, disk uuid, size and creation time of snapshot i. The
storage list that `VirtualMachine.setStateData` stores has the length of
`server.Storage`, its element i carries the fields of storage entry i, and the
replica list of that element has the length of the entry's `Replica` list with
element j carrying the fields of replica j. -/
theorem nested_lists_keep_order :
    (∀ (c : warren.Client) (disk : warren.Disk) (data : resources.DiskModel) (tr : warren.Trace),
      ∃ l, (resources.Disk.setStateData c disk data tr).1.Snapshots = .value l ∧
        l.length = disk.Snapshots.length ∧
        ∀ (i : Nat) (s : warren.Snapshot), disk.Snapshots[i]? = some s →
          ∃ o, l[i]? = some o ∧ o.uuid = .value s.Uuid ∧ o.disk_uuid = .value s.DiskUuid ∧
            o.size_in_gb = .value s.SizeGb ∧ o.created_at = .value s.CreatedAt) ∧
    (∀ (net : NetPkg) (c : warren.Client) (server : warren.VirtualMachine)
        (data : resources.VirtualMachineModel) (tr : warren.Trace),
      ∃ l, (resources.VirtualMachine.setStateData net c server data tr).1.Storage = .value l ∧
        l.length = server.Storage.length ∧
        ∀ (i : Nat) (s : warren.VMStorage), server.Storage[i]? = some s →
          ∃ o rl, l[i]? = some o ∧ o.uuid = .value s.Uuid ∧ o.name = .value s.Name ∧
            o.primary = .value s.Primary ∧ o.size_in_gb = .value s.Size ∧
            o.user_id = .value s.UserId ∧ o.created_at = .value s.CreatedAt ∧
            o.replica = .value rl ∧ rl.length = s.Replica.length ∧
            ∀ (j : Nat) (r : warren.StorageReplica), s.Replica[j]? = some r →
              ∃ ro, rl[j]? = some ro ∧ ro.uuid = .value r.Uuid ∧
                ro.master_uuid = .value r.MasterUuid ∧ ro.size_in_gb = .value r.Size ∧
                ro.type_ = .value r.Type_ ∧ ro.created_at = .value r.CreatedAt) := by
  constructor
  · intro c disk data tr
    refine ⟨disk.Snapshots.map snapshotObject,
      (disk_setStateData_fields c disk data tr).2.2.2.2.2.2.2.2.2.2, by simp, ?_⟩
    intro i s hs
    exact ⟨snapshotObject s, by simp [hs], rfl, rfl, rfl, rfl⟩
  · intro net c server data tr
    refine ⟨server.Storage.map storageObject,
      (vm_setStateData_fields net c server data tr).2.2.2.2.2.2.2.2.2.2.2.2.2.2.2.2.2.2, by simp,
      ?_⟩
    intro i s hs
    refine ⟨storageObject s, s.Replica.map replicaObject, by simp [hs], rfl, rfl, rfl, rfl, rfl,
      rfl, rfl, by simp, ?_⟩
    intro j r hr
    exact ⟨replicaObject r, by simp [hr], rfl, rfl, rfl, rfl, rfl⟩

/-- The second snapshot of a disk with two snapshots is the second element of
the stored list, and the second replica of the second storage entry of a
server is the second element of the second stored replica list. -/
theorem nested_lists_keep_order_witness :
    (∃ l o, (resources.Disk.setStateData fixtures.emptyPlatform fixtures.diskWithSnapshots
          (fixtures.diskState []) []).1.Snapshots = .value l ∧
        l.length = 2 ∧ l[1]? = some o ∧ o.uuid = .value (lit "snapshot-b") ∧
        o.size_in_gb = .value 10) ∧
    (∃ l o rl ro, (resources.VirtualMachine.setStateData fixtures.netIPv4 fixtures.emptyPlatform
          fixtures.serverWithReplicas fixtures.vmPlan []).1.Storage = .value l ∧
        l.length = 2 ∧ l[1]? = some o ∧ o.uuid = .value (lit "disk-b") ∧
        o.replica = .value rl ∧ rl.length = 2 ∧ rl[1]? = some ro ∧
        ro.uuid = .value (lit "replica-b") ∧ ro.size_in_gb = .value 6) := by
  constructor
  · obtain ⟨l, h1, h2, h3⟩ := nested_lists_keep_order.1 fixtures.emptyPlatform
      fixtures.diskWithSnapshots (fixtures.diskState []) []
    obtain ⟨o, ho, hu, _, hs, _⟩ := h3 1
      { Uuid := lit "snapshot-b", SizeGb := 10, CreatedAt := lit "2022-09-03T12:00:00.000+0000",
        DiskUuid := fixtures.TestDiskUUID } (by decide)
    exact ⟨l, o, h1, h2, ho, hu, hs⟩
  · obtain ⟨l, h1, h2, h3⟩ := nested_lists_keep_order.2 fixtures.netIPv4 fixtures.emptyPlatform
      fixtures.serverWithReplicas fixtures.vmPlan []
    obtain ⟨o, rl, ho, hu, _, _, _, _, _, hr, hrl, h4⟩ := h3 1
      { CreatedAt := lit "2018-02-23 10:00:00.000000", Name := lit "sdb", Primary := false,
        Replica :=
          [{ CreatedAt := lit "2018-02-24 01:00:00", MasterUuid := lit "disk-b", Size := 5,
             Type_ := lit "snapshot", Uuid := lit "replica-a" },
           { CreatedAt := lit "2018-02-25 01:00:00", MasterUuid := lit "disk-b", Size := 6,
             Type_ := lit "backup", Uuid := lit "replica-b" }],
        Size := 40, UserId := 8, Uuid := lit "disk-b" } (by decide)
    obtain ⟨ro, hro, hru, _, hrs, _⟩ := h4 1
      { CreatedAt := lit "2018-02-25 01:00:00", MasterUuid := lit "disk-b", Size := 6,
        Type_ := lit "backup", Uuid := lit "replica-b" } (by decide)
    exact ⟨l, o, rl, ro, h1, h2, ho, hu, hr, hrl, hro, hru, hrs⟩

/-- C18 (counterexample). A disk that no listed server holds, mapped into a model whose
`server_uuid` is set, keeps that value; a server whose network lookup fails,
mapped into a model whose `network_uuid` is set, keeps that value. Neither
field is null afterwards. -/
theorem state_keeps_prior_derived_field :
    (fixtures.emptyPlatform.ListVms [] = .ok [] ∧
      (resources.Disk.setStateData fixtures.emptyPlatform
        (fixtures.testDisk fixtures.TestDiskUUID) fixtures.diskPlan []).1.ServerUUID
        = .value fixtures.TestServerUUID ∧
      (resources.Disk.setStateData fixtures.emptyPlatform
        (fixtures.testDisk fixtures.TestDiskUUID) fixtures.diskPlan []).1.ServerUUID.IsNull
        = false) ∧
    ((∃ e, (apis.GetNetworkFromServerUUID fixtures.netIPv4 fixtures.emptyPlatform
          (fixtures.testServer (lit "10.42.0.1")).Uuid []).1 = .error e) ∧
      (resources.VirtualMachine.setStateData fixtures.netIPv4 fixtures.emptyPlatform
        (fixtures.testServer (lit "10.42.0.1"))
        { fixtures.vmPlan with NetworkUUID := .value fixtures.TestNetworkUUID } []).1.NetworkUUID
        = .value fixtures.TestNetworkUUID ∧
      (resources.VirtualMachine.setStateData fixtures.netIPv4 fixtures.emptyPlatform
        (fixtures.testServer (lit "10.42.0.1"))
        { fixtures.vmPlan with NetworkUUID := .value fixtures.TestNetworkUUID }
        []).1.NetworkUUID.IsNull = false) := by
  refine ⟨by decide, ⟨?_, by decide, by decide⟩⟩
  exact ⟨_, rfl⟩

/-- A list of servers none of which holds the volume makes
`GetServerFromVolumeUUID` fail. -/
theorem getServerFromVolumeUUID_no_match (c : warren.Client) (uuid : GoString)
    (tr : warren.Trace) (vms : List warren.VirtualMachine) (hl : c.ListVms tr = .ok vms)
    (hno : ∀ vm ∈ vms, ∀ st ∈ vm.Storage, st.Uuid ≠ uuid) :
    ∃ e, (apis.GetServerFromVolumeUUID c uuid tr).1 = .error e := by
  have hf : vms.find? (fun server => server.Storage.any (fun storage => storage.Uuid = uuid))
      = none := by
    rw [List.find?_eq_none]
    intro vm hvm
    simp only [List.any_eq_true, decide_eq_true_eq, not_exists, not_and, Bool.not_eq_true]
    intro st hst
    exact hno vm hvm st hst
  unfold apis.GetServerFromVolumeUUID
  simp only [warren.VirtualMachineService.ListVms, hl, hf]
  exact ⟨_, rfl⟩

/-- C18, as the code has it: when the derived lookup fails or finds nothing,
the state mapper leaves the derived field as the model held it before the
call (null only if it was null). After `Disk.setStateData` the `server_uuid`
is the prior value if `GetServerFromVolumeUUID` fails, in particular if no
listed server has the disk in its storage, and the uuid of the found server
otherwise; after `VirtualMachine.setStateData` the `network_uuid` is the prior
value if `GetNetworkFromServerUUID` fails and the uuid of the found network
otherwise; `FloatingIP.setStateData` returns the classified error of a failed
lookup with `network_uuid` at its prior value. -/
theorem derived_field_unchanged_on_failed_lookup :
    (∀ (c : warren.Client) (disk : warren.Disk) (data : resources.DiskModel) (tr : warren.Trace),
      (∀ e, (apis.GetServerFromVolumeUUID c disk.Uuid tr).1 = .error e →
        (resources.Disk.setStateData c disk data tr).1.ServerUUID = data.ServerUUID) ∧
      (∀ vms, c.ListVms tr = .ok vms → (∀ vm ∈ vms, ∀ st ∈ vm.Storage, st.Uuid ≠ disk.Uuid) →
        (resources.Disk.setStateData c disk data tr).1.ServerUUID = data.ServerUUID) ∧
      (∀ server, (apis.GetServerFromVolumeUUID c disk.Uuid tr).1 = .ok server →
        (resources.Disk.setStateData c disk data tr).1.ServerUUID = .value server.Uuid)) ∧
    (∀ (net : NetPkg) (c : warren.Client) (server : warren.VirtualMachine)
        (data : resources.VirtualMachineModel) (tr : warren.Trace),
      (∀ e, (apis.GetNetworkFromServerUUID net c server.Uuid tr).1 = .error e →
        (resources.VirtualMachine.setStateData net c server data tr).1.NetworkUUID
          = data.NetworkUUID) ∧
      (∀ network, (apis.GetNetworkFromServerUUID net c server.Uuid tr).1 = .ok network →
        (resources.VirtualMachine.setStateData net c server data tr).1.NetworkUUID
          = .value network.Uuid)) ∧
    (∀ (net : NetPkg) (c : warren.Client) (floatingIP : warren.FloatingIp)
        (data : resources.FloatingIPModel) (tr : warren.Trace),
      ∀ e, (apis.GetNetworkFromServerUUID net c floatingIP.AssignedTo tr).1 = .error e →
        (resources.FloatingIP.setStateData net c floatingIP data tr).1.1
          = some (apis.GetNetworkErrorFromHttpCallError.nonNil e) ∧
        (resources.FloatingIP.setStateData net c floatingIP data tr).1.2.NetworkUUID
          = data.NetworkUUID) := by
  have hdisk : ∀ (c : warren.Client) (disk : warren.Disk) (data : resources.DiskModel)
      (tr : warren.Trace) (e : GoError),
      (apis.GetServerFromVolumeUUID c disk.Uuid tr).1 = .error e →
      (resources.Disk.setStateData c disk data tr).1.ServerUUID = data.ServerUUID := by
    intro c disk data tr e h
    unfold resources.Disk.setStateData
    simp only []
    split
    · rename_i server tr2 heq
      rw [heq] at h
      cases h
    · rfl
  refine ⟨?_, ?_, ?_⟩
  · intro c disk data tr
    refine ⟨hdisk c disk data tr, ?_, ?_⟩
    · intro vms hl hno
      obtain ⟨e, he⟩ := getServerFromVolumeUUID_no_match c disk.Uuid tr vms hl hno
      exact hdisk c disk data tr e he
    · intro server h
      unfold resources.Disk.setStateData
      simp only []
      split
      · rename_i server2 tr2 heq
        rw [heq] at h
        cases h
        rfl
      · rename_i e2 tr2 heq
        rw [heq] at h
        cases h
  · intro net c server data tr
    constructor
    · intro e h
      unfold resources.VirtualMachine.setStateData
      simp only []
      split
      · rename_i network tr2 heq
        rw [heq] at h
        cases h
      · rfl
    · intro network h
      unfold resources.VirtualMachine.setStateData
      simp only []
      split
      · rename_i network2 tr2 heq
        rw [heq] at h
        cases h
        rfl
      · rename_i e2 tr2 heq
        rw [heq] at h
        cases h
  · intro net c floatingIP data tr e h
    unfold resources.FloatingIP.setStateData
    simp only [Tf.IsNull, Tf.ValueString, Bool.not_false, if_true]
    split
    · rename_i e2 tr2 heq
      rw [heq] at h
      cases h
      exact ⟨rfl, rfl⟩
    · rename_i network tr2 heq
      rw [heq] at h
      cases h

/-- On the platform where nothing exists every derived lookup fails, and the
plans keep the `server_uuid` and `network_uuid` they had. -/
theorem derived_field_unchanged_on_failed_lookup_witness :
    (resources.Disk.setStateData fixtures.emptyPlatform (fixtures.testDisk fixtures.TestDiskUUID)
        fixtures.diskPlan []).1.ServerUUID = fixtures.diskPlan.ServerUUID ∧
    (resources.VirtualMachine.setStateData fixtures.netIPv4 fixtures.emptyPlatform
        (fixtures.testServer (lit "10.42.0.1")) fixtures.vmPlan []).1.NetworkUUID
      = fixtures.vmPlan.NetworkUUID ∧
    (resources.FloatingIP.setStateData fixtures.netIPv4 fixtures.emptyPlatform
        (fixtures.testFloatingIp (lit "test") fixtures.TestServerUUID)
        fixtures.floatingIPPlan []).1.1
      = some (apis.GetNetworkErrorFromHttpCallError.nonNil
          (apis.GetServerErrorFromHttpCallError.nonNil (.plain fixtures.notFoundText))) ∧
    (resources.FloatingIP.setStateData fixtures.netIPv4 fixtures.emptyPlatform
        (fixtures.testFloatingIp (lit "test") fixtures.TestServerUUID)
        fixtures.floatingIPPlan []).1.2.NetworkUUID = fixtures.floatingIPPlan.NetworkUUID :=
  ⟨(derived_field_unchanged_on_failed_lookup.1 fixtures.emptyPlatform
      (fixtures.testDisk fixtures.TestDiskUUID) fixtures.diskPlan []).2.1 [] (by decide)
      (by simp),
   (derived_field_unchanged_on_failed_lookup.2.1 fixtures.netIPv4 fixtures.emptyPlatform
      (fixtures.testServer (lit "10.42.0.1")) fixtures.vmPlan []).1
      (apis.GetServerErrorFromHttpCallError.nonNil (.plain fixtures.notFoundText)) (by decide),
   derived_field_unchanged_on_failed_lookup.2.2 fixtures.netIPv4 fixtures.emptyPlatform
      (fixtures.testFloatingIp (lit "test") fixtures.TestServerUUID) fixtures.floatingIPPlan []
      (apis.GetServerErrorFromHttpCallError.nonNil (.plain fixtures.notFoundText)) (by decide)⟩

/-- C20 (counterexample). The test setup: the mock client is registered for the token and the
provider is configured with the `api_url` of the test environment. The client
returned is a newly built one whose base URL ends in `/v1`, not the registered
mock client. -/
theorem registry_bypassed_for_nonempty_url :
    apis.GetClientForTokenAndEndpoint fixtures.urlParse fixtures.Getenv
        (apis.SetClientForToken fixtures.noClients (lit "dummy-token") (some fixtures.mockClient))
        (lit "dummy-token") fixtures.mockApiUrl
      = .ok (some { BaseURL := lit "http://127.0.0.1:8080/v1", LocationSlug := lit "cyc01",
                    ApiToken := lit "dummy-token" }) ∧
    apis.GetClientForTokenAndEndpoint fixtures.urlParse fixtures.Getenv
        (apis.SetClientForToken fixtures.noClients (lit "dummy-token") (some fixtures.mockClient))
        (lit "dummy-token") fixtures.mockApiUrl
      ≠ .ok (some fixtures.mockClient) := by
  decide

/-- C20, as the code has it: the registry is consulted only for an empty
endpoint URL. After `SetClientForToken(t, c)` with `c` non-nil,
`GetClientForTokenAndEndpoint(ctx, t, "")` returns `c`; for a non-empty URL the
result is the same whatever the registry holds, namely the client `getClient`
builds from the URL. `SetClientForToken` changes the entry of its token only:
with nil the registry holds no entry for `t` afterwards, and entries of other
tokens are unchanged. -/
theorem registry_lookup_only_for_empty_url {U : Type} (urlParse : GoString → Except GoError U)
    (Getenv : GoString → GoString) :
    (∀ (singletons : GoString → Option (warren.ClientHandle U)) (t : GoString)
        (c : warren.ClientHandle U),
      apis.GetClientForTokenAndEndpoint urlParse Getenv
        (apis.SetClientForToken singletons t (some c)) t [] = .ok (some c)) ∧
    (∀ (singletons others : GoString → Option (warren.ClientHandle U)) (t url : GoString),
      url ≠ [] →
      apis.GetClientForTokenAndEndpoint urlParse Getenv singletons t url
        = apis.GetClientForTokenAndEndpoint urlParse Getenv others t url) ∧
    (∀ (singletons : GoString → Option (warren.ClientHandle U)) (t : GoString),
      apis.SetClientForToken singletons t none t = none) ∧
    (∀ (singletons : GoString → Option (warren.ClientHandle U)) (t other : GoString)
        (client : Option (warren.ClientHandle U)),
      other ≠ t → apis.SetClientForToken singletons t client other = singletons other) := by
  refine ⟨?_, ?_, ?_, ?_⟩
  · intro singletons t c
    simp [apis.GetClientForTokenAndEndpoint, apis.SetClientForToken]
  · intro singletons others t url hurl
    unfold apis.GetClientForTokenAndEndpoint
    simp only [if_neg hurl]
  · intro singletons t
    simp [apis.SetClientForToken]
  · intro singletons t other client h
    cases client <;> simp [apis.SetClientForToken, h]

/-- The test registry: the mock client registered for the token is returned
for an empty URL; for the configured `api_url` the registry does not matter;
unregistering removes the entry and leaves another token as it was. -/
theorem registry_lookup_only_for_empty_url_witness :
    apis.GetClientForTokenAndEndpoint fixtures.urlParse fixtures.Getenv
        (apis.SetClientForToken fixtures.noClients (lit "dummy-token") (some fixtures.mockClient))
        (lit "dummy-token") [] = .ok (some fixtures.mockClient) ∧
    apis.GetClientForTokenAndEndpoint fixtures.urlParse fixtures.Getenv
        (apis.SetClientForToken fixtures.noClients (lit "dummy-token") (some fixtures.mockClient))
        (lit "dummy-token") fixtures.mockApiUrl
      = apis.GetClientForTokenAndEndpoint fixtures.urlParse fixtures.Getenv fixtures.noClients
          (lit "dummy-token") fixtures.mockApiUrl ∧
    apis.SetClientForToken
        (apis.SetClientForToken fixtures.noClients (lit "dummy-token") (some fixtures.mockClient))
        (lit "dummy-token") none (lit "dummy-token") = none ∧
    apis.SetClientForToken
        (apis.SetClientForToken fixtures.noClients (lit "dummy-token") (some fixtures.mockClient))
        (lit "other-token") none (lit "dummy-token")
      = apis.SetClientForToken fixtures.noClients (lit "dummy-token") (some fixtures.mockClient)
          (lit "dummy-token") :=
  ⟨(registry_lookup_only_for_empty_url fixtures.urlParse fixtures.Getenv).1 fixtures.noClients
      (lit "dummy-token") fixtures.mockClient,
   (registry_lookup_only_for_empty_url fixtures.urlParse fixtures.Getenv).2.1
      (apis.SetClientForToken fixtures.noClients (lit "dummy-token") (some fixtures.mockClient))
      fixtures.noClients (lit "dummy-token") fixtures.mockApiUrl (by decide),
   (registry_lookup_only_for_empty_url fixtures.urlParse fixtures.Getenv).2.2.1
      (apis.SetClientForToken fixtures.noClients (lit "dummy-token") (some fixtures.mockClient))
      (lit "dummy-token"),
   (registry_lookup_only_for_empty_url fixtures.urlParse fixtures.Getenv).2.2.2
      (apis.SetClientForToken fixtures.noClients (lit "dummy-token") (some fixtures.mockClient))
      (lit "other-token") (lit "dummy-token") none (by decide)⟩

/-- C25: `GetErrorFromHttpCallError` equals this table. Nil maps to nil. An
error whose text passes the guard with code 500 maps to an error that wraps
both `ErrUnknownInternal` and the original error. Code 429 maps to
`ErrRateLimitExceeded` itself. Every other error, in particular one with code
400, maps to the original error unchanged. -/
theorem generic_classifier_table :
    apis.GetErrorFromHttpCallError none = none ∧
    ∀ e : GoError,
      (hasStatusCode e (lit "500") →
        apis.GetErrorFromHttpCallError (some e)
          = some (.wrap2 (apis.ErrUnknownInternal.Error ++ lit ": " ++ e.Error)
              apis.ErrUnknownInternal e) ∧
        errorsIs (.wrap2 (apis.ErrUnknownInternal.Error ++ lit ": " ++ e.Error)
          apis.ErrUnknownInternal e) apis.ErrUnknownInternal = true ∧
        errorsIs (.wrap2 (apis.ErrUnknownInternal.Error ++ lit ": " ++ e.Error)
          apis.ErrUnknownInternal e) e = true) ∧
      (hasStatusCode e (lit "429") →
        apis.GetErrorFromHttpCallError (some e) = some apis.ErrRateLimitExceeded) ∧
      (hasStatusCode e (lit "400") → apis.GetErrorFromHttpCallError (some e) = some e) ∧
      (¬ hasStatusCode e (lit "500") → ¬ hasStatusCode e (lit "429") →
        apis.GetErrorFromHttpCallError (some e) = some e) := by
  refine ⟨rfl, fun e => ⟨?_, ?_, ?_, ?_⟩⟩
  · intro h
    have hself : errorsIs e e = true := by cases e <;> simp [errorsIs]
    refine ⟨?_, ?_, ?_⟩
    · simp only [apis.GetErrorFromHttpCallError, generic_500 e h]
    · simp [errorsIs, apis.ErrUnknownInternal]
    · simp [errorsIs, hself]
  · intro h
    obtain ⟨h0, h4, hc⟩ := h
    have n1 : lit "429" ≠ lit "400" := by decide
    have n2 : lit "429" ≠ lit "500" := by decide
    simp only [apis.GetErrorFromHttpCallError, apis.GetErrorFromHttpCallError.nonNil, h0, h4, hc,
      n1, n2, Bool.and_self, beq_self_eq_true, if_true, if_false]
  · intro h
    obtain ⟨h0, h4, hc⟩ := h
    simp only [apis.GetErrorFromHttpCallError, apis.GetErrorFromHttpCallError.nonNil, h0, h4, hc,
      Bool.and_self, beq_self_eq_true, if_true]
  · intro n500 n429
    simp only [apis.GetErrorFromHttpCallError, apis.GetErrorFromHttpCallError.nonNil]
    congr 1
    by_cases hg : (HasPrefix e.Error (lit "[") && Index e.Error (lit "]") == 4) = true
    · rw [if_pos hg]
      have h0 : HasPrefix e.Error (lit "[") = true := (Bool.and_eq_true_iff.mp hg).1
      have h4 : Index e.Error (lit "]") = 4 := by
        simpa using (Bool.and_eq_true_iff.mp hg).2
      have c500 : slice e.Error 1 4 ≠ lit "500" := fun hc => n500 ⟨h0, h4, hc⟩
      have c429 : slice e.Error 1 4 ≠ lit "429" := fun hc => n429 ⟨h0, h4, hc⟩
      simp only [c500, c429, if_false, ite_self]
    · rw [if_neg hg]

/-- The table on sample errors: a 500 text is wrapped, a 429 text becomes the
rate limit error, a 400 text and a text without bracketed code are returned
as they are. -/
theorem generic_classifier_table_witness :
    (apis.GetErrorFromHttpCallError (some (.plain (lit "[500] boom")))
        = some (.wrap2 (apis.ErrUnknownInternal.Error ++ lit ": " ++ lit "[500] boom")
            apis.ErrUnknownInternal (.plain (lit "[500] boom"))) ∧
      errorsIs (.wrap2 (apis.ErrUnknownInternal.Error ++ lit ": "
          ++ (GoError.plain (lit "[500] boom")).Error)
        apis.ErrUnknownInternal (.plain (lit "[500] boom"))) apis.ErrUnknownInternal = true ∧
      errorsIs (.wrap2 (apis.ErrUnknownInternal.Error ++ lit ": "
          ++ (GoError.plain (lit "[500] boom")).Error)
        apis.ErrUnknownInternal (.plain (lit "[500] boom"))) (.plain (lit "[500] boom")) = true) ∧
    apis.GetErrorFromHttpCallError (some (.plain (lit "[429] slow down")))
      = some apis.ErrRateLimitExceeded ∧
    apis.GetErrorFromHttpCallError (some (.plain (lit "[400] bad request")))
      = some (.plain (lit "[400] bad request")) ∧
    apis.GetErrorFromHttpCallError (some (.plain (lit "connection refused")))
      = some (.plain (lit "connection refused")) :=
  ⟨(generic_classifier_table.2 (.plain (lit "[500] boom"))).1 (by decide),
   (generic_classifier_table.2 (.plain (lit "[429] slow down"))).2.1 (by decide),
   (generic_classifier_table.2 (.plain (lit "[400] bad request"))).2.2.1 (by decide),
   (generic_classifier_table.2 (.plain (lit "connection refused"))).2.2.2 (by decide)
     (by decide)⟩

/-- C26: over a successfully listed sequence, `GetFloatingIPByID` returns the
first entry in list order that is enabled and has the requested id: an entry
that is enabled with that id and preceded by no such entry is the result, and
every result is a listed, enabled entry with that id. When no entry has the
id, or every entry with the id is disabled, the result is an error wrapping
`ErrFloatingIPNotFound`. -/
theorem getFloatingIPByID_first_enabled (c : warren.Client) (id : Int) (tr : warren.Trace)
    (floatingIPs : List warren.FloatingIp) (hl : c.ListFloatingIps tr = .ok floatingIPs) :
    (∀ (pre post : List warren.FloatingIp) (ip : warren.FloatingIp),
      floatingIPs = pre ++ ip :: post → ip.Enabled = true → ip.Id = id →
      (∀ x ∈ pre, ¬ (x.Enabled = true ∧ x.Id = id)) →
      (apis.GetFloatingIPByID c id tr).1 = .ok ip) ∧
    (∀ ip, (apis.GetFloatingIPByID c id tr).1 = .ok ip →
      ip ∈ floatingIPs ∧ ip.Enabled = true ∧ ip.Id = id) ∧
    ((∀ x ∈ floatingIPs, x.Id = id → x.Enabled = false) →
      ∃ e, (apis.GetFloatingIPByID c id tr).1 = .error e ∧
        errorsIs e apis.ErrFloatingIPNotFound = true) := by
  have hdef : (apis.GetFloatingIPByID c id tr).1 =
      match floatingIPs.find? (fun ip => ip.Enabled && decide (ip.Id = id)) with
      | some ip => .ok ip
      | none => .error (.wrap (apis.ErrFloatingIPNotFound.Error ++ lit ": " ++ lit "%!s(int="
          ++ Itoa id ++ lit ")") apis.ErrFloatingIPNotFound) := by
    unfold apis.GetFloatingIPByID
    simp only [warren.NetworkService.ListFloatingIps, hl]
    split <;> rfl
  refine ⟨?_, ?_, ?_⟩
  · intro pre post ip hsplit hen hid hpre
    have hf : floatingIPs.find? (fun ip => ip.Enabled && decide (ip.Id = id)) = some ip := by
      rw [hsplit]
      apply find?_of_first
      · simp [hen, hid]
      · intro y hy
        have := hpre y hy
        by_cases he : y.Enabled = true
        · have hne : ¬ y.Id = id := fun h => this ⟨he, h⟩
          simp [hne]
        · simp [he]
    rw [hdef, hf]
  · intro ip hres
    rw [hdef] at hres
    split at hres
    · rename_i found hfound
      cases hres
      have hm := List.mem_of_find?_eq_some hfound
      have hp := List.find?_some hfound
      simp only [Bool.and_eq_true, decide_eq_true_eq] at hp
      exact ⟨hm, hp.1, hp.2⟩
    · cases hres
  · intro hno
    have hf : floatingIPs.find? (fun ip => ip.Enabled && decide (ip.Id = id)) = none := by
      rw [List.find?_eq_none]
      intro x hx
      by_cases hid : x.Id = id
      · simp [hno x hx hid]
      · simp [hid]
    rw [hdef, hf]
    exact ⟨_, rfl, by simp [errorsIs, apis.ErrFloatingIPNotFound]⟩

/-- A list holding a disabled entry with id 42 before the enabled test
floating IP gives the test floating IP; a list whose only entry with id 42 is
disabled gives the not-found error. -/
theorem getFloatingIPByID_first_enabled_witness :
    (apis.GetFloatingIPByID
        { fixtures.emptyPlatform with
          ListFloatingIps := fun _ =>
            .ok [{ fixtures.testFloatingIp (lit "old") [] with Enabled := false },
                 fixtures.testFloatingIp (lit "test") fixtures.TestServerUUID,
                 fixtures.testFloatingIp (lit "later") [] ] }
        42 []).1 = .ok (fixtures.testFloatingIp (lit "test") fixtures.TestServerUUID) ∧
    ∃ e, (apis.GetFloatingIPByID
        { fixtures.emptyPlatform with
          ListFloatingIps := fun _ =>
            .ok [{ fixtures.testFloatingIp (lit "old") [] with Enabled := false }] }
        42 []).1 = .error e ∧ errorsIs e apis.ErrFloatingIPNotFound = true :=
  ⟨(getFloatingIPByID_first_enabled _ 42 [] _ rfl).1
      [{ fixtures.testFloatingIp (lit "old") [] with Enabled := false }]
      [fixtures.testFloatingIp (lit "later") []]
      (fixtures.testFloatingIp (lit "test") fixtures.TestServerUUID) rfl (by decide) (by decide)
      (by decide),
   (getFloatingIPByID_first_enabled _ 42 [] _ rfl).2.2 (by decide)⟩

/-- Go `VirtualMachine.setStateData` only issues `GetByUuid` and `ListNetworks`. -/
theorem vm_setStateData_calls {β : Type} (f : warren.ServiceCall → Option β)
    (h1 : ∀ u, f (.GetByUuid u) = none) (h2 : f .ListNetworks = none)
    (net : NetPkg) (c : warren.Client) (server : warren.VirtualMachine)
    (data : resources.VirtualMachineModel) (tr : warren.Trace) :
    (resources.VirtualMachine.setStateData net c server data tr).2.filterMap f
      = tr.filterMap f := by
  have h := getNetworkFromServerUUID_calls f h1 h2 net c server.Uuid tr
  unfold resources.VirtualMachine.setStateData
  simp only []
  split
  · rename_i network tr1 heq
    rw [heq] at h
    exact h
  · rename_i err tr1 heq
    rw [heq] at h
    exact h

/-- The `CreateVirtualMachine` calls of `VirtualMachine.Create`: exactly one,
with the request built from the plan, when the request can be built, and no
call at all when marshalling the cloud-init text fails. -/
theorem vm_Create_calls (net : NetPkg) (c : warren.Client) (seededRand : Nat → Nat)
    (jsonMarshal : List GoString → Except GoError GoString)
    (data : resources.VirtualMachineModel) (tr : warren.Trace) :
    (∀ req, resources.VirtualMachine.Create.createReq seededRand jsonMarshal data = .ok req →
      createVirtualMachineCalls (resources.VirtualMachine.Create net c seededRand jsonMarshal
        data tr).2 = createVirtualMachineCalls tr ++ [req]) ∧
    (∀ err, resources.VirtualMachine.Create.createReq seededRand jsonMarshal data = .error err →
      (resources.VirtualMachine.Create net c seededRand jsonMarshal data tr).2 = tr) := by
  constructor
  · intro req hreq
    unfold resources.VirtualMachine.Create
    rw [hreq]
    simp only [warren.VirtualMachineService.CreateVirtualMachine]
    cases c.CreateVirtualMachine tr req with
    | error e => simp [createVirtualMachineCalls]
    | ok server =>
      simp only []
      unfold createVirtualMachineCalls
      rw [vm_setStateData_calls _ (fun _ => rfl) rfl]
      simp
  · intro err hreq
    unfold resources.VirtualMachine.Create
    rw [hreq]

/-- The request of `VirtualMachine.Create` can be built whenever no cloud-init
text is configured or the configured text can be rendered. -/
theorem vm_createReq_ok (seededRand : Nat → Nat)
    (jsonMarshal : List GoString → Except GoError GoString)
    (data : resources.VirtualMachineModel)
    (h : data.CloudInit.IsNull = true ∨
      ∃ s, resources.VirtualMachine.Create.cloudInit jsonMarshal data.CloudInit.ValueString
        = .ok s) :
    ∃ req, resources.VirtualMachine.Create.createReq seededRand jsonMarshal data = .ok req := by
  unfold resources.VirtualMachine.Create.createReq
  simp only []
  by_cases hn : data.CloudInit.IsNull = true
  · simp only [hn, Bool.not_true, Bool.false_eq_true, if_false]
    exact ⟨_, rfl⟩
  · have hn2 : data.CloudInit.IsNull = false := by simpa using hn
    rcases h with h | ⟨s, hs⟩
    · exact absurd h hn
    · simp only [hn2, Bool.not_false, if_true, hs]
      exact ⟨_, rfl⟩

/-- C29: the password generated by `VirtualMachine.Create` has, for every
sequence of random draws, exactly 32 bytes, each a printable ASCII code point
in 32..125, and it ends in a lowercase letter, an uppercase letter and a
decimal digit, in that order. The request built from the plan carries the
generated password when the configured password is empty and a configured
non-empty password unchanged, and `VirtualMachine.Create` sends exactly that
request in its one `CreateVirtualMachine` call: whenever the request can be
built (no cloud-init text, or one that can be rendered), the call issued by
`Create` carries, for an empty configured password, the generated password
with the shape above, and otherwise the configured password. -/
theorem generated_password_shape (seededRand : Nat → Nat) :
    (resources.VirtualMachine.Create.generatePassword seededRand).length = 32 ∧
    (∀ b ∈ resources.VirtualMachine.Create.generatePassword seededRand, 32 ≤ b ∧ b ≤ 125) ∧
    (∃ (pre : GoString) (lower upper digit : Nat),
      resources.VirtualMachine.Create.generatePassword seededRand = pre ++ [lower, upper, digit] ∧
      pre.length = 29 ∧ 97 ≤ lower ∧ lower ≤ 122 ∧ 65 ≤ upper ∧ upper ≤ 90 ∧
      48 ≤ digit ∧ digit ≤ 57) ∧
    (∀ (jsonMarshal : List GoString → Except GoError GoString)
        (data : resources.VirtualMachineModel) (req : warren.CreateVirtualMachineRequest),
      resources.VirtualMachine.Create.createReq seededRand jsonMarshal data = .ok req →
      (data.Password.ValueString = [] →
        req.Password = some (resources.VirtualMachine.Create.generatePassword seededRand)) ∧
      (data.Password.ValueString ≠ [] → req.Password = some data.Password.ValueString)) ∧
    (∀ (net : NetPkg) (c : warren.Client)
        (jsonMarshal : List GoString → Except GoError GoString)
        (data : resources.VirtualMachineModel) (tr : warren.Trace),
      (data.CloudInit.IsNull = true ∨
        ∃ s, resources.VirtualMachine.Create.cloudInit jsonMarshal data.CloudInit.ValueString
          = .ok s) →
      ∃ (req : warren.CreateVirtualMachineRequest) (password : GoString),
        createVirtualMachineCalls
          (resources.VirtualMachine.Create net c seededRand jsonMarshal data tr).2
          = createVirtualMachineCalls tr ++ [req] ∧
        req.Password = some password ∧
        (data.Password.ValueString = [] →
          password = resources.VirtualMachine.Create.generatePassword seededRand ∧
          password.length = 32 ∧
          (∀ b ∈ password, 32 ≤ b ∧ b ≤ 125) ∧
          ∃ (pre : GoString) (lower upper digit : Nat),
            password = pre ++ [lower, upper, digit] ∧
            97 ≤ lower ∧ lower ≤ 122 ∧ 65 ≤ upper ∧ upper ≤ 90 ∧ 48 ≤ digit ∧ digit ≤ 57) ∧
        (data.Password.ValueString ≠ [] → password = data.Password.ValueString)) := by
  have first : (resources.VirtualMachine.Create.generatePassword seededRand).length = 32 ∧
      (∀ b ∈ resources.VirtualMachine.Create.generatePassword seededRand, 32 ≤ b ∧ b ≤ 125) ∧
      (∃ (pre : GoString) (lower upper digit : Nat),
        resources.VirtualMachine.Create.generatePassword seededRand
          = pre ++ [lower, upper, digit] ∧
        pre.length = 29 ∧ 97 ≤ lower ∧ lower ≤ 122 ∧ 65 ≤ upper ∧ upper ≤ 90 ∧
        48 ≤ digit ∧ digit ≤ 57) ∧
      (∀ (jsonMarshal : List GoString → Except GoError GoString)
          (data : resources.VirtualMachineModel) (req : warren.CreateVirtualMachineRequest),
        resources.VirtualMachine.Create.createReq seededRand jsonMarshal data = .ok req →
        (data.Password.ValueString = [] →
          req.Password = some (resources.VirtualMachine.Create.generatePassword seededRand)) ∧
        (data.Password.ValueString ≠ [] → req.Password = some data.Password.ValueString)) := by
    refine ⟨?_, ?_, ?_, ?_⟩
    · simp [resources.VirtualMachine.Create.generatePassword, resources.warrenPasswordGeneratedLength]
    · intro b hb
      simp only [resources.VirtualMachine.Create.generatePassword,
        resources.warrenPasswordGeneratedLength, List.mem_append, List.mem_map, List.mem_range,
        List.mem_cons, List.mem_singleton, List.not_mem_nil, or_false] at hb
      rcases hb with ⟨i, _, rfl⟩ | rfl | rfl | rfl <;> omega
    · refine ⟨_, _, _, _, rfl, ?_, ?_⟩
      · simp [resources.warrenPasswordGeneratedLength]
      · simp only [resources.warrenPasswordGeneratedLength]
        omega
    · intro jsonMarshal data req hreq
      unfold resources.VirtualMachine.Create.createReq at hreq
      simp only [] at hreq
      constructor
      · intro hp
        split at hreq
        · split at hreq
          · cases hreq
          · cases hreq
            simp [hp]
        · cases hreq
          simp [hp]
      · intro hp
        split at hreq
        · split at hreq
          · cases hreq
          · cases hreq
            simp [hp]
        · cases hreq
          simp [hp]
  obtain ⟨hlen, hrange, hshape, hreqpw⟩ := first
  refine ⟨hlen, hrange, hshape, hreqpw, ?_⟩
  intro net c jsonMarshal data tr hci
  obtain ⟨req, hreq⟩ := vm_createReq_ok seededRand jsonMarshal data hci
  have hcalls := (vm_Create_calls net c seededRand jsonMarshal data tr).1 req hreq
  obtain ⟨hgen, hconf⟩ := hreqpw jsonMarshal data req hreq
  by_cases hp : data.Password.ValueString = []
  · refine ⟨req, _, hcalls, hgen hp, fun _ => ⟨rfl, hlen, hrange, ?_⟩, fun h => absurd hp h⟩
    obtain ⟨pre, lower, upper, digit, he, _, hr⟩ := hshape
    exact ⟨pre, lower, upper, digit, he, hr⟩
  · exact ⟨req, _, hcalls, hconf hp, fun h => absurd h hp, fun _ => rfl⟩

/-- The virtual machine test: `Create` on the mock platform with the test
plan, which has no password, issues one `CreateVirtualMachine` call, and the
password it carries is the generated one, 32 bytes that end in "yF0" for the
sample draws; with the password "s3cret" configured the call carries
"s3cret". -/
theorem generated_password_shape_witness :
    (∃ (req : warren.CreateVirtualMachineRequest) (password : GoString),
      createVirtualMachineCalls
        (resources.VirtualMachine.Create fixtures.netIPv4 fixtures.vmPlatform fixtures.seededRand
          fixtures.jsonMarshal fixtures.vmPlan []).2 = [req] ∧
      req.Password = some password ∧
      password = [35, 42, 49, 56, 63, 70, 77, 84, 91, 98, 105, 112, 119, 32, 39, 46, 53, 60, 67,
        74, 81, 88, 95, 102, 109, 116, 123, 36, 43, 121, 70, 48] ∧
      password.length = 32) ∧
    (∃ (req : warren.CreateVirtualMachineRequest),
      createVirtualMachineCalls
        (resources.VirtualMachine.Create fixtures.netIPv4 fixtures.vmPlatform fixtures.seededRand
          fixtures.jsonMarshal { fixtures.vmPlan with Password := .value (lit "s3cret") } []).2
        = [req] ∧
      req.Password = some (lit "s3cret")) := by
  constructor
  · obtain ⟨req, password, hcalls, hpw, hgen, _⟩ :=
      (generated_password_shape fixtures.seededRand).2.2.2.2 fixtures.netIPv4 fixtures.vmPlatform
        fixtures.jsonMarshal fixtures.vmPlan [] (Or.inl (by decide))
    obtain ⟨he, hlen, _, _⟩ := hgen (by decide)
    refine ⟨req, password, hcalls, hpw, ?_, hlen⟩
    rw [he]
    decide
  · obtain ⟨req, password, hcalls, hpw, _, hconf⟩ :=
      (generated_password_shape fixtures.seededRand).2.2.2.2 fixtures.netIPv4 fixtures.vmPlatform
        fixtures.jsonMarshal { fixtures.vmPlan with Password := .value (lit "s3cret") } []
        (Or.inl (by decide))
    have hp := hconf (by decide)
    refine ⟨req, hcalls, ?_⟩
    rw [hpw, hp]
    rfl

/-- C30 (counterexample). A server whose `billing_account` is 2^63 and whose `user_id` is 2^64 - 1
gets the state values -2^63 and -1. -/
theorem vm_state_wraps_large_uint64 :
    (resources.VirtualMachine.setStateData fixtures.netIPv4 fixtures.emptyPlatform
        { fixtures.testServer (lit "10.42.0.1") with
          BillingAccount := 9223372036854775808, UserId := 18446744073709551615 }
        fixtures.vmPlan []).1.BillingAccount = .value (-9223372036854775808) ∧
    (resources.VirtualMachine.setStateData fixtures.netIPv4 fixtures.emptyPlatform
        { fixtures.testServer (lit "10.42.0.1") with
          BillingAccount := 9223372036854775808, UserId := 18446744073709551615 }
        fixtures.vmPlan []).1.UserID = .value (-1) ∧
    ((-9223372036854775808 : Int) ≠ ((9223372036854775808 : Nat) : Int)) ∧
    ((-1 : Int) ≠ ((18446744073709551615 : Nat) : Int)) := by
  decide

/-- C30, as the code has it: `VirtualMachine.setStateData` stores
`billing_account` and `user_id` through the conversion `int64(x)` of the
`uint64` wire value. For a wire value below 2^63 the state value is that
number; for a wire value from 2^63 up to 2^64 - 1 the state value is the wire
value minus 2^64, a negative number. -/
theorem vm_state_uint64_fields (net : NetPkg) (c : warren.Client)
    (server : warren.VirtualMachine) (data : resources.VirtualMachineModel) (tr : warren.Trace) :
    (server.BillingAccount < 2 ^ 63 →
      (resources.VirtualMachine.setStateData net c server data tr).1.BillingAccount
        = .value (server.BillingAccount : Int)) ∧
    (server.UserId < 2 ^ 63 →
      (resources.VirtualMachine.setStateData net c server data tr).1.UserID
        = .value (server.UserId : Int)) ∧
    (2 ^ 63 ≤ server.BillingAccount → server.BillingAccount < 2 ^ 64 →
      (resources.VirtualMachine.setStateData net c server data tr).1.BillingAccount
        = .value ((server.BillingAccount : Int) - 2 ^ 64)) ∧
    (2 ^ 63 ≤ server.UserId → server.UserId < 2 ^ 64 →
      (resources.VirtualMachine.setStateData net c server data tr).1.UserID
        = .value ((server.UserId : Int) - 2 ^ 64)) := by
  have h := vm_setStateData_fields net c server data tr
  have lo : ∀ x : Nat, x < 2 ^ 63 → int64OfUint64 x = (x : Int) := by
    intro x hx
    have h64 : x < 2 ^ 64 := by
      have : (2 : Nat) ^ 63 < 2 ^ 64 := by norm_num
      omega
    unfold int64OfUint64
    rw [Nat.mod_eq_of_lt h64, if_pos hx]
  have hi : ∀ x : Nat, 2 ^ 63 ≤ x → x < 2 ^ 64 → int64OfUint64 x = (x : Int) - 2 ^ 64 := by
    intro x hx h64
    unfold int64OfUint64
    rw [Nat.mod_eq_of_lt h64, if_neg (by omega)]
  refine ⟨fun hb => ?_, fun hu => ?_, fun hb hb2 => ?_, fun hu hu2 => ?_⟩
  · rw [h.2.1, lo _ hb]
  · rw [h.2.2.2.2.2.2.2.2.2.2.2.2.2.2.1, lo _ hu]
  · rw [h.2.1, hi _ hb hb2]
  · rw [h.2.2.2.2.2.2.2.2.2.2.2.2.2.2.1, hi _ hu hu2]

/-- The test server (billing account 6, user 8) keeps both numbers, and a
server with both fields at 2^63 gets 2^63 - 2^64 for both. -/
theorem vm_state_uint64_fields_witness :
    ((resources.VirtualMachine.setStateData fixtures.netIPv4 fixtures.emptyPlatform
        (fixtures.testServer (lit "10.42.0.1")) fixtures.vmPlan []).1.BillingAccount
        = .value ((fixtures.testServer (lit "10.42.0.1")).BillingAccount : Int) ∧
      (resources.VirtualMachine.setStateData fixtures.netIPv4 fixtures.emptyPlatform
        (fixtures.testServer (lit "10.42.0.1")) fixtures.vmPlan []).1.UserID
        = .value ((fixtures.testServer (lit "10.42.0.1")).UserId : Int)) ∧
    ((resources.VirtualMachine.setStateData fixtures.netIPv4 fixtures.emptyPlatform
        { fixtures.testServer (lit "10.42.0.1") with
          BillingAccount := 2 ^ 63, UserId := 2 ^ 63 } fixtures.vmPlan []).1.BillingAccount
        = .value (((2 ^ 63 : Nat) : Int) - 2 ^ 64) ∧
      (resources.VirtualMachine.setStateData fixtures.netIPv4 fixtures.emptyPlatform
        { fixtures.testServer (lit "10.42.0.1") with
          BillingAccount := 2 ^ 63, UserId := 2 ^ 63 } fixtures.vmPlan []).1.UserID
        = .value (((2 ^ 63 : Nat) : Int) - 2 ^ 64)) :=
  ⟨⟨(vm_state_uint64_fields fixtures.netIPv4 fixtures.emptyPlatform
        (fixtures.testServer (lit "10.42.0.1")) fixtures.vmPlan []).1 (by decide),
    (vm_state_uint64_fields fixtures.netIPv4 fixtures.emptyPlatform
        (fixtures.testServer (lit "10.42.0.1")) fixtures.vmPlan []).2.1 (by decide)⟩,
   ⟨(vm_state_uint64_fields fixtures.netIPv4 fixtures.emptyPlatform
        { fixtures.testServer (lit "10.42.0.1") with BillingAccount := 2 ^ 63, UserId := 2 ^ 63 }
        fixtures.vmPlan []).2.2.1 (by decide) (by decide),
    (vm_state_uint64_fields fixtures.netIPv4 fixtures.emptyPlatform
        { fixtures.testServer (lit "10.42.0.1") with BillingAccount := 2 ^ 63, UserId := 2 ^ 63 }
        fixtures.vmPlan []).2.2.2 (by decide) (by decide)⟩⟩

/-- The loop of `NetworkReadData`, started with `isFound` false, stops at the
first network that matches the query and populates the model from it. -/
theorem networkReadData_loop_find (data : pkgwarren.NetworkModel) :
    ∀ networks : List warren.Network,
      pkgwarren.NetworkReadData.loop (data.Name.IsNull && data.UUID.IsNull) networks false data
        = match networks.find? (networkMatches data) with
          | some network => (true, pkgwarren.NetworkSetStateData network data)
          | none => (false, data) := by
  intro networks
  induction networks with
  | nil => rfl
  | cons network rest ih =>
    unfold pkgwarren.NetworkReadData.loop
    simp only [List.find?]
    have key : (if !data.IsDefault.IsNull then
          if !data.IsDefault.Equal (.value network.IsDefault) then false
          else if (data.Name.IsNull && data.UUID.IsNull) then true
          else
            (if !data.UUID.IsNull && data.UUID.Equal (.value network.Uuid) then true
             else if !data.Name.IsNull && data.Name.Equal (.value network.Name) then true
             else false)
        else
          (if !data.UUID.IsNull && data.UUID.Equal (.value network.Uuid) then true
           else if !data.Name.IsNull && data.Name.Equal (.value network.Name) then true
           else false)) = networkMatches data network := by
      unfold networkMatches
      cases data.Name.IsNull <;> cases data.UUID.IsNull <;> cases data.IsDefault.IsNull <;>
        cases data.Name.Equal (.value network.Name) <;>
        cases data.UUID.Equal (.value network.Uuid) <;>
        cases data.IsDefault.Equal (.value network.IsDefault) <;> rfl
    rw [key]
    cases hm : networkMatches data network
    · simp only [Bool.not_false, if_true]
      exact ih
    · simp only [Bool.not_true, Bool.false_eq_true, if_false]

/-- With a successful list call `NetworkReadData` returns nil with the model
populated from the first matching network, or an error with the model as it
was when no network matches. -/
theorem networkReadData_eq (c : warren.Client) (data : pkgwarren.NetworkModel)
    (tr : warren.Trace) (networks : List warren.Network)
    (hl : c.ListNetworks tr = .ok networks) :
    (∀ network, networks.find? (networkMatches data) = some network →
      pkgwarren.NetworkReadData c data tr
        = ((none, pkgwarren.NetworkSetStateData network data), tr ++ [.ListNetworks])) ∧
    (networks.find? (networkMatches data) = none →
      ∃ e, pkgwarren.NetworkReadData c data tr = ((some e, data), tr ++ [.ListNetworks]) ∧
        HasPrefix e.Error (lit "No match found") = true) := by
  have hp : ∀ rest : GoString, HasPrefix (lit "No match found" ++ rest) (lit "No match found")
      = true := by
    intro rest
    unfold HasPrefix
    rw [List.isPrefixOf_iff_prefix]
    exact List.prefix_append _ _
  have e1 : lit "No match found for parameter: " = lit "No match found" ++ lit " for parameter: " := by
    decide
  have e2 : lit "No match found for name: " = lit "No match found" ++ lit " for name: " := by
    decide
  have e3 : lit "No match found for UUID: " = lit "No match found" ++ lit " for UUID: " := by
    decide
  constructor
  · intro network hf
    unfold pkgwarren.NetworkReadData
    simp only [warren.NetworkService.ListNetworks, hl, networkReadData_loop_find, hf]
  · intro hf
    unfold pkgwarren.NetworkReadData
    simp only [warren.NetworkService.ListNetworks, hl, networkReadData_loop_find, hf]
    cases hn : data.Name.IsNull <;> cases hu : data.UUID.IsNull
    · simp only [Bool.and_self, Bool.false_eq_true, if_false, Bool.not_false, if_true]
      exact ⟨_, rfl, by simp only [GoError.Error, e2, List.append_assoc]; exact hp _⟩
    · simp only [Bool.false_and, Bool.false_eq_true, if_false, Bool.not_false, if_true]
      exact ⟨_, rfl, by simp only [GoError.Error, e2, List.append_assoc]; exact hp _⟩
    · simp only [Bool.true_and, Bool.and_false, Bool.false_eq_true, if_false, Bool.not_true,
        Bool.not_false, if_true]
      exact ⟨_, rfl, by simp only [GoError.Error, e3, List.append_assoc]; exact hp _⟩
    · simp only [Bool.and_self, if_true]
      exact ⟨_, rfl, by simp only [GoError.Error, e1, List.append_assoc]; exact hp _⟩

/-- C21: over a successfully listed sequence of networks, `NetworkReadData`
returns nil if and only if some listed network matches the query. It then
populates the model from the first matching network in list order. With no
match it returns an error whose text starts with "No match found" and leaves
the model as it was. A network matches when the name is given and equal or the
UUID is given and equal, and its default flag equals `is_default` if that is
given; with neither name nor UUID given, when `is_default` is given and
equal. -/
theorem networkReadData_first_match (c : warren.Client) (data : pkgwarren.NetworkModel)
    (tr : warren.Trace) (networks : List warren.Network)
    (hl : c.ListNetworks tr = .ok networks) :
    ((pkgwarren.NetworkReadData c data tr).1.1 = none ↔
      ∃ network ∈ networks, networkMatches data network = true) ∧
    (∀ (pre post : List warren.Network) (network : warren.Network),
      networks = pre ++ network :: post → networkMatches data network = true →
      (∀ x ∈ pre, networkMatches data x = false) →
      (pkgwarren.NetworkReadData c data tr).1
        = (none, pkgwarren.NetworkSetStateData network data)) ∧
    ((∀ x ∈ networks, networkMatches data x = false) →
      ∃ e, (pkgwarren.NetworkReadData c data tr).1 = (some e, data) ∧
        HasPrefix e.Error (lit "No match found") = true) := by
  obtain ⟨hsome, hnone⟩ := networkReadData_eq c data tr networks hl
  refine ⟨?_, ?_, ?_⟩
  · cases hf : networks.find? (networkMatches data) with
    | none =>
      obtain ⟨e, he, _⟩ := hnone hf
      rw [he]
      constructor
      · intro h
        cases h
      · intro h
        obtain ⟨x, hx, hm⟩ := h
        have := List.find?_eq_none.mp hf x hx
        exact absurd hm this
    | some network =>
      rw [hsome network hf]
      simp only [true_iff]
      exact ⟨network, List.mem_of_find?_eq_some hf, List.find?_some hf⟩
  · intro pre post network hsplit hm hpre
    have hf : networks.find? (networkMatches data) = some network := by
      rw [hsplit]
      exact find?_of_first _ pre post network hm hpre
    rw [hsome network hf]
  · intro hno
    have hf : networks.find? (networkMatches data) = none := by
      rw [List.find?_eq_none]
      intro x hx
      simp [hno x hx]
    obtain ⟨e, he, hpre⟩ := hnone hf
    exact ⟨e, by rw [he], hpre⟩

/-- The data source test: the query `name = "test"` over a list that holds a
network of another name before the test network yields the test network. -/
theorem networkReadData_first_match_witness :
    (pkgwarren.NetworkReadData
        { fixtures.emptyPlatform with
          ListNetworks := fun _ =>
            .ok [{ fixtures.testNetwork with Name := lit "other" }, fixtures.testNetwork] }
        fixtures.networkByName []).1
      = (none, pkgwarren.NetworkSetStateData fixtures.testNetwork fixtures.networkByName) ∧
    (pkgwarren.NetworkSetStateData fixtures.testNetwork fixtures.networkByName).UUID
      = .value fixtures.TestNetworkUUID :=
  ⟨(networkReadData_first_match _ fixtures.networkByName [] _ rfl).2.1
      [{ fixtures.testNetwork with Name := lit "other" }] [] fixtures.testNetwork rfl
      (by decide) (by decide),
   by decide⟩

/-- C27 (divergence): `NetworkReadData` matches a network by name or by UUID.
Called with a model that carries both, as `Network.Read` calls it with the
prior state, it selects the first listed network of that name whose default
flag fits, whatever its UUID: `Network.Read` then stores the UUID of that
network, not the one passed in. Only with the name null is the stored UUID of
a successful call the UUID passed in. -/
theorem network_read_rebinds_by_name (c : warren.Client) (data : pkgwarren.NetworkModel)
    (tr : warren.Trace) (networks : List warren.Network)
    (hl : c.ListNetworks tr = .ok networks) :
    (∀ (pre post : List warren.Network) (network : warren.Network),
      networks = pre ++ network :: post →
      data.Name = .value network.Name →
      (data.IsDefault = .null ∨ data.IsDefault = .value network.IsDefault) →
      (∀ x ∈ pre, networkMatches data x = false) →
      (pkgwarren.NetworkReadData c data tr).1.1 = none ∧
      (pkgwarren.NetworkReadData c data tr).1.2.UUID = .value network.Uuid ∧
      ∃ m, (resources.Network.Read c data tr).1 = ⟨[], .set m⟩ ∧ m.UUID = .value network.Uuid) ∧
    (∀ u : GoString, data.Name = .null → data.UUID = .value u →
      (pkgwarren.NetworkReadData c data tr).1.1 = none →
      (pkgwarren.NetworkReadData c data tr).1.2.UUID = .value u) := by
  obtain ⟨hsome, hnone⟩ := networkReadData_eq c data tr networks hl
  constructor
  · intro pre post network hsplit hname hdef hpre
    have hm : networkMatches data network = true := by
      unfold networkMatches
      rw [hname]
      rcases hdef with hd | hd <;> rw [hd] <;> simp [Tf.IsNull, Tf.Equal]
    have hf : networks.find? (networkMatches data) = some network := by
      rw [hsplit]
      exact find?_of_first _ pre post network hm hpre
    have hr := hsome network hf
    refine ⟨by rw [hr], by rw [hr]; rfl, ?_⟩
    unfold resources.Network.Read
    rw [hr]
    exact ⟨_, rfl, rfl⟩
  · intro u hname huuid hnil
    cases hf : networks.find? (networkMatches data) with
    | none =>
      obtain ⟨e, he, _⟩ := hnone hf
      rw [he] at hnil
      cases hnil
    | some network =>
      rw [hsome network hf]
      have hm := List.find?_some hf
      unfold networkMatches at hm
      rw [hname, huuid] at hm
      simp only [Tf.IsNull, Tf.Equal, Bool.true_and, Bool.false_eq_true, if_false, Bool.not_true,
        Bool.false_and, Bool.not_false, Bool.false_or, Bool.and_eq_true, decide_eq_true_eq] at hm
      have : u = network.Uuid := Tf.value.inj hm.1
      rw [this]
      rfl

/-- The failing input: the prior state of the test network (id, name "test",
default) is read while the platform lists another network named "test" before
the test network; the state is set to the other network's UUID. With the name
null the same listing keeps the UUID. -/
theorem network_read_rebinds_by_name_witness :
    ((pkgwarren.NetworkReadData
        { fixtures.emptyPlatform with
          ListNetworks := fun _ => .ok [fixtures.otherNetwork, fixtures.testNetwork] }
        fixtures.networkState []).1.1 = none ∧
      (pkgwarren.NetworkReadData
        { fixtures.emptyPlatform with
          ListNetworks := fun _ => .ok [fixtures.otherNetwork, fixtures.testNetwork] }
        fixtures.networkState []).1.2.UUID = .value fixtures.otherNetwork.Uuid ∧
      ∃ m, (resources.Network.Read
        { fixtures.emptyPlatform with
          ListNetworks := fun _ => .ok [fixtures.otherNetwork, fixtures.testNetwork] }
        fixtures.networkState []).1 = ⟨[], .set m⟩ ∧ m.UUID = .value fixtures.otherNetwork.Uuid) ∧
    fixtures.networkState.UUID = .value fixtures.TestNetworkUUID ∧
    fixtures.otherNetwork.Uuid ≠ fixtures.TestNetworkUUID ∧
    (pkgwarren.NetworkReadData
        { fixtures.emptyPlatform with
          ListNetworks := fun _ => .ok [fixtures.otherNetwork, fixtures.testNetwork] }
        { fixtures.networkState with Name := .null } []).1.2.UUID
      = .value fixtures.TestNetworkUUID :=
  ⟨(network_read_rebinds_by_name _ fixtures.networkState [] _ rfl).1 [] [fixtures.testNetwork]
      fixtures.otherNetwork rfl (by decide) (by decide) (by decide),
   by decide, by decide,
   (network_read_rebinds_by_name _ { fixtures.networkState with Name := .null } [] _ rfl).2
      fixtures.TestNetworkUUID (by decide) (by decide) (by decide)⟩

/-- C22: `Disk.Update` issues the minimal calls for re-parenting. If the old
and the new `server_uuid` are equal it issues no call and saves the plan. If
they differ it issues `DetachDisk(old server, disk)` when the old value is
non-null and then, unless that detach failed, `AttachDisk(new server, disk)`
when the new value is non-empty, and nothing else. If the detach fails the
result is the error diagnostic and the state is not saved. -/
theorem disk_update_calls (c : warren.Client) (newData oldData : resources.DiskModel)
    (tr : warren.Trace) :
    (oldData.ServerUUID = newData.ServerUUID →
      resources.Disk.Update c newData oldData tr = (⟨[], .set newData⟩, tr)) ∧
    (oldData.ServerUUID ≠ newData.ServerUUID →
      (resources.Disk.Update c newData oldData tr).2
        = tr ++
          (if oldData.ServerUUID.IsNull then []
           else [.DetachDisk oldData.ServerUUID.ValueString oldData.UUID.ValueString]) ++
          (if (oldData.ServerUUID.IsNull
                ∨ c.DetachDisk tr oldData.ServerUUID.ValueString oldData.UUID.ValueString = none)
              ∧ newData.ServerUUID.ValueString ≠ [] then
             [.AttachDisk newData.ServerUUID.ValueString oldData.UUID.ValueString]
           else []) ∧
      (∀ err, oldData.ServerUUID.IsNull = false →
        c.DetachDisk tr oldData.ServerUUID.ValueString oldData.UUID.ValueString = some err →
        resources.Disk.Update c newData oldData tr
          = (⟨[⟨lit "Disk update error",
                (apis.GetServerErrorFromHttpCallError.nonNil err).Error⟩], .unchanged⟩,
             tr ++ [.DetachDisk oldData.ServerUUID.ValueString oldData.UUID.ValueString]))) := by
  constructor
  · intro heq
    unfold resources.Disk.Update
    simp [Tf.Equal, heq]
  · intro hne
    have hE : oldData.ServerUUID.Equal newData.ServerUUID = false := by
      simp [Tf.Equal, hne]
    constructor
    · unfold resources.Disk.Update
      simp only [hE, Bool.not_false, if_true, warren.VirtualMachineService.DetachDisk,
        warren.VirtualMachineService.AttachDisk]
      cases hnull : oldData.ServerUUID.IsNull
      · simp only [Bool.not_false, if_true, Bool.false_eq_true, if_false, false_or]
        cases hd : c.DetachDisk tr oldData.ServerUUID.ValueString oldData.UUID.ValueString with
        | some err => simp
        | none =>
          simp only [true_and]
          by_cases hn : newData.ServerUUID.ValueString = []
          · simp [hn]
          · simp only [ne_eq, hn, not_false_eq_true, if_true]
            split <;> rename_i heq <;> have h2 := (Prod.mk.inj heq).2 <;> simp [← h2]
      · simp only [Bool.not_true, Bool.false_eq_true, if_false, if_true, true_or, true_and,
          List.append_nil]
        by_cases hn : newData.ServerUUID.ValueString = []
        · simp [hn]
        · simp only [ne_eq, hn, not_false_eq_true, if_true]
          split <;> rename_i heq <;> have h2 := (Prod.mk.inj heq).2 <;> simp [← h2]
    · intro err hnull hd
      unfold resources.Disk.Update
      simp only [hE, hnull, Bool.not_false, if_true, warren.VirtualMachineService.DetachDisk, hd]

/-- Re-parenting the test disk from the test server to another server issues
the detach and then the attach; with a detach that fails only the detach is
issued and the state is not saved; an unchanged parent issues no call. -/
theorem disk_update_calls_witness :
    (resources.Disk.Update fixtures.reparentPlatform
        { fixtures.diskPlan with UUID := .value fixtures.TestDiskUUID }
        { fixtures.diskPlan with UUID := .value fixtures.TestDiskUUID } [.ListVms]
      = (⟨[], .set { fixtures.diskPlan with UUID := .value fixtures.TestDiskUUID }⟩, [.ListVms])) ∧
    ((resources.Disk.Update fixtures.reparentPlatform
        { fixtures.diskPlan with ServerUUID := .value fixtures.OtherServerUUID }
        { fixtures.diskPlan with UUID := .value fixtures.TestDiskUUID } []).2
      = [.DetachDisk fixtures.TestServerUUID fixtures.TestDiskUUID,
         .AttachDisk fixtures.OtherServerUUID fixtures.TestDiskUUID]) ∧
    (resources.Disk.Update fixtures.emptyPlatform
        { fixtures.diskPlan with ServerUUID := .value fixtures.OtherServerUUID }
        { fixtures.diskPlan with UUID := .value fixtures.TestDiskUUID } []
      = (⟨[⟨lit "Disk update error",
            (apis.GetServerErrorFromHttpCallError.nonNil (.plain fixtures.notFoundText)).Error⟩],
          .unchanged⟩,
         [.DetachDisk fixtures.TestServerUUID fixtures.TestDiskUUID])) :=
  ⟨(disk_update_calls fixtures.reparentPlatform
      { fixtures.diskPlan with UUID := .value fixtures.TestDiskUUID }
      { fixtures.diskPlan with UUID := .value fixtures.TestDiskUUID } [.ListVms]).1 rfl,
   ((disk_update_calls fixtures.reparentPlatform
      { fixtures.diskPlan with ServerUUID := .value fixtures.OtherServerUUID }
      { fixtures.diskPlan with UUID := .value fixtures.TestDiskUUID } []).2 (by decide)).1,
   ((disk_update_calls fixtures.emptyPlatform
      { fixtures.diskPlan with ServerUUID := .value fixtures.OtherServerUUID }
      { fixtures.diskPlan with UUID := .value fixtures.TestDiskUUID } []).2 (by decide)).2
      (.plain fixtures.notFoundText) (by decide) (by decide)⟩

/-- C23 (counterexample). The plan of the virtual machine test sets neither
`backup` nor `reserve_public_ip` (the latter is null in the plan), and the
request that `VirtualMachine.Create` builds from it carries both, with the
value false. -/
theorem create_request_sends_unset_flags :
    fixtures.vmPlan.ReservePublicIP = .null ∧
    fixtures.vmPlan.Backup = .unknown ∧
    resources.VirtualMachine.Create.createReq fixtures.seededRand fixtures.jsonMarshal
      fixtures.vmPlan = .ok fixtures.vmCreateRequest ∧
    fixtures.vmCreateRequest.ReservePublicIp = some false ∧
    fixtures.vmCreateRequest.Backup = some false := by
  decide

/-- C23, as the code has it. In the request of `Disk.create` the source image
is present exactly when `source_image_uuid` is non-null, and the source image
type exactly when `source_image_uuid` and `source_image_type` are both
non-null; the form parameters of `CreateDisk` hold the keys `source_image` and
`source_image_type` under the same conditions. In the request of
`VirtualMachine.Create`, `public_key`, `cloud_init` and `source_uuid` are
present exactly when non-null, `network_uuid` exactly when it is neither null
nor unknown, `source_replica` exactly when `source_uuid` and `source_replica`
are both non-null, and `backup` and `reserve_public_ip` are always present,
with the value false when unset. -/
theorem create_request_optional_fields :
    (∀ data : resources.DiskModel,
      (resources.Disk.create.createReq data).SourceImage
        = (if data.SourceImageUUID.IsNull then none else some data.SourceImageUUID.ValueString) ∧
      (resources.Disk.create.createReq data).SourceImageType
        = (if data.SourceImageUUID.IsNull || data.SourceImageType.IsNull then none
           else some data.SourceImageType.ValueString) ∧
      ((lit "source_image" ∈ (warren.BlockStorageService.CreateDisk.params
          (resources.Disk.create.createReq data)).map Prod.fst) ↔
        data.SourceImageUUID.IsNull = false) ∧
      ((lit "source_image_type" ∈ (warren.BlockStorageService.CreateDisk.params
          (resources.Disk.create.createReq data)).map Prod.fst) ↔
        (data.SourceImageUUID.IsNull = false ∧ data.SourceImageType.IsNull = false))) ∧
    (∀ (seededRand : Nat → Nat) (jsonMarshal : List GoString → Except GoError GoString)
        (data : resources.VirtualMachineModel) (req : warren.CreateVirtualMachineRequest),
      resources.VirtualMachine.Create.createReq seededRand jsonMarshal data = .ok req →
      req.Backup = some data.Backup.ValueBool ∧
      req.ReservePublicIp = some data.ReservePublicIP.ValueBool ∧
      (data.Backup.IsNull = true → req.Backup = some false) ∧
      (data.ReservePublicIP.IsNull = true → req.ReservePublicIp = some false) ∧
      req.PublicKey
        = (if data.PublicKey.IsNull then none else some data.PublicKey.ValueString) ∧
      (req.CloudInit.isSome = true ↔ data.CloudInit.IsNull = false) ∧
      req.NetworkUuid
        = (if data.NetworkUUID.IsNull || data.NetworkUUID.IsUnknown then none
           else some data.NetworkUUID.ValueString) ∧
      req.SourceUuid
        = (if data.SourceUUID.IsNull then none else some data.SourceUUID.ValueString) ∧
      req.SourceReplica
        = (if data.SourceUUID.IsNull || data.SourceReplica.IsNull then none
           else some data.SourceReplica.ValueString)) := by
  constructor
  · intro data
    unfold warren.BlockStorageService.CreateDisk.params resources.Disk.create.createReq
    have k1 : lit "source_image" ≠ lit "size_gb" := by decide
    have k2 : lit "source_image" ≠ lit "source_image_type" := by decide
    have k3 : lit "source_image_type" ≠ lit "size_gb" := by decide
    cases data.SourceImageUUID.IsNull <;> cases data.SourceImageType.IsNull <;>
      simp [k1, k2, k3, Ne.symm k2]
  · intro seededRand jsonMarshal data req hreq
    have hb : ∀ t : Tf Bool, t.IsNull = true → t.ValueBool = false := by
      intro t ht
      cases t <;> simp_all [Tf.IsNull, Tf.ValueBool]
    unfold resources.VirtualMachine.Create.createReq at hreq
    simp only [] at hreq
    split at hreq
    · rename_i hci
      split at hreq
      · cases hreq
      · cases hreq
        have hci2 : data.CloudInit.IsNull = false := by simpa using hci
        refine ⟨rfl, rfl, fun h => by simp [hb _ h], fun h => by simp [hb _ h], ?_, ?_, ?_, ?_, ?_⟩
        · cases data.PublicKey.IsNull <;> simp
        · simp [hci2]
        · cases data.NetworkUUID.IsNull <;> cases data.NetworkUUID.IsUnknown <;> simp
        · cases data.SourceUUID.IsNull <;> simp
        · cases data.SourceUUID.IsNull <;> cases data.SourceReplica.IsNull <;> simp
    · rename_i hci
      cases hreq
      have hci2 : data.CloudInit.IsNull = true := by simpa using hci
      refine ⟨rfl, rfl, fun h => by simp [hb _ h], fun h => by simp [hb _ h], ?_, ?_, ?_, ?_, ?_⟩
      · cases data.PublicKey.IsNull <;> simp
      · simp [hci2]
      · cases data.NetworkUUID.IsNull <;> cases data.NetworkUUID.IsUnknown <;> simp
      · cases data.SourceUUID.IsNull <;> simp
      · cases data.SourceUUID.IsNull <;> cases data.SourceReplica.IsNull <;> simp

/-- The request of the test plan: no public key, network, source or
cloud-init, and both flags present with false. -/
theorem create_request_optional_fields_witness :
    fixtures.vmCreateRequest.Backup = some fixtures.vmPlan.Backup.ValueBool ∧
    fixtures.vmCreateRequest.ReservePublicIp = some false ∧
    fixtures.vmCreateRequest.PublicKey
      = (if fixtures.vmPlan.PublicKey.IsNull then none
         else some fixtures.vmPlan.PublicKey.ValueString) ∧
    (fixtures.vmCreateRequest.CloudInit.isSome = true ↔ fixtures.vmPlan.CloudInit.IsNull = false) :=
  ⟨(create_request_optional_fields.2 fixtures.seededRand fixtures.jsonMarshal fixtures.vmPlan
      fixtures.vmCreateRequest (by decide)).1,
   (create_request_optional_fields.2 fixtures.seededRand fixtures.jsonMarshal fixtures.vmPlan
      fixtures.vmCreateRequest (by decide)).2.2.2.1 (by decide),
   (create_request_optional_fields.2 fixtures.seededRand fixtures.jsonMarshal fixtures.vmPlan
      fixtures.vmCreateRequest (by decide)).2.2.2.2.1,
   (create_request_optional_fields.2 fixtures.seededRand fixtures.jsonMarshal fixtures.vmPlan
      fixtures.vmCreateRequest (by decide)).2.2.2.2.2.1⟩

theorem lit_slash : lit "/" = [47] := by decide

/-- Go `strings.Count` of the separator "/" is the number of bytes 47. -/
theorem Count_slash (s : GoString) : Count s (lit "/") = s.count 47 := by
  rw [lit_slash]
  unfold Count
  induction s with
  | nil => rfl
  | cons c cs ih =>
    unfold Count.go
    by_cases hc : c = 47
    · subst hc
      simp only [List.isPrefixOf, beq_self_eq_true, Bool.true_and, if_true, List.length_singleton,
        Nat.sub_self, ih, List.count_cons_self]
      omega
    · have hb : ((47 : Nat) == c) = false := by
        simp only [beq_eq_false_iff_ne, ne_eq]
        exact fun h => hc h.symm
      simp only [List.isPrefixOf, hb, Bool.false_and, Bool.false_eq_true, if_false, ih]
      rw [List.count_cons_of_ne (fun h => hc h.symm)]

theorem Split_go_ne_nil (sep : GoString) : ∀ (s : GoString) (k : Nat), Split.go sep s k ≠ [] := by
  intro s
  induction s with
  | nil => intro k; simp [Split.go]
  | cons c cs ih =>
    intro k
    cases k with
    | succ k => unfold Split.go; exact ih k
    | zero =>
      unfold Split.go
      split
      · simp
      · split <;> simp

/-- One step of `strings.Split` on "/" at a byte that is the separator. -/
theorem Split_slash_cons_sep (cs : GoString) :
    Split.go [47] (47 :: cs) 0 = [] :: Split.go [47] cs 0 := by
  rw [Split.go]
  simp [List.isPrefixOf]

/-- One step of `strings.Split` on "/" at a byte that is not the separator. -/
theorem Split_slash_cons_other (c : Nat) (cs : GoString) (hc : c ≠ 47) :
    ∃ p ps, Split.go [47] cs 0 = p :: ps ∧ Split.go [47] (c :: cs) 0 = (c :: p) :: ps := by
  have hb : ((47 : Nat) == c) = false := by
    simp only [beq_eq_false_iff_ne, ne_eq]
    exact fun h => hc h.symm
  cases hs : Split.go [47] cs 0 with
  | nil => exact absurd hs (Split_go_ne_nil _ _ _)
  | cons p ps =>
    refine ⟨p, ps, rfl, ?_⟩
    rw [Split.go]
    simp only [List.isPrefixOf, hb, Bool.false_and, Bool.false_eq_true, if_false, hs]

/-- Splitting on "/" a text that has a "/" between `a` and `b` gives the
pieces of `a` followed by the pieces of `b`. -/
theorem Split_slash_append (a b : GoString) :
    Split.go [47] (a ++ 47 :: b) 0 = Split.go [47] a 0 ++ Split.go [47] b 0 := by
  induction a with
  | nil =>
    rw [List.nil_append, Split_slash_cons_sep]
    simp [Split.go]
  | cons c cs ih =>
    by_cases hc : c = 47
    · subst hc
      rw [List.cons_append, Split_slash_cons_sep, Split_slash_cons_sep, ih]
      rfl
    · obtain ⟨p, ps, h1, h2⟩ := Split_slash_cons_other c cs hc
      obtain ⟨q, qs, h3, h4⟩ := Split_slash_cons_other c (cs ++ 47 :: b) hc
      rw [List.cons_append, h4, h2]
      rw [ih, h1] at h3
      simp only [List.cons_append, List.cons.injEq] at h3
      rw [← h3.1, ← h3.2]
      rfl

/-- A text without "/" is its own single piece. -/
theorem Split_slash_none (s : GoString) (h : 47 ∉ s) : Split.go [47] s 0 = [s] := by
  induction s with
  | nil => simp [Split.go]
  | cons c cs ih =>
    have hc : c ≠ 47 := fun e => h (by simp [e])
    have hcs : 47 ∉ cs := fun e => h (by simp [e])
    obtain ⟨p, ps, h1, h2⟩ := Split_slash_cons_other c cs hc
    rw [ih hcs] at h1
    simp only [List.cons.injEq] at h1
    rw [h2, ← h1.1, ← h1.2]

theorem Join_cons_cons (c : Nat) (p : GoString) (ps : List GoString) (sep : GoString) :
    Join ((c :: p) :: ps) sep = c :: Join (p :: ps) sep := by
  unfold Join
  simp only []
  induction ps generalizing p with
  | nil => rfl
  | cons q qs ih =>
    simp only [List.foldl_cons, List.cons_append]
    exact ih (p ++ sep ++ q)

theorem Join_nil_cons (p : GoString) (ps : List GoString) :
    Join ([] :: p :: ps) [47] = 47 :: Join (p :: ps) [47] := by
  have h := Join_cons_cons 47 p ps [47]
  unfold Join at h ⊢
  simp only [List.foldl_cons, List.nil_append, List.singleton_append] at h ⊢
  exact h

/-- Joining the pieces of a text with "/" gives the text back. -/
theorem Join_Split_slash (s : GoString) : Join (Split.go [47] s 0) [47] = s := by
  induction s with
  | nil => simp [Split.go, Join]
  | cons c cs ih =>
    by_cases hc : c = 47
    · subst hc
      rw [Split_slash_cons_sep]
      cases hs : Split.go [47] cs 0 with
      | nil => exact absurd hs (Split_go_ne_nil _ _ _)
      | cons p ps =>
        rw [Join_nil_cons, ← hs, ih]
    · obtain ⟨p, ps, h1, h2⟩ := Split_slash_cons_other c cs hc
      rw [h2, Join_cons_cons, ← h1, ih]

/-- The value of `GetClientForTokenAndEndpoint` for a non-empty URL: the
registry is not read, and the client is built from the trimmed URL. -/
theorem getClient_of_nonempty_url {U : Type} (urlParse : GoString → Except GoError U)
    (Getenv : GoString → GoString) (singletons : GoString → Option (warren.ClientHandle U))
    (token url : GoString) (hurl : url ≠ []) :
    apis.GetClientForTokenAndEndpoint urlParse Getenv singletons token url
      = if Count (if slice url (url.length - 1) url.length = lit "/"
            then slice url 0 (url.length - 1) else url) (lit "/") = 3 then
          .ok (apis.getClient urlParse
            (if slice url (url.length - 1) url.length = lit "/"
              then slice url 0 (url.length - 1) else url) token
            (Getenv (lit "WARREN_API_LOCATION")))
        else
          .ok (apis.getClient urlParse
            (Join ((Split (if slice url (url.length - 1) url.length = lit "/"
                then slice url 0 (url.length - 1) else url) (lit "/")).take
              ((Split (if slice url (url.length - 1) url.length = lit "/"
                then slice url 0 (url.length - 1) else url) (lit "/")).length - 1)) (lit "/"))
            token
            ((Split (if slice url (url.length - 1) url.length = lit "/"
                then slice url 0 (url.length - 1) else url) (lit "/")).getD
              ((Split (if slice url (url.length - 1) url.length = lit "/"
                then slice url 0 (url.length - 1) else url) (lit "/")).length - 1) [])) := by
  have hlen : url.length ≠ 0 := fun h => hurl (List.length_eq_zero.mp h)
  have hsplit : ∀ s : GoString, (Split s (lit "/")).length ≠ 0 := by
    intro s h
    exact Split_go_ne_nil _ _ _ (List.length_eq_zero.mp h)
  unfold apis.GetClientForTokenAndEndpoint
  simp only [if_neg hurl, if_neg hlen, hsplit, if_false]

/-- The trailing-slash test of `GetClientForTokenAndEndpoint` on a text that
ends in "/": the last byte is removed. -/
theorem trim_trailing_slash (xs : GoString) :
    (if slice (xs ++ [47]) ((xs ++ [47]).length - 1) (xs ++ [47]).length = lit "/"
      then slice (xs ++ [47]) 0 ((xs ++ [47]).length - 1) else xs ++ [47]) = xs := by
  have e1 : slice (xs ++ [47]) ((xs ++ [47]).length - 1) (xs ++ [47]).length = lit "/" := by
    rw [lit_slash]
    simp [slice]
  rw [if_pos e1]
  simp [slice]

/-- The trailing-slash test on a text that ends in another byte: the text is
kept. -/
theorem trim_no_trailing_slash (xs : GoString) (x : Nat) (hx : x ≠ 47) :
    (if slice (xs ++ [x]) ((xs ++ [x]).length - 1) (xs ++ [x]).length = lit "/"
      then slice (xs ++ [x]) 0 ((xs ++ [x]).length - 1) else xs ++ [x]) = xs ++ [x] := by
  have e1 : slice (xs ++ [x]) ((xs ++ [x]).length - 1) (xs ++ [x]).length ≠ lit "/" := by
    rw [lit_slash]
    simp [slice, hx]
  rw [if_neg e1]

/-- The split branch of `GetClientForTokenAndEndpoint` on `base/loc` where
`loc` has no "/": the last piece is `loc` and the rest joins to `base`. -/
theorem split_last_segment (base loc : GoString) (hloc : 47 ∉ loc) :
    Join ((Split (base ++ 47 :: loc) (lit "/")).take
        ((Split (base ++ 47 :: loc) (lit "/")).length - 1)) (lit "/") = base ∧
    (Split (base ++ 47 :: loc) (lit "/")).getD
        ((Split (base ++ 47 :: loc) (lit "/")).length - 1) [] = loc := by
  rw [lit_slash]
  unfold Split
  rw [Split_slash_append, Split_slash_none loc hloc]
  constructor
  · simp [Join_Split_slash]
  · simp [List.getD]

/-- C24: `GetClientForTokenAndEndpoint` splits a non-empty endpoint URL into
base URL and location. For `base/loc`, with exactly three "/" in `base` and a
non-empty `loc` without "/", the client is built by `getClient` from `base`
and `loc`, also when one trailing "/" follows. For `base` itself with exactly
three "/" and no "/" at its end, also when one trailing "/" follows, the
client is built from `base` and the location of `WARREN_API_LOCATION`. A text
`scheme://host/v1` whose scheme and host have no "/" has exactly three "/".
The client `getClient` builds from a URL that parses has the parsed URL as
base URL, the location as slug and the token. For no non-empty URL does the
function panic. -/
theorem endpoint_url_split {U : Type} (urlParse : GoString → Except GoError U)
    (Getenv : GoString → GoString) (singletons : GoString → Option (warren.ClientHandle U))
    (token : GoString) :
    (∀ url : GoString, url ≠ [] →
      ∃ r, apis.GetClientForTokenAndEndpoint urlParse Getenv singletons token url = .ok r) ∧
    (∀ base loc : GoString, Count base (lit "/") = 3 → loc ≠ [] → 47 ∉ loc →
      apis.GetClientForTokenAndEndpoint urlParse Getenv singletons token
          (base ++ lit "/" ++ loc) = .ok (apis.getClient urlParse base token loc) ∧
      apis.GetClientForTokenAndEndpoint urlParse Getenv singletons token
          (base ++ lit "/" ++ loc ++ lit "/") = .ok (apis.getClient urlParse base token loc)) ∧
    (∀ base : GoString, Count base (lit "/") = 3 → base.getLast? ≠ some 47 →
      apis.GetClientForTokenAndEndpoint urlParse Getenv singletons token base
        = .ok (apis.getClient urlParse base token (Getenv (lit "WARREN_API_LOCATION"))) ∧
      apis.GetClientForTokenAndEndpoint urlParse Getenv singletons token (base ++ lit "/")
        = .ok (apis.getClient urlParse base token (Getenv (lit "WARREN_API_LOCATION")))) ∧
    (∀ scheme host : GoString, 47 ∉ scheme → 47 ∉ host →
      Count (scheme ++ lit "://" ++ host ++ lit "/v1") (lit "/") = 3) ∧
    (∀ (base loc : GoString) (u : U), urlParse base = .ok u →
      apis.getClient urlParse base token loc
        = some { BaseURL := u, LocationSlug := loc, ApiToken := token }) := by
  have hsplitcase : ∀ base loc : GoString, Count base (lit "/") = 3 → loc ≠ [] → 47 ∉ loc →
      (if Count (base ++ 47 :: loc) (lit "/") = 3 then
          (.ok (apis.getClient urlParse (base ++ 47 :: loc) token
            (Getenv (lit "WARREN_API_LOCATION"))) : Except Panic _)
        else
          .ok (apis.getClient urlParse
            (Join ((Split (base ++ 47 :: loc) (lit "/")).take
              ((Split (base ++ 47 :: loc) (lit "/")).length - 1)) (lit "/")) token
            ((Split (base ++ 47 :: loc) (lit "/")).getD
              ((Split (base ++ 47 :: loc) (lit "/")).length - 1) []))) =
      .ok (apis.getClient urlParse base token loc) := by
    intro base loc hbase _ hloc
    have hc : Count (base ++ 47 :: loc) (lit "/") ≠ 3 := by
      rw [Count_slash] at hbase ⊢
      rw [List.count_append, List.count_cons_self, List.count_eq_zero_of_not_mem hloc, hbase]
      decide
    rw [if_neg hc, (split_last_segment base loc hloc).1, (split_last_segment base loc hloc).2]
  refine ⟨?_, ?_, ?_, ?_, ?_⟩
  · intro url hurl
    rw [getClient_of_nonempty_url urlParse Getenv singletons token url hurl]
    generalize (if slice url (url.length - 1) url.length = lit "/"
      then slice url 0 (url.length - 1) else url) = url2
    by_cases hc : Count url2 (lit "/") = 3
    · rw [if_pos hc]
      exact ⟨_, rfl⟩
    · rw [if_neg hc]
      exact ⟨_, rfl⟩
  · intro base loc hbase hne hloc
    obtain ⟨ys, y, rfl⟩ : ∃ ys y, loc = ys ++ [y] :=
      ⟨loc.dropLast, loc.getLast hne, (List.dropLast_append_getLast hne).symm⟩
    have hy : y ≠ 47 := fun e => hloc (by simp [e])
    constructor
    · have e : base ++ lit "/" ++ (ys ++ [y]) = (base ++ 47 :: ys) ++ [y] := by
        rw [lit_slash]; simp
      rw [getClient_of_nonempty_url urlParse Getenv singletons token _ (by simp), e,
        trim_no_trailing_slash _ y hy]
      have e2 : (base ++ 47 :: ys) ++ [y] = base ++ 47 :: (ys ++ [y]) := by simp
      rw [e2]
      exact hsplitcase base (ys ++ [y]) hbase hne hloc
    · have e : base ++ lit "/" ++ (ys ++ [y]) ++ lit "/" = (base ++ 47 :: (ys ++ [y])) ++ [47] := by
        rw [lit_slash]; simp
      rw [getClient_of_nonempty_url urlParse Getenv singletons token _ (by simp [lit_slash]), e,
        trim_trailing_slash]
      exact hsplitcase base (ys ++ [y]) hbase hne hloc
  · intro base hbase hlast
    have hne : base ≠ [] := by
      intro e
      rw [e, Count_slash] at hbase
      simp at hbase
    constructor
    · obtain ⟨xs, x, rfl⟩ : ∃ xs x, base = xs ++ [x] :=
        ⟨base.dropLast, base.getLast hne, (List.dropLast_append_getLast hne).symm⟩
      have hx : x ≠ 47 := by
        intro e
        apply hlast
        simp [e]
      rw [getClient_of_nonempty_url urlParse Getenv singletons token _ hne,
        trim_no_trailing_slash _ x hx, if_pos hbase]
    · have e : base ++ lit "/" = base ++ [47] := by rw [lit_slash]
      rw [getClient_of_nonempty_url urlParse Getenv singletons token _ (by simp [lit_slash]), e,
        trim_trailing_slash, if_pos hbase]
  · intro scheme host hs hh
    have e1 : lit "://" = [58, 47, 47] := by decide
    have e2 : lit "/v1" = [47, 118, 49] := by decide
    rw [Count_slash, e1, e2]
    simp only [List.count_append, List.count_eq_zero_of_not_mem hs,
      List.count_eq_zero_of_not_mem hh]
    decide
  · intro base loc u hu
    unfold apis.getClient warren.NewClientFromBuilder
    by_cases hl : loc = []
    · simp [hl, hu]
    · simp [hl, hu]

/-- The endpoint of the test environment, "http://127.0.0.1:8080/v1/cyc01",
gives a client with base URL "http://127.0.0.1:8080/v1" and location "cyc01";
"http://127.0.0.1:8080/v1" gives the location of the environment. -/
theorem endpoint_url_split_witness :
    apis.GetClientForTokenAndEndpoint fixtures.urlParse fixtures.Getenv fixtures.noClients
        (lit "dummy-token") (lit "http://127.0.0.1:8080/v1" ++ lit "/" ++ lit "cyc01")
      = .ok (apis.getClient fixtures.urlParse (lit "http://127.0.0.1:8080/v1")
          (lit "dummy-token") (lit "cyc01")) ∧
    apis.getClient fixtures.urlParse (lit "http://127.0.0.1:8080/v1") (lit "dummy-token")
        (lit "cyc01")
      = some { BaseURL := lit "http://127.0.0.1:8080/v1", LocationSlug := lit "cyc01",
               ApiToken := lit "dummy-token" } ∧
    lit "http://127.0.0.1:8080/v1" ++ lit "/" ++ lit "cyc01" = fixtures.mockApiUrl ∧
    apis.GetClientForTokenAndEndpoint fixtures.urlParse fixtures.Getenv fixtures.noClients
        (lit "dummy-token") (lit "http://127.0.0.1:8080/v1")
      = .ok (apis.getClient fixtures.urlParse (lit "http://127.0.0.1:8080/v1")
          (lit "dummy-token") (fixtures.Getenv (lit "WARREN_API_LOCATION"))) ∧
    Count (lit "http" ++ lit "://" ++ lit "127.0.0.1:8080" ++ lit "/v1") (lit "/") = 3 ∧
    (∃ r, apis.GetClientForTokenAndEndpoint fixtures.urlParse fixtures.Getenv fixtures.noClients
        (lit "dummy-token") (lit "/") = .ok r) :=
  ⟨((endpoint_url_split fixtures.urlParse fixtures.Getenv fixtures.noClients
      (lit "dummy-token")).2.1 (lit "http://127.0.0.1:8080/v1") (lit "cyc01") (by decide)
      (by decide) (by decide)).1,
   (endpoint_url_split fixtures.urlParse fixtures.Getenv fixtures.noClients
      (lit "dummy-token")).2.2.2.2 (lit "http://127.0.0.1:8080/v1") (lit "cyc01")
      (lit "http://127.0.0.1:8080/v1") rfl,
   by decide,
   ((endpoint_url_split fixtures.urlParse fixtures.Getenv fixtures.noClients
      (lit "dummy-token")).2.2.1 (lit "http://127.0.0.1:8080/v1") (by decide) (by decide)).1,
   (endpoint_url_split fixtures.urlParse fixtures.Getenv fixtures.noClients
      (lit "dummy-token")).2.2.2.1 (lit "http") (lit "127.0.0.1:8080") (by decide) (by decide),
   (endpoint_url_split fixtures.urlParse fixtures.Getenv fixtures.noClients
      (lit "dummy-token")).1 (lit "/") (by decide)⟩

/-- The loop of `Location.Read`, started with `isFound` false, stops at the
first location that passes the selection test and populates the model from
it. -/
theorem locationRead_loop_find (data : data_sources.LocationModel) :
    ∀ locations : List warren.Location,
      data_sources.Location.Read.loop (data.DisplayName.IsNull && data.Slug.IsNull) locations
          false data
        = match locations.find? (locationSelected data) with
          | some location => (true, locationPopulated data location)
          | none => (false, data) := by
  intro locations
  induction locations with
  | nil => rfl
  | cons location rest ih =>
    unfold data_sources.Location.Read.loop
    simp only [List.find?]
    have key : (if !data.IsPreferred.IsNull then
          if !data.IsPreferred.Equal (.value location.IsPreferred) then false
          else if (data.DisplayName.IsNull && data.Slug.IsNull) then true
          else
            (if !data.IsDefault.IsNull then
              if !data.IsDefault.Equal (.value location.IsDefault) then false
              else if (data.DisplayName.IsNull && data.Slug.IsNull) then true
              else
                (if !data.Slug.IsNull && data.Slug.Equal (.value location.Slug) then true
                 else if !data.DisplayName.IsNull
                    && data.DisplayName.Equal (.value location.DisplayName) then true
                 else false)
            else
              (if !data.Slug.IsNull && data.Slug.Equal (.value location.Slug) then true
               else if !data.DisplayName.IsNull
                  && data.DisplayName.Equal (.value location.DisplayName) then true
               else false))
        else
          (if !data.IsDefault.IsNull then
            if !data.IsDefault.Equal (.value location.IsDefault) then false
            else if (data.DisplayName.IsNull && data.Slug.IsNull) then true
            else
              (if !data.Slug.IsNull && data.Slug.Equal (.value location.Slug) then true
               else if !data.DisplayName.IsNull
                  && data.DisplayName.Equal (.value location.DisplayName) then true
               else false)
          else
            (if !data.Slug.IsNull && data.Slug.Equal (.value location.Slug) then true
             else if !data.DisplayName.IsNull
                && data.DisplayName.Equal (.value location.DisplayName) then true
             else false))) = locationSelected data location := by
      unfold locationSelected
      cases data.DisplayName.IsNull <;> cases data.Slug.IsNull <;>
        cases data.IsDefault.IsNull <;> cases data.IsPreferred.IsNull <;>
        cases data.DisplayName.Equal (.value location.DisplayName) <;>
        cases data.Slug.Equal (.value location.Slug) <;>
        cases data.IsDefault.Equal (.value location.IsDefault) <;>
        cases data.IsPreferred.Equal (.value location.IsPreferred) <;> rfl
    rw [key]
    cases hm : locationSelected data location
    · simp only [Bool.not_false, if_true]
      exact ih
    · simp only [Bool.not_true, Bool.false_eq_true, if_false]
      rfl

/-- With a successful list call `Location.Read` stores the model populated
from the first selected location; when none is selected it stores nothing,
and it adds a diagnostic exactly when a display name or a slug is given. -/
theorem locationRead_eq (c : warren.Client) (data : data_sources.LocationModel)
    (tr : warren.Trace) (locations : List warren.Location)
    (hl : c.ListLocations tr = .ok locations) :
    (∀ location, locations.find? (locationSelected data) = some location →
      data_sources.Location.Read c data tr
        = (.ok ⟨[], .set (locationPopulated data location)⟩, tr ++ [.ListLocations])) ∧
    (locations.find? (locationSelected data) = none →
      ∃ diagnostics, data_sources.Location.Read c data tr
          = (.ok ⟨diagnostics, .unchanged⟩, tr ++ [.ListLocations]) ∧
        (diagnostics = [] ↔ (data.DisplayName.IsNull = true ∧ data.Slug.IsNull = true))) := by
  constructor
  · intro location hf
    unfold data_sources.Location.Read
    simp only [warren.LocationService.ListLocations, hl, locationRead_loop_find, hf]
  · intro hf
    unfold data_sources.Location.Read
    simp only [warren.LocationService.ListLocations, hl, locationRead_loop_find, hf]
    refine ⟨_, rfl, ?_⟩
    cases data.DisplayName.IsNull <;> cases data.Slug.IsNull <;> simp

/-- C28 (divergence): what `Location.Read` does over a successfully listed
sequence. With a display name or an id given, the location written to state
satisfies every flag given, and an error diagnostic is added when none is
selected. With neither given, a given `is_preferred` decides alone: the first
location whose preferred flag equals it is written to state whatever
`is_default` asks for; and when no location is selected no diagnostic is
added and no state is written. -/
theorem location_read_flag_filters (c : warren.Client) (data : data_sources.LocationModel)
    (tr : warren.Trace) (locations : List warren.Location)
    (hl : c.ListLocations tr = .ok locations) :
    ((data.DisplayName.IsNull = false ∨ data.Slug.IsNull = false) →
      (∀ m, (data_sources.Location.Read c data tr).1 = .ok ⟨[], .set m⟩ →
        ∃ location ∈ locations, m = locationPopulated data location ∧
          (data.IsDefault.IsNull = false → data.IsDefault = .value location.IsDefault) ∧
          (data.IsPreferred.IsNull = false → data.IsPreferred = .value location.IsPreferred)) ∧
      (∀ diagnostics state, (data_sources.Location.Read c data tr).1 = .ok ⟨diagnostics, state⟩ →
        (∀ m, state ≠ .set m) → diagnostics ≠ [])) ∧
    (∀ (pre post : List warren.Location) (location : warren.Location),
      data.DisplayName = .null → data.Slug = .null →
      locations = pre ++ location :: post →
      data.IsPreferred = .value location.IsPreferred →
      (∀ x ∈ pre, x.IsPreferred ≠ location.IsPreferred) →
      (data_sources.Location.Read c data tr).1
          = .ok ⟨[], .set (locationPopulated data location)⟩ ∧
        (locationPopulated data location).IsDefault = .value location.IsDefault) ∧
    (data.DisplayName = .null → data.Slug = .null →
      (∀ x ∈ locations, locationSelected data x = false) →
      (data_sources.Location.Read c data tr).1 = .ok ⟨[], .unchanged⟩) := by
  obtain ⟨hsome, hnone⟩ := locationRead_eq c data tr locations hl
  refine ⟨?_, ?_, ?_⟩
  · intro hkey
    have hpo : (data.DisplayName.IsNull && data.Slug.IsNull) = false := by
      rcases hkey with h | h <;> simp [h]
    constructor
    · intro m hm
      cases hf : locations.find? (locationSelected data) with
      | none =>
        obtain ⟨d, hd, _⟩ := hnone hf
        rw [hd] at hm
        simp at hm
      | some location =>
        rw [hsome location hf] at hm
        simp only [Except.ok.injEq, Response.mk.injEq, StateChange.set.injEq, true_and] at hm
        refine ⟨location, List.mem_of_find?_eq_some hf, hm.symm, ?_, ?_⟩
        · intro hd
          have hs := List.find?_some hf
          unfold locationSelected at hs
          simp only [hpo, Bool.false_eq_true, if_false, hd, Bool.false_or, Bool.and_eq_true,
            Tf.Equal, decide_eq_true_eq] at hs
          exact hs.1.2
        · intro hp
          have hs := List.find?_some hf
          unfold locationSelected at hs
          simp only [hpo, Bool.false_eq_true, if_false, hp, Bool.false_or, Bool.and_eq_true,
            Tf.Equal, decide_eq_true_eq] at hs
          exact hs.2
    · intro diagnostics state hres hstate
      cases hf : locations.find? (locationSelected data) with
      | none =>
        obtain ⟨d, hd, hiff⟩ := hnone hf
        rw [hd] at hres
        simp only [Except.ok.injEq, Response.mk.injEq] at hres
        rw [← hres.1]
        intro hnil
        have := hiff.mp hnil
        rcases hkey with h | h
        · rw [this.1] at h; cases h
        · rw [this.2] at h; cases h
      | some location =>
        rw [hsome location hf] at hres
        simp only [Except.ok.injEq, Response.mk.injEq] at hres
        exact absurd hres.2.symm (hstate _)
  · intro pre post location hdn hslug hsplit hpref hpre
    have hsel : ∀ x : warren.Location,
        locationSelected data x = decide (x.IsPreferred = location.IsPreferred) := by
      intro x
      unfold locationSelected
      rw [hdn, hslug, hpref]
      simp only [Tf.IsNull, Bool.and_self, if_true, Bool.not_false, Tf.Equal, Tf.value.injEq]
      by_cases hx : x.IsPreferred = location.IsPreferred
      · simp [hx]
      · have hx2 : ¬ location.IsPreferred = x.IsPreferred := fun h => hx h.symm
        simp [hx, hx2]
    have hf : locations.find? (locationSelected data) = some location := by
      rw [hsplit]
      apply find?_of_first
      · rw [hsel]; simp
      · intro y hy
        rw [hsel]
        simp [hpre y hy]
    exact ⟨by rw [hsome location hf], rfl⟩
  · intro hdn hslug hno
    have hf : locations.find? (locationSelected data) = none := by
      rw [List.find?_eq_none]
      intro x hx
      simp [hno x hx]
    obtain ⟨d, hd, hiff⟩ := hnone hf
    have hnil : d = [] := hiff.mpr ⟨by rw [hdn]; rfl, by rw [hslug]; rfl⟩
    rw [hd, hnil]

/-- The failing inputs: the query `is_default = true, is_preferred = true`
over a list with a preferred location that is not the default writes that
location to state; the query `is_default = true` over a list without a
default location ends without diagnostic and without state. With the display
name given as well, the first query selects nothing and adds a diagnostic. -/
theorem location_read_flag_filters_witness :
    ((data_sources.Location.Read
        { fixtures.emptyPlatform with ListLocations := fun _ => .ok [fixtures.preferredLocation] }
        (fixtures.locationByFlags (.value true) (.value true)) []).1
        = .ok ⟨[], .set (locationPopulated (fixtures.locationByFlags (.value true) (.value true))
            fixtures.preferredLocation)⟩ ∧
      (locationPopulated (fixtures.locationByFlags (.value true) (.value true))
        fixtures.preferredLocation).IsDefault = .value fixtures.preferredLocation.IsDefault) ∧
    fixtures.preferredLocation.IsDefault = false ∧
    (data_sources.Location.Read
        { fixtures.emptyPlatform with ListLocations := fun _ => .ok [fixtures.preferredLocation] }
        (fixtures.locationByFlags (.value true) .null) []).1 = .ok ⟨[], .unchanged⟩ ∧
    (∀ diagnostics state,
      (data_sources.Location.Read
        { fixtures.emptyPlatform with ListLocations := fun _ => .ok [fixtures.preferredLocation] }
        { fixtures.locationByFlags (.value true) (.value true) with
          DisplayName := .value (lit "Tallinn") } []).1 = .ok ⟨diagnostics, state⟩ →
      (∀ m, state ≠ .set m) → diagnostics ≠ []) :=
  ⟨(location_read_flag_filters _ (fixtures.locationByFlags (.value true) (.value true)) [] _
      rfl).2.1 [] [] fixtures.preferredLocation rfl rfl rfl rfl (by simp),
   rfl,
   (location_read_flag_filters _ (fixtures.locationByFlags (.value true) .null) [] _ rfl).2.2
      rfl rfl (by decide),
   ((location_read_flag_filters _
      { fixtures.locationByFlags (.value true) (.value true) with
        DisplayName := .value (lit "Tallinn") } [] _ rfl).1 (Or.inl rfl)).2⟩

/-- The IPv4 instance of package `net` on sample texts: an octet with a
leading zero is rejected in an address and in the address of a CIDR text, as
Go does; a single "0" octet and a prefix length with a leading zero are
accepted. -/
theorem netIPv4_leading_zero :
    fixtures.ParseIP (lit "10.42.0.01") = [] ∧
    fixtures.ParseIP (lit "10.42.0.1")
      = [0, 0, 0, 0, 0, 0, 0, 0, 0, 0, 255, 255, 10, 42, 0, 1] ∧
    fixtures.ParseCIDR (lit "010.42.0.0/24")
      = .error (.plain (lit "invalid CIDR address: 010.42.0.0/24")) ∧
    fixtures.ParseCIDR (lit "10.42.0.0/024") = fixtures.ParseCIDR (lit "10.42.0.0/24") ∧
    fixtures.ParseCIDR (lit "10.42.0.0/24")
      = .ok ([0, 0, 0, 0, 0, 0, 0, 0, 0, 0, 255, 255, 10, 42, 0, 0],
          ⟨[10, 42, 0, 0], [255, 255, 255, 0]⟩) := by
  decide

end Warren
